import Mathlib

set_option maxHeartbeats 1000000

/-!
Shallow embedding of BalancedBSTSet.py: a weight balanced (scapegoat style)
binary search tree whose rebalancing is a full subtree rebuild, its ordered
iterator, and the sorted merge set algebra functions.

Nodes are embedded as an inductive tree carrying the key (the data field of
the Python node) and the cached subtree counter.  Parent back references are
not stored; wherever the Python code climbs parent pointers (find_unbalanced,
successor) the climb is realized on the ancestor path of the node in
question, either by structural recursion along its search path or by an
explicit frame stack.  Mutation becomes pure state passing, and Python
exceptions become an explicit error component.

Code of the repository that is not among the extracted sources (the BSTSet
base class providing compareTo, successor and the sequence append, and the
peekable module) is modelled from the spec where the doc comments say so.
-/

namespace BBST

/-- Python exceptions that the embedded operations can raise. -/
inductive PyErr : Type
  | attributeError : PyErr
  | indexError : PyErr
  deriving DecidableEq, Repr

/-- Node layout of BalancedBSTSet.Node: the two children, the key and the
cached subtree counter.  The parent back reference is reconstructed from
context where needed. -/
inductive Tree : Type
  | nil : Tree
  | node (left : Tree) (key : Int) (counter : Nat) (right : Tree) : Tree
  deriving DecidableEq, Repr

namespace Tree

/-- Reads the counter field of a node; an absent node counts 0, exactly as
is_balanced and count_node treat absent children. -/
def ctr : Tree → Nat
  | nil => 0
  | node _ _ c _ => c

/-- Number of nodes actually present in a tree: a specification measure,
not a stored field. -/
def csize : Tree → Nat
  | nil => 0
  | node l _ _ r => csize l + csize r + 1

/-- count_node: recomputes every counter recursively, setting the counter of
each node to count_node(left) + count_node(right) + 1. -/
def count_node : Tree → Tree
  | nil => nil
  | node l k _ r =>
    let lc := count_node l
    let rc := count_node r
    node lc k (ctr lc + ctr rc + 1) rc

/-- is_balanced: an empty subtree is balanced; a node is balanced unless one
of its child counters times bottom exceeds its own counter times top. -/
def is_balanced (top bottom : Nat) : Tree → Bool
  | nil => true
  | node l _ c r =>
    if ctr l * bottom > c * top then false
    else if ctr r * bottom > c * top then false
    else true

/-- In order traversal collecting the nodes; each node is represented by its
key and counter fields, the link fields being overwritten by any rebuild. -/
def inOrder : Tree → List (Int × Nat)
  | nil => []
  | node l k c r => inOrder l ++ (k, c) :: inOrder r

/-- Keys of the tree in in order sequence. -/
def inorderKeys (t : Tree) : List Int := (inOrder t).map Prod.fst

/-- Fuel driven core of rebuild_tree.  Over the index range start..end the
Python code picks mid = ceil(start + (end-start)/2.0); on the sublist of
length L this is the relative index ceil((L-1)/2) = L/2 (floor division), the
chosen node becomes the subtree root, and the two recursive calls rebuild the
parts before and after it.  The fuel only serves termination: the wrapper
passes the list length, which always suffices. -/
def rebuild_go : Nat → List (Int × Nat) → Tree
  | 0, _ => nil
  | _ + 1, [] => nil
  | fuel + 1, x :: xs =>
    let l := x :: xs
    let m := l.length / 2
    node (rebuild_go fuel (l.take m)) (l.getD m (0, 0)).1 (l.getD m (0, 0)).2
      (rebuild_go fuel (l.drop (m + 1)))

/-- rebuild_tree: rebuilds a minimum height tree over the ordered node list
by recursive ceil midpoint selection. -/
def rebuild_tree (l : List (Int × Nat)) : Tree := rebuild_go l.length l

/-- rebalance: flattens the subtree into its ordered node list via inOrder,
rebuilds it with rebuild_tree, and recounts.  In the Python code the rebuilt
root is spliced into the remembered parent slot and count_node is then run
from the tree root; since the subtree keeps its size, all ancestors keep
their counters, so the whole tree recount is realized as a recount of the
rebuilt subtree in its slot. -/
def rebalance (t : Tree) : Tree := count_node (rebuild_tree (inOrder t))

/-- Descent loop of add: walks by comparison (compareTo of the missing BSTSet
base is the three way comparison of the keys), returns none when an equal key
is met, and otherwise attaches the new leaf with counter 0 at the empty slot
reached, as Node(key, current) does. -/
def addEntry : Tree → Int → Option Tree
  | nil, k => some (node nil k 0 nil)
  | node l nk c r, k =>
    if k < nk then (addEntry l k).map (fun lt => node lt nk c r)
    else if nk < k then (addEntry r k).map (fun rt => node l nk c rt)
    else none

/-- Self balancing step of add.  After count_node, the code calls
find_unbalanced on the parent of the new leaf, which climbs the parent chain
and returns the first unbalanced node, rebalancing it if one exists.  The
climb is realized on the way back up the search path of the new key: the
frame of the new leaf reports done = false without checking itself (the
climb starts at its parent, and a fresh leaf is balanced anyway), and each
ancestor in turn, if no rebalance happened below, either passes its
is_balanced check or is rebalanced, after which all further checks stop.
Counters were just recomputed by count_node and are not changed by the
climb. -/
def climb_rebalance (top bottom : Nat) : Tree → Int → Tree × Bool
  | nil, _ => (nil, false)
  | node l nk c r, k =>
    if k < nk then
      let p := climb_rebalance top bottom l k
      let t := node p.1 nk c r
      if p.2 then (t, true)
      else if is_balanced top bottom t then (t, false)
      else (rebalance t, true)
    else if nk < k then
      let p := climb_rebalance top bottom r k
      let t := node l nk c p.1
      if p.2 then (t, true)
      else if is_balanced top bottom t then (t, false)
      else (rebalance t, true)
    else (node l nk c r, false)

/-- findEntry: walks by comparison and returns the subtree rooted at the node
containing the key, or none. -/
def findEntry : Tree → Int → Option Tree
  | nil, _ => none
  | node l nk c r, k =>
    if k < nk then findEntry l k
    else if nk < k then findEntry r k
    else some (node l nk c r)

/-- Modelled from the spec: successor, inherited from the missing BSTSet base
class, is for the two children case of unlinkNode the leftmost node of the
right subtree (spec 4.2).  removeLeftmost pops that node from the nonempty
subtree given by its fields, splicing its right child up, and recomputes the
counters along the visited path as the count_node call following the unlink
does. -/
def removeLeftmost : Tree → Int → Nat → Tree → Int × Tree
  | nil, k, _, r => (k, r)
  | node ll lk lc lr, k, _, r =>
    let p := removeLeftmost ll lk lc lr
    (p.1, node p.2 k (ctr p.2 + ctr r + 1) r)

/-- unlinkNode applied to the subtree rooted at the node being removed.
With at most one child the replacement (the child, or nothing) is spliced
into its place; with two children the key of the in order successor is
copied into the node and the successor, which has no left child, is unlinked
instead.  The counters along the rewritten path are recomputed as the
count_node call that follows the unlink does. -/
def unlinkNode : Tree → Tree
  | nil => nil
  | node nil _ _ r => r
  | node l _ _ nil => l
  | node l _ _ (node rl rk rc rr) =>
    let p := removeLeftmost rl rk rc rr
    node l p.1 (ctr l + ctr p.2 + 1) p.2

/-- Descent pass of remove for a key found strictly below the root.  The
node holding the key is unlinked; then, mirroring count_node followed by
find_unbalanced on the original parent of that node, each ancestor on the
way back up gets its counter recomputed and, when self balancing and no
rebalance happened below, is checked with is_balanced and rebalanced when
the check fails.  The frame of the found node itself is not checked: the
climb starts at its parent. -/
def remove_descend (selfBal : Bool) (top bottom : Nat) : Tree → Int → Tree × Bool
  | nil, _ => (nil, false)
  | node l nk c r, k =>
    if k < nk then
      let p := remove_descend selfBal top bottom l k
      let t := node p.1 nk (ctr p.1 + ctr r + 1) r
      if !selfBal then (t, false)
      else if p.2 then (t, true)
      else if is_balanced top bottom t then (t, false)
      else (rebalance t, true)
    else if nk < k then
      let p := remove_descend selfBal top bottom r k
      let t := node l nk (ctr l + ctr p.1 + 1) p.1
      if !selfBal then (t, false)
      else if p.2 then (t, true)
      else if is_balanced top bottom t then (t, false)
      else (rebalance t, true)
    else (unlinkNode (node l nk c r), false)

/-- getHeight: height of a subtree, with -1 for an absent node and leaves at
height 0. -/
def getHeight : Tree → Int
  | nil => -1
  | node l _ _ r => 1 + max (getHeight l) (getHeight r)

/-- Counter consistency invariant: every counter equals one plus the counters
of the children, an absent child counting 0. -/
def counters_ok : Tree → Bool
  | nil => true
  | node l _ c r => (c == ctr l + ctr r + 1) && counters_ok l && counters_ok r

/-- Weight balance invariant at every node of the tree: the is_balanced check
holds at the root of every subtree, which is the spec clause that every node
n with parent p satisfies counter(n) * bottom <= counter(p) * top. -/
def balancedAll (top bottom : Nat) : Tree → Bool
  | nil => true
  | node l k c r =>
    is_balanced top bottom (node l k c r) && balancedAll top bottom l && balancedAll top bottom r

/-- Variant of removeLeftmost without the counter recomputation: the bare
link surgery unlinkNode performs, used where the Python code raises before
reaching its count_node call. -/
def removeLeftmostP : Tree → Int → Nat → Tree → Int × Tree
  | nil, k, _, r => (k, r)
  | node ll lk lc lr, k, c, r =>
    let p := removeLeftmostP ll lk lc lr
    (p.1, node p.2 k c r)

/-- Bare unlinkNode, applied to the subtree rooted at the node being removed:
only the links change, counters are left stale, exactly the state unlinkNode
leaves before any count_node call runs. -/
def unlinkNodeP : Tree → Tree
  | nil => nil
  | node nil _ _ r => r
  | node l _ _ nil => l
  | node l _ c (node rl rk rc rr) =>
    let p := removeLeftmostP rl rk rc rr
    node l p.1 c p.2

/-- Bare unlink of the node holding the given key, leaving every counter
stale: the descent only rewrites links on the search path. -/
def unlinkAt : Tree → Int → Tree
  | nil, _ => nil
  | node l nk c r, k =>
    if k < nk then node (unlinkAt l k) nk c r
    else if nk < k then node l nk c (unlinkAt r k)
    else unlinkNodeP (node l nk c r)

/-- Directions of the search path to a key: true descends left. -/
def pathToKey : Tree → Int → List Bool
  | nil, _ => []
  | node l nk _ r, k =>
    if k < nk then true :: pathToKey l k
    else if nk < k then false :: pathToKey r k
    else []

/-- Balance checks of every strict ancestor of the node holding the given
key, evaluated on the state the unlink and recount leave behind: at each
frame of the search path the locally recounted node is checked with
is_balanced; the found node itself is not checked, since the
find_unbalanced climb starts at its parent. -/
def ancestors_balanced (top bottom : Nat) : Tree → Int → Bool
  | nil, _ => true
  | node l nk c r, k =>
    if k < nk then
      ancestors_balanced top bottom l k &&
        is_balanced top bottom
          (node (remove_descend false top bottom l k).1 nk
            (ctr (remove_descend false top bottom l k).1 + ctr r + 1) r)
    else if nk < k then
      ancestors_balanced top bottom r k &&
        is_balanced top bottom
          (node l nk (ctr l + ctr (remove_descend false top bottom r k).1 + 1)
            (remove_descend false top bottom r k).1)
    else true

/-- Modelled from the spec (second definition for the refinement comparison
of claim C6): a remove whose find_unbalanced climb starts at the original
parent of the physically unlinked node, which in the two children case is
the former parent of the in order successor.  The done flag of the climb is
threaded from inside the right subtree of the found node, through the found
node, and on through its ancestors. -/
def removeLeftmostS (top bottom : Nat) : Tree → Int → Nat → Tree → Int × Tree × Bool
  | nil, k, _, r => (k, r, false)
  | node ll lk lc lr, k, _, r =>
    let p := removeLeftmostS top bottom ll lk lc lr
    let t := node p.2.1 k (ctr p.2.1 + ctr r + 1) r
    if p.2.2 then (p.1, t, true)
    else if is_balanced top bottom t then (p.1, t, false)
    else (p.1, rebalance t, true)

/-- Companion of removeLeftmostS at the found node: with two children the
climb continues through the found node itself (the first checked node is the
former parent of the successor); with at most one child the claim and the
code agree that the climb starts at the parent of the found node, so no
check happens here. -/
def unlinkNodeS (top bottom : Nat) : Tree → Tree × Bool
  | nil => (nil, false)
  | node nil _ _ r => (r, false)
  | node l _ _ nil => (l, false)
  | node l _ _ (node rl rk rc rr) =>
    let p := removeLeftmostS top bottom rl rk rc rr
    let t := node l p.1 (ctr l + ctr p.2.1 + 1) p.2.1
    if p.2.2 then (t, true)
    else if is_balanced top bottom t then (t, false)
    else (rebalance t, true)

/-- Descent pass of the claimed remove of C6: identical to remove_descend in
self balancing mode except that the climb is threaded out of unlinkNodeS. -/
def remove_descendS (top bottom : Nat) : Tree → Int → Tree × Bool
  | nil, _ => (nil, false)
  | node l nk c r, k =>
    if k < nk then
      let p := remove_descendS top bottom l k
      let t := node p.1 nk (ctr p.1 + ctr r + 1) r
      if p.2 then (t, true)
      else if is_balanced top bottom t then (t, false)
      else (rebalance t, true)
    else if nk < k then
      let p := remove_descendS top bottom r k
      let t := node l nk (ctr l + ctr p.1 + 1) p.1
      if p.2 then (t, true)
      else if is_balanced top bottom t then (t, false)
      else (rebalance t, true)
    else unlinkNodeS top bottom (node l nk c r)

end Tree

/-- Tree container: the root, the element count, the balance ratio top and
bottom, and the self balancing flag. -/
structure BalancedBSTSet where
  self_balancing : Bool
  top : Nat
  bottom : Nat
  root : Tree
  size : Int
  deriving DecidableEq, Repr

/-- Constructor: when bottom is zero the ratio defaults to top 2, bottom 3;
the tree starts empty. -/
def init (isSelfBalancing : Bool) (top bottom : Nat) : BalancedBSTSet :=
  if bottom = 0 then ⟨isSelfBalancing, 2, 3, Tree.nil, 0⟩
  else ⟨isSelfBalancing, top, bottom, Tree.nil, 0⟩

/-- add: on an empty tree installs the new node, bumps size and recounts
(returning before any balance check); otherwise descends by comparison,
returning false on an equal key, and on success bumps size, recounts every
counter from the root and, in self balancing mode, runs the find_unbalanced
climb from the new leaf with a rebalance at the first unbalanced ancestor. -/
def add (s : BalancedBSTSet) (k : Int) : BalancedBSTSet × Bool :=
  match s.root with
  | Tree.nil =>
    ({ s with root := Tree.count_node (Tree.node Tree.nil k 0 Tree.nil), size := s.size + 1 }, true)
  | Tree.node _ _ _ _ =>
    match Tree.addEntry s.root k with
    | none => (s, false)
    | some t1 =>
      let t2 := Tree.count_node t1
      let t3 := if s.self_balancing then (Tree.climb_rebalance s.top s.bottom t2 k).1 else t2
      ({ s with root := t3, size := s.size + 1 }, true)

/-- remove: returns false when the key is absent.  When the key sits at the
root, the captured parent is None; after the unlink and recount,
find_unbalanced(None) then either returns None when the tree became empty,
or dereferences None.parent: an AttributeError, modelled as an explicit
error on the already mutated state.  For a key found below the root the
descent pass performs the unlink, the recount and the climb from the
original parent of the found node. -/
def remove (s : BalancedBSTSet) (k : Int) : BalancedBSTSet × Bool × Option PyErr :=
  match s.root with
  | Tree.nil => (s, false, none)
  | Tree.node l nk c r =>
    match Tree.findEntry s.root k with
    | none => (s, false, none)
    | some _ =>
      if k = nk then
        let t := Tree.unlinkNode (Tree.node l nk c r)
        let err : Option PyErr :=
          if s.self_balancing && !(t = Tree.nil) then some PyErr.attributeError else none
        ({ s with root := t, size := s.size - 1 }, true, err)
      else
        let p := Tree.remove_descend s.self_balancing s.top s.bottom s.root k
        ({ s with root := p.1, size := s.size - 1 }, true, none)

/-- Public operations used to build trees. -/
inductive Op : Type
  | addK (k : Int) : Op
  | removeK (k : Int) : Op
  deriving DecidableEq, Repr

/-- Applies one public operation, keeping the state a raised remove leaves
behind. -/
def applyOp (s : BalancedBSTSet) : Op → BalancedBSTSet
  | Op.addK k => (add s k).1
  | Op.removeK k => (remove s k).1

/-- Runs a sequence of public operations from a freshly constructed tree. -/
def runOps (isSelfBalancing : Bool) (top bottom : Nat) (ops : List Op) : BalancedBSTSet :=
  ops.foldl applyOp (init isSelfBalancing top bottom)

/-- Builds a tree by a sequence of adds from a freshly constructed tree. -/
def buildAdds (isSelfBalancing : Bool) (top bottom : Nat) (ks : List Int) : BalancedBSTSet :=
  ks.foldl (fun s k => (add s k).1) (init isSelfBalancing top bottom)

/-- Parent frame of a cursor position: the fields of the parent node and the
side the position hangs on.  A stack of frames stands in for the parent back
references of the Python nodes. -/
inductive Frame : Type
  | fromLeft (key : Int) (counter : Nat) (right : Tree) : Frame
  | fromRight (left : Tree) (key : Int) (counter : Nat) : Frame
  deriving DecidableEq, Repr

/-- Cursor position: the fields of the node the cursor points at together
with its ancestor frames, innermost first. -/
structure Loc where
  left : Tree
  key : Int
  counter : Nat
  right : Tree
  path : List Frame
  deriving DecidableEq, Repr

/-- getSmallestValue: walks to the leftmost node of the given subtree,
recording the nodes passed as frames; none on an empty subtree. -/
def getSmallestValue : Tree → List Frame → Option Loc
  | Tree.nil, _ => none
  | Tree.node Tree.nil k c r, fs => some ⟨Tree.nil, k, c, r, fs⟩
  | Tree.node (Tree.node a b d e) k c r, fs =>
    getSmallestValue (Tree.node a b d e) (Frame.fromLeft k c r :: fs)

/-- Climb of the successor computation: pop frames while the position hangs
on the right of its parent; the first ancestor reached from its left side is
the successor, and running out of frames means there is none. -/
def climbLeft : List Frame → Tree → Option Loc
  | [], _ => none
  | Frame.fromLeft k c r :: fs, t => some ⟨t, k, c, r, fs⟩
  | Frame.fromRight l k c :: fs, t => climbLeft fs (Tree.node l k c t)

/-- Modelled from the spec: successor, inherited from the missing BSTSet base
class (spec 4.4).  When the node has a right child the successor is the
leftmost node of that right subtree; otherwise the parent chain is climbed
until a node is reached from its left side, and from the largest node no
successor exists. -/
def successor (loc : Loc) : Option Loc :=
  match loc.right with
  | Tree.node rl rk rc rr =>
    getSmallestValue (Tree.node rl rk rc rr) (Frame.fromRight loc.left loc.key loc.counter :: loc.path)
  | Tree.nil => climbLeft loc.path (Tree.node loc.left loc.key loc.counter Tree.nil)

/-- Iterator state: current is the node the next call yields, pending the
key of the node the last call yielded and the one an iterator remove
deletes. -/
structure BSTIterator where
  current : Option Loc
  pending : Option Int
  deriving DecidableEq, Repr

/-- Fresh iterator: current starts at the smallest node, nothing pending. -/
def iterator (s : BalancedBSTSet) : BSTIterator :=
  ⟨getSmallestValue s.root [], none⟩

/-- hasNext: whether current is not None. -/
def hasNext (it : BSTIterator) : Bool := it.current.isSome

/-- peek: the key of the current node without advancing, or none when the
iteration is exhausted. -/
def peek (it : BSTIterator) : Option Int :=
  match it.current with
  | none => none
  | some loc => some loc.key

/-- Advancing the iterator: raises StopIteration (modelled as none) when
exhausted; otherwise yields the current key, remembers it as pending and
moves current to the successor. -/
def nextEntry (it : BSTIterator) : Option (Int × BSTIterator) :=
  match it.current with
  | none => none
  | some loc => some (loc.key, ⟨successor loc, some loc.key⟩)

/-- Sequence of keys produced by repeatedly advancing from a position.  The
fuel only serves termination; the callers pass the node count, which always
suffices. -/
def iterToList : Nat → Option Loc → List Int
  | 0, _ => []
  | _ + 1, none => []
  | fuel + 1, some loc => loc.key :: iterToList fuel (successor loc)

/-- Full ascending iteration of a tree, as the for loops over the set run
it. -/
def iterKeys (t : Tree) : List Int := iterToList (Tree.csize t) (getSmallestValue t [])

/-- Keys an iterator will still see that are stored in the path frames: a
frame entered from its left side contributes its own key and then its right
subtree, a frame entered from the right contributes nothing (specification
measure). -/
def framesKeys : List Frame → List Int
  | [] => []
  | Frame.fromLeft k _ r :: fs => k :: Tree.inorderKeys r ++ framesKeys fs
  | Frame.fromRight _ _ _ :: fs => framesKeys fs

/-- Keys the iterator positioned at a location will still yield, its own key
first (specification measure). -/
def locRemaining (loc : Loc) : List Int :=
  loc.key :: Tree.inorderKeys loc.right ++ framesKeys loc.path

/-- Keys an iterator state will still yield (specification measure). -/
def iterRemainingKeys (it : BSTIterator) : List Int :=
  match it.current with
  | none => []
  | some loc => locRemaining loc

/-- Reoccupies the position at the end of a recorded direction path,
rebuilding the frame stack; used to model the cursor repositioning of the
iterator remove, whose current is pointed back at the pending node. -/
def locAtPath : Tree → List Bool → List Frame → Option Loc
  | Tree.nil, _, _ => none
  | Tree.node l nk c r, [], fs => some ⟨l, nk, c, r, fs⟩
  | Tree.node l nk c r, true :: ds, fs => locAtPath l ds (Frame.fromLeft nk c r :: fs)
  | Tree.node l nk c r, false :: ds, fs => locAtPath r ds (Frame.fromRight l nk c :: fs)

/-- Iterator remove.  Without a pending node it raises IndexError.  With one
it repositions current onto the pending node when that node has two children,
unlinks the pending node (bare link surgery, size decremented) and clears
pending; the next statement of the Python method reads the root attribute of
the tree through a name private to the iterator class, which Python name
mangling turns into an attribute the tree does not have, so every call that
reaches it raises AttributeError before the recount and rebalance can run. -/
def iterRemove (s : BalancedBSTSet) (it : BSTIterator) : BalancedBSTSet × BSTIterator × Option PyErr :=
  match it.pending with
  | none => (s, it, some PyErr.indexError)
  | some pk =>
    let twoKids :=
      match Tree.findEntry s.root pk with
      | some (Tree.node (Tree.node _ _ _ _) _ _ (Tree.node _ _ _ _)) => true
      | _ => false
    let root1 := Tree.unlinkAt s.root pk
    let cur1 := if twoKids then locAtPath root1 (Tree.pathToKey s.root pk) [] else it.current
    ({ s with root := root1, size := s.size - 1 }, ⟨cur1, none⟩, some PyErr.attributeError)

/-- Modelled from the spec: the peekable lookahead cursor over the ordered
iterator of a collection (the peekable module is absent from the sources).
A cursor is the list of elements not yet consumed: peek is its head, hasNext
its nonemptiness, advancing drops the head, and isLast reports that nothing
remains, the reading under which the union scenario of the spec completes. -/
def pk_hasNext (l : List Int) : Bool := !l.isEmpty

/-- Modelled from the spec: isLast of the peekable cursor, see pk_hasNext. -/
def pk_isLast (l : List Int) : Bool := l.isEmpty

/-- Merge loop of set_intersection: while both cursors have elements, the
side with the smaller peeked value advances, equal values are emitted once
and both sides advance.  Fuel only serves termination; the wrapper passes
the combined length. -/
def set_intersection_go : Nat → List Int → List Int → List Int
  | 0, _, _ => []
  | _ + 1, [], _ => []
  | _ + 1, _, [] => []
  | fuel + 1, x :: xs, y :: ys =>
    if x < y then set_intersection_go fuel xs (y :: ys)
    else if y < x then set_intersection_go fuel (x :: xs) ys
    else x :: set_intersection_go fuel xs ys

/-- Merge loop of set_union: while either cursor has elements, the smaller
peeked value is emitted and its side advances, equal values are emitted once
advancing both.  When one side is exhausted its peek is None and the Python
comparison raises TypeError; the handler then drains the side that still has
elements, guarded by the isLast flags of both cursors. -/
def set_union_go : Nat → List Int → List Int → List Int
  | 0, _, _ => []
  | _ + 1, [], [] => []
  | fuel + 1, [], y :: ys => y :: set_union_go fuel [] ys
  | fuel + 1, x :: xs, [] => x :: set_union_go fuel xs []
  | fuel + 1, x :: xs, y :: ys =>
    if x < y then x :: set_union_go fuel xs (y :: ys)
    else if y < x then y :: set_union_go fuel (x :: xs) ys
    else x :: set_union_go fuel xs ys

/-- Inner scan of set_diff: walks the second cursor from the start until a
value equal to the probe is met, reporting whether one was found. -/
def set_diff_scan (x : Int) : List Int → Bool
  | [] => false
  | y :: ys => if y == x then true else set_diff_scan x ys

/-- Outer loop of set_diff: every element of the first collection is emitted
unless a full rescan of the second collection finds an equal value. -/
def set_diff_go : List Int → List Int → List Int
  | [], _ => []
  | x :: xs, l2 =>
    if set_diff_scan x l2 then set_diff_go xs l2
    else x :: set_diff_go xs l2

/-- Modelled from the spec: append of the result collection, inherited from
the missing BSTSet base, accumulates by ordered insertion, that is by add;
the result starts as a freshly constructed default collection of the same
kind as the first argument. -/
def appendAll (s : BalancedBSTSet) (l : List Int) : BalancedBSTSet :=
  l.foldl (fun a x => (add a x).1) s

/-- set_intersection over two collections, consuming their ascending
iterations through peekable cursors. -/
def set_intersection (s1 s2 : BalancedBSTSet) : BalancedBSTSet :=
  appendAll (init false 0 0)
    (set_intersection_go ((iterKeys s1.root).length + (iterKeys s2.root).length)
      (iterKeys s1.root) (iterKeys s2.root))

/-- set_union over two collections, consuming their ascending iterations
through peekable cursors. -/
def set_union (s1 s2 : BalancedBSTSet) : BalancedBSTSet :=
  appendAll (init false 0 0)
    (set_union_go ((iterKeys s1.root).length + (iterKeys s2.root).length)
      (iterKeys s1.root) (iterKeys s2.root))

/-- set_diff over two collections: elements of the first whose rescan of the
second finds no equal value. -/
def set_diff (s1 s2 : BalancedBSTSet) : BalancedBSTSet :=
  appendAll (init false 0 0) (set_diff_go (iterKeys s1.root) (iterKeys s2.root))

/-- Wrapper of the claimed remove of C6 (see remove_descendS): the climb
starts at the original parent of the physically unlinked node.  For a key
found at the root with at most one child the captured parent is None exactly
as in the code; with two children the physically unlinked node is the
successor, whose parent exists, so the climb runs inside the root subtree. -/
def removeSpecClaimed (s : BalancedBSTSet) (k : Int) : BalancedBSTSet × Bool × Option PyErr :=
  match s.root with
  | Tree.nil => (s, false, none)
  | Tree.node l nk c r =>
    match Tree.findEntry s.root k with
    | none => (s, false, none)
    | some _ =>
      if k = nk then
        match l, r with
        | Tree.node _ _ _ _, Tree.node _ _ _ _ =>
          let p := Tree.unlinkNodeS s.top s.bottom (Tree.node l nk c r)
          ({ s with root := p.1, size := s.size - 1 }, true, none)
        | _, _ =>
          let t := Tree.unlinkNode (Tree.node l nk c r)
          let err : Option PyErr :=
            if s.self_balancing && !(t = Tree.nil) then some PyErr.attributeError else none
          ({ s with root := t, size := s.size - 1 }, true, err)
      else
        let p := Tree.remove_descendS s.top s.bottom s.root k
        ({ s with root := p.1, size := s.size - 1 }, true, none)

/-- Optimized insert used only inside proofs and computations: counters are
bumped along the descent instead of being recomputed from the root, which
coincides with the add path on counter consistent trees (proved below). -/
def insertFast : Tree → Int → Option Tree
  | Tree.nil, k => some (Tree.node Tree.nil k 1 Tree.nil)
  | Tree.node l nk c r, k =>
    if k < nk then (insertFast l k).map (fun lt => Tree.node lt nk (c + 1) r)
    else if nk < k then (insertFast r k).map (fun rt => Tree.node l nk (c + 1) rt)
    else none

/-- Optimized add built on insertFast; equal to add on counter consistent
states (proved below). -/
def addFast (s : BalancedBSTSet) (k : Int) : BalancedBSTSet × Bool :=
  match s.root with
  | Tree.nil => ({ s with root := Tree.node Tree.nil k 1 Tree.nil, size := s.size + 1 }, true)
  | Tree.node _ _ _ _ =>
    match insertFast s.root k with
    | none => (s, false)
    | some t2 =>
      let t3 := if s.self_balancing then (Tree.climb_rebalance s.top s.bottom t2 k).1 else t2
      ({ s with root := t3, size := s.size + 1 }, true)

/-- Fold of addFast, the optimized buildAdds. -/
def buildFast (isSelfBalancing : Bool) (top bottom : Nat) (ks : List Int) : BalancedBSTSet :=
  ks.foldl (fun s k => (addFast s k).1) (init isSelfBalancing top bottom)

/-- Right spine holding the given keys in order, with correct counters: the
shape the plain tree takes under strictly ascending insertion. -/
def chainOf : List Int → Tree
  | [] => Tree.nil
  | x :: xs => Tree.node Tree.nil x (xs.length + 1) (chainOf xs)

/-- Consecutive integer keys a+1, a+2, ..., b. -/
def keySeg (a b : Nat) : List Int := (List.range (b - a)).map (fun i => ((a + i + 1 : Nat) : Int))

/-- Insertion sequence refuting the global balance claim: every prefix state
is balanced, each add completes, and after the last add the climb rebuilds
the subtree rooted at 20 while the root stays unbalanced. -/
def cexAdds : List Int := [50, 30, 70, 20, 80, 40, 10, 45, 5, 3]

/-- Counter consistent self balancing tree used for the remove comparison of
claim C6: the node 20 has two children, its successor 25 is its right child,
and after the unlink the subtree at the slot of 20 is unbalanced while the
root stays balanced. -/
def cexTree : Tree :=
  Tree.node
    (Tree.node
      (Tree.node
        (Tree.node (Tree.node Tree.nil 3 1 Tree.nil) 5 3 (Tree.node Tree.nil 7 1 Tree.nil))
        10 5 (Tree.node Tree.nil 15 1 Tree.nil))
      20 8
      (Tree.node Tree.nil 25 2 (Tree.node Tree.nil 27 1 Tree.nil)))
    30 12
    (Tree.node (Tree.node Tree.nil 35 1 Tree.nil) 40 3 (Tree.node Tree.nil 45 1 Tree.nil))

/-- Container around cexTree in self balancing mode with the default
ratio. -/
def cexSet : BalancedBSTSet := ⟨true, 2, 3, cexTree, 12⟩

end BBST
def BBST.lit250 : BBST.Tree :=
BBST.Tree.node
  (BBST.Tree.node
    (BBST.Tree.node
      (BBST.Tree.node
        (BBST.Tree.node
          (BBST.Tree.node
            (BBST.Tree.node
              (BBST.Tree.node (BBST.Tree.nil) 1 1 (BBST.Tree.nil))
              2
              3
              (BBST.Tree.node (BBST.Tree.nil) 3 1 (BBST.Tree.nil)))
            4
            6
            (BBST.Tree.node (BBST.Tree.node (BBST.Tree.nil) 5 1 (BBST.Tree.nil)) 6 2 (BBST.Tree.nil)))
          7
          12
          (BBST.Tree.node
            (BBST.Tree.node (BBST.Tree.node (BBST.Tree.nil) 8 1 (BBST.Tree.nil)) 9 2 (BBST.Tree.nil))
            10
            5
            (BBST.Tree.node (BBST.Tree.node (BBST.Tree.nil) 11 1 (BBST.Tree.nil)) 12 2 (BBST.Tree.nil))))
        13
        24
        (BBST.Tree.node
          (BBST.Tree.node
            (BBST.Tree.node (BBST.Tree.node (BBST.Tree.nil) 14 1 (BBST.Tree.nil)) 15 2 (BBST.Tree.nil))
            16
            5
            (BBST.Tree.node (BBST.Tree.node (BBST.Tree.nil) 17 1 (BBST.Tree.nil)) 18 2 (BBST.Tree.nil)))
          19
          11
          (BBST.Tree.node
            (BBST.Tree.node (BBST.Tree.node (BBST.Tree.nil) 20 1 (BBST.Tree.nil)) 21 2 (BBST.Tree.nil))
            22
            5
            (BBST.Tree.node (BBST.Tree.node (BBST.Tree.nil) 23 1 (BBST.Tree.nil)) 24 2 (BBST.Tree.nil)))))
      25
      49
      (BBST.Tree.node
        (BBST.Tree.node
          (BBST.Tree.node
            (BBST.Tree.node
              (BBST.Tree.node (BBST.Tree.nil) 26 1 (BBST.Tree.nil))
              27
              3
              (BBST.Tree.node (BBST.Tree.nil) 28 1 (BBST.Tree.nil)))
            29
            6
            (BBST.Tree.node (BBST.Tree.node (BBST.Tree.nil) 30 1 (BBST.Tree.nil)) 31 2 (BBST.Tree.nil)))
          32
          12
          (BBST.Tree.node
            (BBST.Tree.node (BBST.Tree.node (BBST.Tree.nil) 33 1 (BBST.Tree.nil)) 34 2 (BBST.Tree.nil))
            35
            5
            (BBST.Tree.node (BBST.Tree.node (BBST.Tree.nil) 36 1 (BBST.Tree.nil)) 37 2 (BBST.Tree.nil))))
        38
        24
        (BBST.Tree.node
          (BBST.Tree.node
            (BBST.Tree.node (BBST.Tree.node (BBST.Tree.nil) 39 1 (BBST.Tree.nil)) 40 2 (BBST.Tree.nil))
            41
            5
            (BBST.Tree.node (BBST.Tree.node (BBST.Tree.nil) 42 1 (BBST.Tree.nil)) 43 2 (BBST.Tree.nil)))
          44
          11
          (BBST.Tree.node
            (BBST.Tree.node (BBST.Tree.node (BBST.Tree.nil) 45 1 (BBST.Tree.nil)) 46 2 (BBST.Tree.nil))
            47
            5
            (BBST.Tree.node (BBST.Tree.node (BBST.Tree.nil) 48 1 (BBST.Tree.nil)) 49 2 (BBST.Tree.nil))))))
    50
    98
    (BBST.Tree.node
      (BBST.Tree.node
        (BBST.Tree.node
          (BBST.Tree.node
            (BBST.Tree.node
              (BBST.Tree.node (BBST.Tree.nil) 51 1 (BBST.Tree.nil))
              52
              3
              (BBST.Tree.node (BBST.Tree.nil) 53 1 (BBST.Tree.nil)))
            54
            6
            (BBST.Tree.node (BBST.Tree.node (BBST.Tree.nil) 55 1 (BBST.Tree.nil)) 56 2 (BBST.Tree.nil)))
          57
          12
          (BBST.Tree.node
            (BBST.Tree.node (BBST.Tree.node (BBST.Tree.nil) 58 1 (BBST.Tree.nil)) 59 2 (BBST.Tree.nil))
            60
            5
            (BBST.Tree.node (BBST.Tree.node (BBST.Tree.nil) 61 1 (BBST.Tree.nil)) 62 2 (BBST.Tree.nil))))
        63
        24
        (BBST.Tree.node
          (BBST.Tree.node
            (BBST.Tree.node (BBST.Tree.node (BBST.Tree.nil) 64 1 (BBST.Tree.nil)) 65 2 (BBST.Tree.nil))
            66
            5
            (BBST.Tree.node (BBST.Tree.node (BBST.Tree.nil) 67 1 (BBST.Tree.nil)) 68 2 (BBST.Tree.nil)))
          69
          11
          (BBST.Tree.node
            (BBST.Tree.node (BBST.Tree.node (BBST.Tree.nil) 70 1 (BBST.Tree.nil)) 71 2 (BBST.Tree.nil))
            72
            5
            (BBST.Tree.node (BBST.Tree.node (BBST.Tree.nil) 73 1 (BBST.Tree.nil)) 74 2 (BBST.Tree.nil)))))
      75
      48
      (BBST.Tree.node
        (BBST.Tree.node
          (BBST.Tree.node
            (BBST.Tree.node (BBST.Tree.node (BBST.Tree.nil) 76 1 (BBST.Tree.nil)) 77 2 (BBST.Tree.nil))
            78
            5
            (BBST.Tree.node (BBST.Tree.node (BBST.Tree.nil) 79 1 (BBST.Tree.nil)) 80 2 (BBST.Tree.nil)))
          81
          11
          (BBST.Tree.node
            (BBST.Tree.node (BBST.Tree.node (BBST.Tree.nil) 82 1 (BBST.Tree.nil)) 83 2 (BBST.Tree.nil))
            84
            5
            (BBST.Tree.node (BBST.Tree.node (BBST.Tree.nil) 85 1 (BBST.Tree.nil)) 86 2 (BBST.Tree.nil))))
        87
        23
        (BBST.Tree.node
          (BBST.Tree.node
            (BBST.Tree.node (BBST.Tree.node (BBST.Tree.nil) 88 1 (BBST.Tree.nil)) 89 2 (BBST.Tree.nil))
            90
            5
            (BBST.Tree.node (BBST.Tree.node (BBST.Tree.nil) 91 1 (BBST.Tree.nil)) 92 2 (BBST.Tree.nil)))
          93
          11
          (BBST.Tree.node
            (BBST.Tree.node (BBST.Tree.node (BBST.Tree.nil) 94 1 (BBST.Tree.nil)) 95 2 (BBST.Tree.nil))
            96
            5
            (BBST.Tree.node (BBST.Tree.node (BBST.Tree.nil) 97 1 (BBST.Tree.nil)) 98 2 (BBST.Tree.nil)))))))
  99
  250
  (BBST.Tree.node
    (BBST.Tree.node
      (BBST.Tree.node
        (BBST.Tree.node
          (BBST.Tree.node
            (BBST.Tree.node
              (BBST.Tree.node (BBST.Tree.nil) 100 1 (BBST.Tree.nil))
              101
              3
              (BBST.Tree.node (BBST.Tree.nil) 102 1 (BBST.Tree.nil)))
            103
            6
            (BBST.Tree.node (BBST.Tree.node (BBST.Tree.nil) 104 1 (BBST.Tree.nil)) 105 2 (BBST.Tree.nil)))
          106
          12
          (BBST.Tree.node
            (BBST.Tree.node (BBST.Tree.node (BBST.Tree.nil) 107 1 (BBST.Tree.nil)) 108 2 (BBST.Tree.nil))
            109
            5
            (BBST.Tree.node (BBST.Tree.node (BBST.Tree.nil) 110 1 (BBST.Tree.nil)) 111 2 (BBST.Tree.nil))))
        112
        24
        (BBST.Tree.node
          (BBST.Tree.node
            (BBST.Tree.node (BBST.Tree.node (BBST.Tree.nil) 113 1 (BBST.Tree.nil)) 114 2 (BBST.Tree.nil))
            115
            5
            (BBST.Tree.node (BBST.Tree.node (BBST.Tree.nil) 116 1 (BBST.Tree.nil)) 117 2 (BBST.Tree.nil)))
          118
          11
          (BBST.Tree.node
            (BBST.Tree.node (BBST.Tree.node (BBST.Tree.nil) 119 1 (BBST.Tree.nil)) 120 2 (BBST.Tree.nil))
            121
            5
            (BBST.Tree.node (BBST.Tree.node (BBST.Tree.nil) 122 1 (BBST.Tree.nil)) 123 2 (BBST.Tree.nil)))))
      124
      49
      (BBST.Tree.node
        (BBST.Tree.node
          (BBST.Tree.node
            (BBST.Tree.node
              (BBST.Tree.node (BBST.Tree.nil) 125 1 (BBST.Tree.nil))
              126
              3
              (BBST.Tree.node (BBST.Tree.nil) 127 1 (BBST.Tree.nil)))
            128
            6
            (BBST.Tree.node (BBST.Tree.node (BBST.Tree.nil) 129 1 (BBST.Tree.nil)) 130 2 (BBST.Tree.nil)))
          131
          12
          (BBST.Tree.node
            (BBST.Tree.node (BBST.Tree.node (BBST.Tree.nil) 132 1 (BBST.Tree.nil)) 133 2 (BBST.Tree.nil))
            134
            5
            (BBST.Tree.node (BBST.Tree.node (BBST.Tree.nil) 135 1 (BBST.Tree.nil)) 136 2 (BBST.Tree.nil))))
        137
        24
        (BBST.Tree.node
          (BBST.Tree.node
            (BBST.Tree.node (BBST.Tree.node (BBST.Tree.nil) 138 1 (BBST.Tree.nil)) 139 2 (BBST.Tree.nil))
            140
            5
            (BBST.Tree.node (BBST.Tree.node (BBST.Tree.nil) 141 1 (BBST.Tree.nil)) 142 2 (BBST.Tree.nil)))
          143
          11
          (BBST.Tree.node
            (BBST.Tree.node (BBST.Tree.node (BBST.Tree.nil) 144 1 (BBST.Tree.nil)) 145 2 (BBST.Tree.nil))
            146
            5
            (BBST.Tree.node (BBST.Tree.node (BBST.Tree.nil) 147 1 (BBST.Tree.nil)) 148 2 (BBST.Tree.nil))))))
    149
    151
    (BBST.Tree.node
      (BBST.Tree.node
        (BBST.Tree.node
          (BBST.Tree.node
            (BBST.Tree.node
              (BBST.Tree.node (BBST.Tree.node (BBST.Tree.nil) 150 1 (BBST.Tree.nil)) 151 2 (BBST.Tree.nil))
              152
              4
              (BBST.Tree.node (BBST.Tree.nil) 153 1 (BBST.Tree.nil)))
            154
            9
            (BBST.Tree.node
              (BBST.Tree.node (BBST.Tree.node (BBST.Tree.nil) 155 1 (BBST.Tree.nil)) 156 2 (BBST.Tree.nil))
              157
              4
              (BBST.Tree.node (BBST.Tree.nil) 158 1 (BBST.Tree.nil))))
          159
          19
          (BBST.Tree.node
            (BBST.Tree.node
              (BBST.Tree.node (BBST.Tree.node (BBST.Tree.nil) 160 1 (BBST.Tree.nil)) 161 2 (BBST.Tree.nil))
              162
              4
              (BBST.Tree.node (BBST.Tree.nil) 163 1 (BBST.Tree.nil)))
            164
            9
            (BBST.Tree.node
              (BBST.Tree.node (BBST.Tree.node (BBST.Tree.nil) 165 1 (BBST.Tree.nil)) 166 2 (BBST.Tree.nil))
              167
              4
              (BBST.Tree.node (BBST.Tree.nil) 168 1 (BBST.Tree.nil)))))
        169
        39
        (BBST.Tree.node
          (BBST.Tree.node
            (BBST.Tree.node
              (BBST.Tree.node (BBST.Tree.node (BBST.Tree.nil) 170 1 (BBST.Tree.nil)) 171 2 (BBST.Tree.nil))
              172
              4
              (BBST.Tree.node (BBST.Tree.nil) 173 1 (BBST.Tree.nil)))
            174
            9
            (BBST.Tree.node
              (BBST.Tree.node (BBST.Tree.node (BBST.Tree.nil) 175 1 (BBST.Tree.nil)) 176 2 (BBST.Tree.nil))
              177
              4
              (BBST.Tree.node (BBST.Tree.nil) 178 1 (BBST.Tree.nil))))
          179
          19
          (BBST.Tree.node
            (BBST.Tree.node
              (BBST.Tree.node (BBST.Tree.node (BBST.Tree.nil) 180 1 (BBST.Tree.nil)) 181 2 (BBST.Tree.nil))
              182
              4
              (BBST.Tree.node (BBST.Tree.nil) 183 1 (BBST.Tree.nil)))
            184
            9
            (BBST.Tree.node
              (BBST.Tree.node (BBST.Tree.node (BBST.Tree.nil) 185 1 (BBST.Tree.nil)) 186 2 (BBST.Tree.nil))
              187
              4
              (BBST.Tree.node (BBST.Tree.nil) 188 1 (BBST.Tree.nil))))))
      189
      101
      (BBST.Tree.node
        (BBST.Tree.node
          (BBST.Tree.node
            (BBST.Tree.node
              (BBST.Tree.node
                (BBST.Tree.node (BBST.Tree.nil) 190 1 (BBST.Tree.nil))
                191
                3
                (BBST.Tree.node (BBST.Tree.nil) 192 1 (BBST.Tree.nil)))
              193
              7
              (BBST.Tree.node
                (BBST.Tree.node (BBST.Tree.nil) 194 1 (BBST.Tree.nil))
                195
                3
                (BBST.Tree.node (BBST.Tree.nil) 196 1 (BBST.Tree.nil))))
            197
            15
            (BBST.Tree.node
              (BBST.Tree.node
                (BBST.Tree.node (BBST.Tree.nil) 198 1 (BBST.Tree.nil))
                199
                3
                (BBST.Tree.node (BBST.Tree.nil) 200 1 (BBST.Tree.nil)))
              201
              7
              (BBST.Tree.node
                (BBST.Tree.node (BBST.Tree.nil) 202 1 (BBST.Tree.nil))
                203
                3
                (BBST.Tree.node (BBST.Tree.nil) 204 1 (BBST.Tree.nil)))))
          205
          30
          (BBST.Tree.node
            (BBST.Tree.node
              (BBST.Tree.node
                (BBST.Tree.node (BBST.Tree.nil) 206 1 (BBST.Tree.nil))
                207
                3
                (BBST.Tree.node (BBST.Tree.nil) 208 1 (BBST.Tree.nil)))
              209
              7
              (BBST.Tree.node
                (BBST.Tree.node (BBST.Tree.nil) 210 1 (BBST.Tree.nil))
                211
                3
                (BBST.Tree.node (BBST.Tree.nil) 212 1 (BBST.Tree.nil))))
            213
            14
            (BBST.Tree.node
              (BBST.Tree.node
                (BBST.Tree.node (BBST.Tree.nil) 214 1 (BBST.Tree.nil))
                215
                3
                (BBST.Tree.node (BBST.Tree.nil) 216 1 (BBST.Tree.nil)))
              217
              6
              (BBST.Tree.node (BBST.Tree.node (BBST.Tree.nil) 218 1 (BBST.Tree.nil)) 219 2 (BBST.Tree.nil)))))
        220
        61
        (BBST.Tree.node
          (BBST.Tree.node
            (BBST.Tree.node
              (BBST.Tree.node
                (BBST.Tree.node (BBST.Tree.nil) 221 1 (BBST.Tree.nil))
                222
                3
                (BBST.Tree.node (BBST.Tree.nil) 223 1 (BBST.Tree.nil)))
              224
              7
              (BBST.Tree.node
                (BBST.Tree.node (BBST.Tree.nil) 225 1 (BBST.Tree.nil))
                226
                3
                (BBST.Tree.node (BBST.Tree.nil) 227 1 (BBST.Tree.nil))))
            228
            15
            (BBST.Tree.node
              (BBST.Tree.node
                (BBST.Tree.node (BBST.Tree.nil) 229 1 (BBST.Tree.nil))
                230
                3
                (BBST.Tree.node (BBST.Tree.nil) 231 1 (BBST.Tree.nil)))
              232
              7
              (BBST.Tree.node
                (BBST.Tree.node (BBST.Tree.nil) 233 1 (BBST.Tree.nil))
                234
                3
                (BBST.Tree.node (BBST.Tree.nil) 235 1 (BBST.Tree.nil)))))
          236
          30
          (BBST.Tree.node
            (BBST.Tree.node
              (BBST.Tree.node
                (BBST.Tree.node (BBST.Tree.nil) 237 1 (BBST.Tree.nil))
                238
                3
                (BBST.Tree.node (BBST.Tree.nil) 239 1 (BBST.Tree.nil)))
              240
              7
              (BBST.Tree.node
                (BBST.Tree.node (BBST.Tree.nil) 241 1 (BBST.Tree.nil))
                242
                3
                (BBST.Tree.node (BBST.Tree.nil) 243 1 (BBST.Tree.nil))))
            244
            14
            (BBST.Tree.node
              (BBST.Tree.node
                (BBST.Tree.node (BBST.Tree.nil) 245 1 (BBST.Tree.nil))
                246
                3
                (BBST.Tree.node (BBST.Tree.nil) 247 1 (BBST.Tree.nil)))
              248
              6
              (BBST.Tree.node (BBST.Tree.node (BBST.Tree.nil) 249 1 (BBST.Tree.nil)) 250 2 (BBST.Tree.nil))))))))

def BBST.lit500 : BBST.Tree :=
BBST.Tree.node
  (BBST.Tree.node
    (BBST.Tree.node
      (BBST.Tree.node
        (BBST.Tree.node
          (BBST.Tree.node
            (BBST.Tree.node
              (BBST.Tree.node
                (BBST.Tree.node (BBST.Tree.nil) 1 1 (BBST.Tree.nil))
                2
                3
                (BBST.Tree.node (BBST.Tree.nil) 3 1 (BBST.Tree.nil)))
              4
              7
              (BBST.Tree.node
                (BBST.Tree.node (BBST.Tree.nil) 5 1 (BBST.Tree.nil))
                6
                3
                (BBST.Tree.node (BBST.Tree.nil) 7 1 (BBST.Tree.nil))))
            8
            14
            (BBST.Tree.node
              (BBST.Tree.node
                (BBST.Tree.node (BBST.Tree.nil) 9 1 (BBST.Tree.nil))
                10
                3
                (BBST.Tree.node (BBST.Tree.nil) 11 1 (BBST.Tree.nil)))
              12
              6
              (BBST.Tree.node (BBST.Tree.node (BBST.Tree.nil) 13 1 (BBST.Tree.nil)) 14 2 (BBST.Tree.nil))))
          15
          28
          (BBST.Tree.node
            (BBST.Tree.node
              (BBST.Tree.node
                (BBST.Tree.node (BBST.Tree.nil) 16 1 (BBST.Tree.nil))
                17
                3
                (BBST.Tree.node (BBST.Tree.nil) 18 1 (BBST.Tree.nil)))
              19
              6
              (BBST.Tree.node (BBST.Tree.node (BBST.Tree.nil) 20 1 (BBST.Tree.nil)) 21 2 (BBST.Tree.nil)))
            22
            13
            (BBST.Tree.node
              (BBST.Tree.node
                (BBST.Tree.node (BBST.Tree.nil) 23 1 (BBST.Tree.nil))
                24
                3
                (BBST.Tree.node (BBST.Tree.nil) 25 1 (BBST.Tree.nil)))
              26
              6
              (BBST.Tree.node (BBST.Tree.node (BBST.Tree.nil) 27 1 (BBST.Tree.nil)) 28 2 (BBST.Tree.nil)))))
        29
        56
        (BBST.Tree.node
          (BBST.Tree.node
            (BBST.Tree.node
              (BBST.Tree.node
                (BBST.Tree.node (BBST.Tree.nil) 30 1 (BBST.Tree.nil))
                31
                3
                (BBST.Tree.node (BBST.Tree.nil) 32 1 (BBST.Tree.nil)))
              33
              6
              (BBST.Tree.node (BBST.Tree.node (BBST.Tree.nil) 34 1 (BBST.Tree.nil)) 35 2 (BBST.Tree.nil)))
            36
            13
            (BBST.Tree.node
              (BBST.Tree.node
                (BBST.Tree.node (BBST.Tree.nil) 37 1 (BBST.Tree.nil))
                38
                3
                (BBST.Tree.node (BBST.Tree.nil) 39 1 (BBST.Tree.nil)))
              40
              6
              (BBST.Tree.node (BBST.Tree.node (BBST.Tree.nil) 41 1 (BBST.Tree.nil)) 42 2 (BBST.Tree.nil))))
          43
          27
          (BBST.Tree.node
            (BBST.Tree.node
              (BBST.Tree.node
                (BBST.Tree.node (BBST.Tree.nil) 44 1 (BBST.Tree.nil))
                45
                3
                (BBST.Tree.node (BBST.Tree.nil) 46 1 (BBST.Tree.nil)))
              47
              6
              (BBST.Tree.node (BBST.Tree.node (BBST.Tree.nil) 48 1 (BBST.Tree.nil)) 49 2 (BBST.Tree.nil)))
            50
            13
            (BBST.Tree.node
              (BBST.Tree.node
                (BBST.Tree.node (BBST.Tree.nil) 51 1 (BBST.Tree.nil))
                52
                3
                (BBST.Tree.node (BBST.Tree.nil) 53 1 (BBST.Tree.nil)))
              54
              6
              (BBST.Tree.node (BBST.Tree.node (BBST.Tree.nil) 55 1 (BBST.Tree.nil)) 56 2 (BBST.Tree.nil))))))
      57
      112
      (BBST.Tree.node
        (BBST.Tree.node
          (BBST.Tree.node
            (BBST.Tree.node
              (BBST.Tree.node
                (BBST.Tree.node (BBST.Tree.nil) 58 1 (BBST.Tree.nil))
                59
                3
                (BBST.Tree.node (BBST.Tree.nil) 60 1 (BBST.Tree.nil)))
              61
              6
              (BBST.Tree.node (BBST.Tree.node (BBST.Tree.nil) 62 1 (BBST.Tree.nil)) 63 2 (BBST.Tree.nil)))
            64
            13
            (BBST.Tree.node
              (BBST.Tree.node
                (BBST.Tree.node (BBST.Tree.nil) 65 1 (BBST.Tree.nil))
                66
                3
                (BBST.Tree.node (BBST.Tree.nil) 67 1 (BBST.Tree.nil)))
              68
              6
              (BBST.Tree.node (BBST.Tree.node (BBST.Tree.nil) 69 1 (BBST.Tree.nil)) 70 2 (BBST.Tree.nil))))
          71
          27
          (BBST.Tree.node
            (BBST.Tree.node
              (BBST.Tree.node
                (BBST.Tree.node (BBST.Tree.nil) 72 1 (BBST.Tree.nil))
                73
                3
                (BBST.Tree.node (BBST.Tree.nil) 74 1 (BBST.Tree.nil)))
              75
              6
              (BBST.Tree.node (BBST.Tree.node (BBST.Tree.nil) 76 1 (BBST.Tree.nil)) 77 2 (BBST.Tree.nil)))
            78
            13
            (BBST.Tree.node
              (BBST.Tree.node
                (BBST.Tree.node (BBST.Tree.nil) 79 1 (BBST.Tree.nil))
                80
                3
                (BBST.Tree.node (BBST.Tree.nil) 81 1 (BBST.Tree.nil)))
              82
              6
              (BBST.Tree.node (BBST.Tree.node (BBST.Tree.nil) 83 1 (BBST.Tree.nil)) 84 2 (BBST.Tree.nil)))))
        85
        55
        (BBST.Tree.node
          (BBST.Tree.node
            (BBST.Tree.node
              (BBST.Tree.node
                (BBST.Tree.node (BBST.Tree.nil) 86 1 (BBST.Tree.nil))
                87
                3
                (BBST.Tree.node (BBST.Tree.nil) 88 1 (BBST.Tree.nil)))
              89
              6
              (BBST.Tree.node (BBST.Tree.node (BBST.Tree.nil) 90 1 (BBST.Tree.nil)) 91 2 (BBST.Tree.nil)))
            92
            13
            (BBST.Tree.node
              (BBST.Tree.node
                (BBST.Tree.node (BBST.Tree.nil) 93 1 (BBST.Tree.nil))
                94
                3
                (BBST.Tree.node (BBST.Tree.nil) 95 1 (BBST.Tree.nil)))
              96
              6
              (BBST.Tree.node (BBST.Tree.node (BBST.Tree.nil) 97 1 (BBST.Tree.nil)) 98 2 (BBST.Tree.nil))))
          99
          27
          (BBST.Tree.node
            (BBST.Tree.node
              (BBST.Tree.node
                (BBST.Tree.node (BBST.Tree.nil) 100 1 (BBST.Tree.nil))
                101
                3
                (BBST.Tree.node (BBST.Tree.nil) 102 1 (BBST.Tree.nil)))
              103
              6
              (BBST.Tree.node (BBST.Tree.node (BBST.Tree.nil) 104 1 (BBST.Tree.nil)) 105 2 (BBST.Tree.nil)))
            106
            13
            (BBST.Tree.node
              (BBST.Tree.node
                (BBST.Tree.node (BBST.Tree.nil) 107 1 (BBST.Tree.nil))
                108
                3
                (BBST.Tree.node (BBST.Tree.nil) 109 1 (BBST.Tree.nil)))
              110
              6
              (BBST.Tree.node (BBST.Tree.node (BBST.Tree.nil) 111 1 (BBST.Tree.nil)) 112 2 (BBST.Tree.nil)))))))
    113
    225
    (BBST.Tree.node
      (BBST.Tree.node
        (BBST.Tree.node
          (BBST.Tree.node
            (BBST.Tree.node
              (BBST.Tree.node
                (BBST.Tree.node (BBST.Tree.nil) 114 1 (BBST.Tree.nil))
                115
                3
                (BBST.Tree.node (BBST.Tree.nil) 116 1 (BBST.Tree.nil)))
              117
              7
              (BBST.Tree.node
                (BBST.Tree.node (BBST.Tree.nil) 118 1 (BBST.Tree.nil))
                119
                3
                (BBST.Tree.node (BBST.Tree.nil) 120 1 (BBST.Tree.nil))))
            121
            14
            (BBST.Tree.node
              (BBST.Tree.node
                (BBST.Tree.node (BBST.Tree.nil) 122 1 (BBST.Tree.nil))
                123
                3
                (BBST.Tree.node (BBST.Tree.nil) 124 1 (BBST.Tree.nil)))
              125
              6
              (BBST.Tree.node (BBST.Tree.node (BBST.Tree.nil) 126 1 (BBST.Tree.nil)) 127 2 (BBST.Tree.nil))))
          128
          28
          (BBST.Tree.node
            (BBST.Tree.node
              (BBST.Tree.node
                (BBST.Tree.node (BBST.Tree.nil) 129 1 (BBST.Tree.nil))
                130
                3
                (BBST.Tree.node (BBST.Tree.nil) 131 1 (BBST.Tree.nil)))
              132
              6
              (BBST.Tree.node (BBST.Tree.node (BBST.Tree.nil) 133 1 (BBST.Tree.nil)) 134 2 (BBST.Tree.nil)))
            135
            13
            (BBST.Tree.node
              (BBST.Tree.node
                (BBST.Tree.node (BBST.Tree.nil) 136 1 (BBST.Tree.nil))
                137
                3
                (BBST.Tree.node (BBST.Tree.nil) 138 1 (BBST.Tree.nil)))
              139
              6
              (BBST.Tree.node (BBST.Tree.node (BBST.Tree.nil) 140 1 (BBST.Tree.nil)) 141 2 (BBST.Tree.nil)))))
        142
        56
        (BBST.Tree.node
          (BBST.Tree.node
            (BBST.Tree.node
              (BBST.Tree.node
                (BBST.Tree.node (BBST.Tree.nil) 143 1 (BBST.Tree.nil))
                144
                3
                (BBST.Tree.node (BBST.Tree.nil) 145 1 (BBST.Tree.nil)))
              146
              6
              (BBST.Tree.node (BBST.Tree.node (BBST.Tree.nil) 147 1 (BBST.Tree.nil)) 148 2 (BBST.Tree.nil)))
            149
            13
            (BBST.Tree.node
              (BBST.Tree.node
                (BBST.Tree.node (BBST.Tree.nil) 150 1 (BBST.Tree.nil))
                151
                3
                (BBST.Tree.node (BBST.Tree.nil) 152 1 (BBST.Tree.nil)))
              153
              6
              (BBST.Tree.node (BBST.Tree.node (BBST.Tree.nil) 154 1 (BBST.Tree.nil)) 155 2 (BBST.Tree.nil))))
          156
          27
          (BBST.Tree.node
            (BBST.Tree.node
              (BBST.Tree.node
                (BBST.Tree.node (BBST.Tree.nil) 157 1 (BBST.Tree.nil))
                158
                3
                (BBST.Tree.node (BBST.Tree.nil) 159 1 (BBST.Tree.nil)))
              160
              6
              (BBST.Tree.node (BBST.Tree.node (BBST.Tree.nil) 161 1 (BBST.Tree.nil)) 162 2 (BBST.Tree.nil)))
            163
            13
            (BBST.Tree.node
              (BBST.Tree.node
                (BBST.Tree.node (BBST.Tree.nil) 164 1 (BBST.Tree.nil))
                165
                3
                (BBST.Tree.node (BBST.Tree.nil) 166 1 (BBST.Tree.nil)))
              167
              6
              (BBST.Tree.node (BBST.Tree.node (BBST.Tree.nil) 168 1 (BBST.Tree.nil)) 169 2 (BBST.Tree.nil))))))
      170
      112
      (BBST.Tree.node
        (BBST.Tree.node
          (BBST.Tree.node
            (BBST.Tree.node
              (BBST.Tree.node
                (BBST.Tree.node (BBST.Tree.nil) 171 1 (BBST.Tree.nil))
                172
                3
                (BBST.Tree.node (BBST.Tree.nil) 173 1 (BBST.Tree.nil)))
              174
              6
              (BBST.Tree.node (BBST.Tree.node (BBST.Tree.nil) 175 1 (BBST.Tree.nil)) 176 2 (BBST.Tree.nil)))
            177
            13
            (BBST.Tree.node
              (BBST.Tree.node
                (BBST.Tree.node (BBST.Tree.nil) 178 1 (BBST.Tree.nil))
                179
                3
                (BBST.Tree.node (BBST.Tree.nil) 180 1 (BBST.Tree.nil)))
              181
              6
              (BBST.Tree.node (BBST.Tree.node (BBST.Tree.nil) 182 1 (BBST.Tree.nil)) 183 2 (BBST.Tree.nil))))
          184
          27
          (BBST.Tree.node
            (BBST.Tree.node
              (BBST.Tree.node
                (BBST.Tree.node (BBST.Tree.nil) 185 1 (BBST.Tree.nil))
                186
                3
                (BBST.Tree.node (BBST.Tree.nil) 187 1 (BBST.Tree.nil)))
              188
              6
              (BBST.Tree.node (BBST.Tree.node (BBST.Tree.nil) 189 1 (BBST.Tree.nil)) 190 2 (BBST.Tree.nil)))
            191
            13
            (BBST.Tree.node
              (BBST.Tree.node
                (BBST.Tree.node (BBST.Tree.nil) 192 1 (BBST.Tree.nil))
                193
                3
                (BBST.Tree.node (BBST.Tree.nil) 194 1 (BBST.Tree.nil)))
              195
              6
              (BBST.Tree.node (BBST.Tree.node (BBST.Tree.nil) 196 1 (BBST.Tree.nil)) 197 2 (BBST.Tree.nil)))))
        198
        55
        (BBST.Tree.node
          (BBST.Tree.node
            (BBST.Tree.node
              (BBST.Tree.node
                (BBST.Tree.node (BBST.Tree.nil) 199 1 (BBST.Tree.nil))
                200
                3
                (BBST.Tree.node (BBST.Tree.nil) 201 1 (BBST.Tree.nil)))
              202
              6
              (BBST.Tree.node (BBST.Tree.node (BBST.Tree.nil) 203 1 (BBST.Tree.nil)) 204 2 (BBST.Tree.nil)))
            205
            13
            (BBST.Tree.node
              (BBST.Tree.node
                (BBST.Tree.node (BBST.Tree.nil) 206 1 (BBST.Tree.nil))
                207
                3
                (BBST.Tree.node (BBST.Tree.nil) 208 1 (BBST.Tree.nil)))
              209
              6
              (BBST.Tree.node (BBST.Tree.node (BBST.Tree.nil) 210 1 (BBST.Tree.nil)) 211 2 (BBST.Tree.nil))))
          212
          27
          (BBST.Tree.node
            (BBST.Tree.node
              (BBST.Tree.node
                (BBST.Tree.node (BBST.Tree.nil) 213 1 (BBST.Tree.nil))
                214
                3
                (BBST.Tree.node (BBST.Tree.nil) 215 1 (BBST.Tree.nil)))
              216
              6
              (BBST.Tree.node (BBST.Tree.node (BBST.Tree.nil) 217 1 (BBST.Tree.nil)) 218 2 (BBST.Tree.nil)))
            219
            13
            (BBST.Tree.node
              (BBST.Tree.node
                (BBST.Tree.node (BBST.Tree.nil) 220 1 (BBST.Tree.nil))
                221
                3
                (BBST.Tree.node (BBST.Tree.nil) 222 1 (BBST.Tree.nil)))
              223
              6
              (BBST.Tree.node (BBST.Tree.node (BBST.Tree.nil) 224 1 (BBST.Tree.nil)) 225 2 (BBST.Tree.nil))))))))
  226
  500
  (BBST.Tree.node
    (BBST.Tree.node
      (BBST.Tree.node
        (BBST.Tree.node
          (BBST.Tree.node
            (BBST.Tree.node
              (BBST.Tree.node
                (BBST.Tree.node (BBST.Tree.nil) 227 1 (BBST.Tree.nil))
                228
                3
                (BBST.Tree.node (BBST.Tree.nil) 229 1 (BBST.Tree.nil)))
              230
              7
              (BBST.Tree.node
                (BBST.Tree.node (BBST.Tree.nil) 231 1 (BBST.Tree.nil))
                232
                3
                (BBST.Tree.node (BBST.Tree.nil) 233 1 (BBST.Tree.nil))))
            234
            14
            (BBST.Tree.node
              (BBST.Tree.node
                (BBST.Tree.node (BBST.Tree.nil) 235 1 (BBST.Tree.nil))
                236
                3
                (BBST.Tree.node (BBST.Tree.nil) 237 1 (BBST.Tree.nil)))
              238
              6
              (BBST.Tree.node (BBST.Tree.node (BBST.Tree.nil) 239 1 (BBST.Tree.nil)) 240 2 (BBST.Tree.nil))))
          241
          28
          (BBST.Tree.node
            (BBST.Tree.node
              (BBST.Tree.node
                (BBST.Tree.node (BBST.Tree.nil) 242 1 (BBST.Tree.nil))
                243
                3
                (BBST.Tree.node (BBST.Tree.nil) 244 1 (BBST.Tree.nil)))
              245
              6
              (BBST.Tree.node (BBST.Tree.node (BBST.Tree.nil) 246 1 (BBST.Tree.nil)) 247 2 (BBST.Tree.nil)))
            248
            13
            (BBST.Tree.node
              (BBST.Tree.node
                (BBST.Tree.node (BBST.Tree.nil) 249 1 (BBST.Tree.nil))
                250
                3
                (BBST.Tree.node (BBST.Tree.nil) 251 1 (BBST.Tree.nil)))
              252
              6
              (BBST.Tree.node (BBST.Tree.node (BBST.Tree.nil) 253 1 (BBST.Tree.nil)) 254 2 (BBST.Tree.nil)))))
        255
        56
        (BBST.Tree.node
          (BBST.Tree.node
            (BBST.Tree.node
              (BBST.Tree.node
                (BBST.Tree.node (BBST.Tree.nil) 256 1 (BBST.Tree.nil))
                257
                3
                (BBST.Tree.node (BBST.Tree.nil) 258 1 (BBST.Tree.nil)))
              259
              6
              (BBST.Tree.node (BBST.Tree.node (BBST.Tree.nil) 260 1 (BBST.Tree.nil)) 261 2 (BBST.Tree.nil)))
            262
            13
            (BBST.Tree.node
              (BBST.Tree.node
                (BBST.Tree.node (BBST.Tree.nil) 263 1 (BBST.Tree.nil))
                264
                3
                (BBST.Tree.node (BBST.Tree.nil) 265 1 (BBST.Tree.nil)))
              266
              6
              (BBST.Tree.node (BBST.Tree.node (BBST.Tree.nil) 267 1 (BBST.Tree.nil)) 268 2 (BBST.Tree.nil))))
          269
          27
          (BBST.Tree.node
            (BBST.Tree.node
              (BBST.Tree.node
                (BBST.Tree.node (BBST.Tree.nil) 270 1 (BBST.Tree.nil))
                271
                3
                (BBST.Tree.node (BBST.Tree.nil) 272 1 (BBST.Tree.nil)))
              273
              6
              (BBST.Tree.node (BBST.Tree.node (BBST.Tree.nil) 274 1 (BBST.Tree.nil)) 275 2 (BBST.Tree.nil)))
            276
            13
            (BBST.Tree.node
              (BBST.Tree.node
                (BBST.Tree.node (BBST.Tree.nil) 277 1 (BBST.Tree.nil))
                278
                3
                (BBST.Tree.node (BBST.Tree.nil) 279 1 (BBST.Tree.nil)))
              280
              6
              (BBST.Tree.node (BBST.Tree.node (BBST.Tree.nil) 281 1 (BBST.Tree.nil)) 282 2 (BBST.Tree.nil))))))
      283
      112
      (BBST.Tree.node
        (BBST.Tree.node
          (BBST.Tree.node
            (BBST.Tree.node
              (BBST.Tree.node
                (BBST.Tree.node (BBST.Tree.nil) 284 1 (BBST.Tree.nil))
                285
                3
                (BBST.Tree.node (BBST.Tree.nil) 286 1 (BBST.Tree.nil)))
              287
              6
              (BBST.Tree.node (BBST.Tree.node (BBST.Tree.nil) 288 1 (BBST.Tree.nil)) 289 2 (BBST.Tree.nil)))
            290
            13
            (BBST.Tree.node
              (BBST.Tree.node
                (BBST.Tree.node (BBST.Tree.nil) 291 1 (BBST.Tree.nil))
                292
                3
                (BBST.Tree.node (BBST.Tree.nil) 293 1 (BBST.Tree.nil)))
              294
              6
              (BBST.Tree.node (BBST.Tree.node (BBST.Tree.nil) 295 1 (BBST.Tree.nil)) 296 2 (BBST.Tree.nil))))
          297
          27
          (BBST.Tree.node
            (BBST.Tree.node
              (BBST.Tree.node
                (BBST.Tree.node (BBST.Tree.nil) 298 1 (BBST.Tree.nil))
                299
                3
                (BBST.Tree.node (BBST.Tree.nil) 300 1 (BBST.Tree.nil)))
              301
              6
              (BBST.Tree.node (BBST.Tree.node (BBST.Tree.nil) 302 1 (BBST.Tree.nil)) 303 2 (BBST.Tree.nil)))
            304
            13
            (BBST.Tree.node
              (BBST.Tree.node
                (BBST.Tree.node (BBST.Tree.nil) 305 1 (BBST.Tree.nil))
                306
                3
                (BBST.Tree.node (BBST.Tree.nil) 307 1 (BBST.Tree.nil)))
              308
              6
              (BBST.Tree.node (BBST.Tree.node (BBST.Tree.nil) 309 1 (BBST.Tree.nil)) 310 2 (BBST.Tree.nil)))))
        311
        55
        (BBST.Tree.node
          (BBST.Tree.node
            (BBST.Tree.node
              (BBST.Tree.node
                (BBST.Tree.node (BBST.Tree.nil) 312 1 (BBST.Tree.nil))
                313
                3
                (BBST.Tree.node (BBST.Tree.nil) 314 1 (BBST.Tree.nil)))
              315
              6
              (BBST.Tree.node (BBST.Tree.node (BBST.Tree.nil) 316 1 (BBST.Tree.nil)) 317 2 (BBST.Tree.nil)))
            318
            13
            (BBST.Tree.node
              (BBST.Tree.node
                (BBST.Tree.node (BBST.Tree.nil) 319 1 (BBST.Tree.nil))
                320
                3
                (BBST.Tree.node (BBST.Tree.nil) 321 1 (BBST.Tree.nil)))
              322
              6
              (BBST.Tree.node (BBST.Tree.node (BBST.Tree.nil) 323 1 (BBST.Tree.nil)) 324 2 (BBST.Tree.nil))))
          325
          27
          (BBST.Tree.node
            (BBST.Tree.node
              (BBST.Tree.node
                (BBST.Tree.node (BBST.Tree.nil) 326 1 (BBST.Tree.nil))
                327
                3
                (BBST.Tree.node (BBST.Tree.nil) 328 1 (BBST.Tree.nil)))
              329
              6
              (BBST.Tree.node (BBST.Tree.node (BBST.Tree.nil) 330 1 (BBST.Tree.nil)) 331 2 (BBST.Tree.nil)))
            332
            13
            (BBST.Tree.node
              (BBST.Tree.node
                (BBST.Tree.node (BBST.Tree.nil) 333 1 (BBST.Tree.nil))
                334
                3
                (BBST.Tree.node (BBST.Tree.nil) 335 1 (BBST.Tree.nil)))
              336
              6
              (BBST.Tree.node (BBST.Tree.node (BBST.Tree.nil) 337 1 (BBST.Tree.nil)) 338 2 (BBST.Tree.nil)))))))
    339
    274
    (BBST.Tree.node
      (BBST.Tree.node
        (BBST.Tree.node
          (BBST.Tree.node
            (BBST.Tree.node
              (BBST.Tree.node
                (BBST.Tree.node (BBST.Tree.nil) 340 1 (BBST.Tree.nil))
                341
                3
                (BBST.Tree.node (BBST.Tree.nil) 342 1 (BBST.Tree.nil)))
              343
              7
              (BBST.Tree.node
                (BBST.Tree.node (BBST.Tree.nil) 344 1 (BBST.Tree.nil))
                345
                3
                (BBST.Tree.node (BBST.Tree.nil) 346 1 (BBST.Tree.nil))))
            347
            14
            (BBST.Tree.node
              (BBST.Tree.node
                (BBST.Tree.node (BBST.Tree.nil) 348 1 (BBST.Tree.nil))
                349
                3
                (BBST.Tree.node (BBST.Tree.nil) 350 1 (BBST.Tree.nil)))
              351
              6
              (BBST.Tree.node (BBST.Tree.node (BBST.Tree.nil) 352 1 (BBST.Tree.nil)) 353 2 (BBST.Tree.nil))))
          354
          28
          (BBST.Tree.node
            (BBST.Tree.node
              (BBST.Tree.node
                (BBST.Tree.node (BBST.Tree.nil) 355 1 (BBST.Tree.nil))
                356
                3
                (BBST.Tree.node (BBST.Tree.nil) 357 1 (BBST.Tree.nil)))
              358
              6
              (BBST.Tree.node (BBST.Tree.node (BBST.Tree.nil) 359 1 (BBST.Tree.nil)) 360 2 (BBST.Tree.nil)))
            361
            13
            (BBST.Tree.node
              (BBST.Tree.node
                (BBST.Tree.node (BBST.Tree.nil) 362 1 (BBST.Tree.nil))
                363
                3
                (BBST.Tree.node (BBST.Tree.nil) 364 1 (BBST.Tree.nil)))
              365
              6
              (BBST.Tree.node (BBST.Tree.node (BBST.Tree.nil) 366 1 (BBST.Tree.nil)) 367 2 (BBST.Tree.nil)))))
        368
        56
        (BBST.Tree.node
          (BBST.Tree.node
            (BBST.Tree.node
              (BBST.Tree.node
                (BBST.Tree.node (BBST.Tree.nil) 369 1 (BBST.Tree.nil))
                370
                3
                (BBST.Tree.node (BBST.Tree.nil) 371 1 (BBST.Tree.nil)))
              372
              6
              (BBST.Tree.node (BBST.Tree.node (BBST.Tree.nil) 373 1 (BBST.Tree.nil)) 374 2 (BBST.Tree.nil)))
            375
            13
            (BBST.Tree.node
              (BBST.Tree.node
                (BBST.Tree.node (BBST.Tree.nil) 376 1 (BBST.Tree.nil))
                377
                3
                (BBST.Tree.node (BBST.Tree.nil) 378 1 (BBST.Tree.nil)))
              379
              6
              (BBST.Tree.node (BBST.Tree.node (BBST.Tree.nil) 380 1 (BBST.Tree.nil)) 381 2 (BBST.Tree.nil))))
          382
          27
          (BBST.Tree.node
            (BBST.Tree.node
              (BBST.Tree.node
                (BBST.Tree.node (BBST.Tree.nil) 383 1 (BBST.Tree.nil))
                384
                3
                (BBST.Tree.node (BBST.Tree.nil) 385 1 (BBST.Tree.nil)))
              386
              6
              (BBST.Tree.node (BBST.Tree.node (BBST.Tree.nil) 387 1 (BBST.Tree.nil)) 388 2 (BBST.Tree.nil)))
            389
            13
            (BBST.Tree.node
              (BBST.Tree.node
                (BBST.Tree.node (BBST.Tree.nil) 390 1 (BBST.Tree.nil))
                391
                3
                (BBST.Tree.node (BBST.Tree.nil) 392 1 (BBST.Tree.nil)))
              393
              6
              (BBST.Tree.node (BBST.Tree.node (BBST.Tree.nil) 394 1 (BBST.Tree.nil)) 395 2 (BBST.Tree.nil))))))
      396
      161
      (BBST.Tree.node
        (BBST.Tree.node
          (BBST.Tree.node
            (BBST.Tree.node
              (BBST.Tree.node
                (BBST.Tree.node (BBST.Tree.node (BBST.Tree.nil) 397 1 (BBST.Tree.nil)) 398 2 (BBST.Tree.nil))
                399
                5
                (BBST.Tree.node (BBST.Tree.node (BBST.Tree.nil) 400 1 (BBST.Tree.nil)) 401 2 (BBST.Tree.nil)))
              402
              10
              (BBST.Tree.node
                (BBST.Tree.node (BBST.Tree.node (BBST.Tree.nil) 403 1 (BBST.Tree.nil)) 404 2 (BBST.Tree.nil))
                405
                4
                (BBST.Tree.node (BBST.Tree.nil) 406 1 (BBST.Tree.nil))))
            407
            21
            (BBST.Tree.node
              (BBST.Tree.node
                (BBST.Tree.node (BBST.Tree.node (BBST.Tree.nil) 408 1 (BBST.Tree.nil)) 409 2 (BBST.Tree.nil))
                410
                5
                (BBST.Tree.node (BBST.Tree.node (BBST.Tree.nil) 411 1 (BBST.Tree.nil)) 412 2 (BBST.Tree.nil)))
              413
              10
              (BBST.Tree.node
                (BBST.Tree.node (BBST.Tree.node (BBST.Tree.nil) 414 1 (BBST.Tree.nil)) 415 2 (BBST.Tree.nil))
                416
                4
                (BBST.Tree.node (BBST.Tree.nil) 417 1 (BBST.Tree.nil)))))
          418
          43
          (BBST.Tree.node
            (BBST.Tree.node
              (BBST.Tree.node
                (BBST.Tree.node (BBST.Tree.node (BBST.Tree.nil) 419 1 (BBST.Tree.nil)) 420 2 (BBST.Tree.nil))
                421
                5
                (BBST.Tree.node (BBST.Tree.node (BBST.Tree.nil) 422 1 (BBST.Tree.nil)) 423 2 (BBST.Tree.nil)))
              424
              10
              (BBST.Tree.node
                (BBST.Tree.node (BBST.Tree.node (BBST.Tree.nil) 425 1 (BBST.Tree.nil)) 426 2 (BBST.Tree.nil))
                427
                4
                (BBST.Tree.node (BBST.Tree.nil) 428 1 (BBST.Tree.nil))))
            429
            21
            (BBST.Tree.node
              (BBST.Tree.node
                (BBST.Tree.node (BBST.Tree.node (BBST.Tree.nil) 430 1 (BBST.Tree.nil)) 431 2 (BBST.Tree.nil))
                432
                5
                (BBST.Tree.node (BBST.Tree.node (BBST.Tree.nil) 433 1 (BBST.Tree.nil)) 434 2 (BBST.Tree.nil)))
              435
              10
              (BBST.Tree.node
                (BBST.Tree.node (BBST.Tree.node (BBST.Tree.nil) 436 1 (BBST.Tree.nil)) 437 2 (BBST.Tree.nil))
                438
                4
                (BBST.Tree.node (BBST.Tree.nil) 439 1 (BBST.Tree.nil))))))
        440
        104
        (BBST.Tree.node
          (BBST.Tree.node
            (BBST.Tree.node
              (BBST.Tree.node
                (BBST.Tree.node (BBST.Tree.node (BBST.Tree.nil) 441 1 (BBST.Tree.nil)) 442 2 (BBST.Tree.nil))
                443
                5
                (BBST.Tree.node (BBST.Tree.node (BBST.Tree.nil) 444 1 (BBST.Tree.nil)) 445 2 (BBST.Tree.nil)))
              446
              10
              (BBST.Tree.node
                (BBST.Tree.node (BBST.Tree.node (BBST.Tree.nil) 447 1 (BBST.Tree.nil)) 448 2 (BBST.Tree.nil))
                449
                4
                (BBST.Tree.node (BBST.Tree.nil) 450 1 (BBST.Tree.nil))))
            451
            21
            (BBST.Tree.node
              (BBST.Tree.node
                (BBST.Tree.node (BBST.Tree.node (BBST.Tree.nil) 452 1 (BBST.Tree.nil)) 453 2 (BBST.Tree.nil))
                454
                5
                (BBST.Tree.node (BBST.Tree.node (BBST.Tree.nil) 455 1 (BBST.Tree.nil)) 456 2 (BBST.Tree.nil)))
              457
              10
              (BBST.Tree.node
                (BBST.Tree.node (BBST.Tree.node (BBST.Tree.nil) 458 1 (BBST.Tree.nil)) 459 2 (BBST.Tree.nil))
                460
                4
                (BBST.Tree.node (BBST.Tree.nil) 461 1 (BBST.Tree.nil)))))
          462
          60
          (BBST.Tree.node
            (BBST.Tree.node
              (BBST.Tree.node
                (BBST.Tree.node
                  (BBST.Tree.node (BBST.Tree.node (BBST.Tree.nil) 463 1 (BBST.Tree.nil)) 464 2 (BBST.Tree.nil))
                  465
                  4
                  (BBST.Tree.node (BBST.Tree.nil) 466 1 (BBST.Tree.nil)))
                467
                8
                (BBST.Tree.node
                  (BBST.Tree.node (BBST.Tree.nil) 468 1 (BBST.Tree.nil))
                  469
                  3
                  (BBST.Tree.node (BBST.Tree.nil) 470 1 (BBST.Tree.nil))))
              471
              17
              (BBST.Tree.node
                (BBST.Tree.node
                  (BBST.Tree.node (BBST.Tree.node (BBST.Tree.nil) 472 1 (BBST.Tree.nil)) 473 2 (BBST.Tree.nil))
                  474
                  4
                  (BBST.Tree.node (BBST.Tree.nil) 475 1 (BBST.Tree.nil)))
                476
                8
                (BBST.Tree.node
                  (BBST.Tree.node (BBST.Tree.nil) 477 1 (BBST.Tree.nil))
                  478
                  3
                  (BBST.Tree.node (BBST.Tree.nil) 479 1 (BBST.Tree.nil)))))
            480
            38
            (BBST.Tree.node
              (BBST.Tree.node
                (BBST.Tree.node
                  (BBST.Tree.node (BBST.Tree.node (BBST.Tree.nil) 481 1 (BBST.Tree.nil)) 482 2 (BBST.Tree.nil))
                  483
                  4
                  (BBST.Tree.node (BBST.Tree.nil) 484 1 (BBST.Tree.nil)))
                485
                8
                (BBST.Tree.node
                  (BBST.Tree.node (BBST.Tree.nil) 486 1 (BBST.Tree.nil))
                  487
                  3
                  (BBST.Tree.node (BBST.Tree.nil) 488 1 (BBST.Tree.nil))))
              489
              20
              (BBST.Tree.node
                (BBST.Tree.node
                  (BBST.Tree.node (BBST.Tree.nil) 490 1 (BBST.Tree.nil))
                  491
                  3
                  (BBST.Tree.node (BBST.Tree.nil) 492 1 (BBST.Tree.nil)))
                493
                11
                (BBST.Tree.node
                  (BBST.Tree.node
                    (BBST.Tree.node (BBST.Tree.nil) 494 1 (BBST.Tree.nil))
                    495
                    3
                    (BBST.Tree.node (BBST.Tree.nil) 496 1 (BBST.Tree.nil)))
                  497
                  7
                  (BBST.Tree.node
                    (BBST.Tree.node (BBST.Tree.nil) 498 1 (BBST.Tree.nil))
                    499
                    3
                    (BBST.Tree.node (BBST.Tree.nil) 500 1 (BBST.Tree.nil)))))))))))

def BBST.lit750 : BBST.Tree :=
BBST.Tree.node
  (BBST.Tree.node
    (BBST.Tree.node
      (BBST.Tree.node
        (BBST.Tree.node
          (BBST.Tree.node
            (BBST.Tree.node
              (BBST.Tree.node
                (BBST.Tree.node (BBST.Tree.node (BBST.Tree.nil) 1 1 (BBST.Tree.nil)) 2 2 (BBST.Tree.nil))
                3
                5
                (BBST.Tree.node (BBST.Tree.node (BBST.Tree.nil) 4 1 (BBST.Tree.nil)) 5 2 (BBST.Tree.nil)))
              6
              10
              (BBST.Tree.node
                (BBST.Tree.node (BBST.Tree.node (BBST.Tree.nil) 7 1 (BBST.Tree.nil)) 8 2 (BBST.Tree.nil))
                9
                4
                (BBST.Tree.node (BBST.Tree.nil) 10 1 (BBST.Tree.nil))))
            11
            21
            (BBST.Tree.node
              (BBST.Tree.node
                (BBST.Tree.node (BBST.Tree.node (BBST.Tree.nil) 12 1 (BBST.Tree.nil)) 13 2 (BBST.Tree.nil))
                14
                5
                (BBST.Tree.node (BBST.Tree.node (BBST.Tree.nil) 15 1 (BBST.Tree.nil)) 16 2 (BBST.Tree.nil)))
              17
              10
              (BBST.Tree.node
                (BBST.Tree.node (BBST.Tree.node (BBST.Tree.nil) 18 1 (BBST.Tree.nil)) 19 2 (BBST.Tree.nil))
                20
                4
                (BBST.Tree.node (BBST.Tree.nil) 21 1 (BBST.Tree.nil)))))
          22
          42
          (BBST.Tree.node
            (BBST.Tree.node
              (BBST.Tree.node
                (BBST.Tree.node (BBST.Tree.node (BBST.Tree.nil) 23 1 (BBST.Tree.nil)) 24 2 (BBST.Tree.nil))
                25
                5
                (BBST.Tree.node (BBST.Tree.node (BBST.Tree.nil) 26 1 (BBST.Tree.nil)) 27 2 (BBST.Tree.nil)))
              28
              10
              (BBST.Tree.node
                (BBST.Tree.node (BBST.Tree.node (BBST.Tree.nil) 29 1 (BBST.Tree.nil)) 30 2 (BBST.Tree.nil))
                31
                4
                (BBST.Tree.node (BBST.Tree.nil) 32 1 (BBST.Tree.nil))))
            33
            20
            (BBST.Tree.node
              (BBST.Tree.node
                (BBST.Tree.node (BBST.Tree.node (BBST.Tree.nil) 34 1 (BBST.Tree.nil)) 35 2 (BBST.Tree.nil))
                36
                4
                (BBST.Tree.node (BBST.Tree.nil) 37 1 (BBST.Tree.nil)))
              38
              9
              (BBST.Tree.node
                (BBST.Tree.node (BBST.Tree.node (BBST.Tree.nil) 39 1 (BBST.Tree.nil)) 40 2 (BBST.Tree.nil))
                41
                4
                (BBST.Tree.node (BBST.Tree.nil) 42 1 (BBST.Tree.nil))))))
        43
        85
        (BBST.Tree.node
          (BBST.Tree.node
            (BBST.Tree.node
              (BBST.Tree.node
                (BBST.Tree.node (BBST.Tree.node (BBST.Tree.nil) 44 1 (BBST.Tree.nil)) 45 2 (BBST.Tree.nil))
                46
                5
                (BBST.Tree.node (BBST.Tree.node (BBST.Tree.nil) 47 1 (BBST.Tree.nil)) 48 2 (BBST.Tree.nil)))
              49
              10
              (BBST.Tree.node
                (BBST.Tree.node (BBST.Tree.node (BBST.Tree.nil) 50 1 (BBST.Tree.nil)) 51 2 (BBST.Tree.nil))
                52
                4
                (BBST.Tree.node (BBST.Tree.nil) 53 1 (BBST.Tree.nil))))
            54
            21
            (BBST.Tree.node
              (BBST.Tree.node
                (BBST.Tree.node (BBST.Tree.node (BBST.Tree.nil) 55 1 (BBST.Tree.nil)) 56 2 (BBST.Tree.nil))
                57
                5
                (BBST.Tree.node (BBST.Tree.node (BBST.Tree.nil) 58 1 (BBST.Tree.nil)) 59 2 (BBST.Tree.nil)))
              60
              10
              (BBST.Tree.node
                (BBST.Tree.node (BBST.Tree.node (BBST.Tree.nil) 61 1 (BBST.Tree.nil)) 62 2 (BBST.Tree.nil))
                63
                4
                (BBST.Tree.node (BBST.Tree.nil) 64 1 (BBST.Tree.nil)))))
          65
          42
          (BBST.Tree.node
            (BBST.Tree.node
              (BBST.Tree.node
                (BBST.Tree.node (BBST.Tree.node (BBST.Tree.nil) 66 1 (BBST.Tree.nil)) 67 2 (BBST.Tree.nil))
                68
                5
                (BBST.Tree.node (BBST.Tree.node (BBST.Tree.nil) 69 1 (BBST.Tree.nil)) 70 2 (BBST.Tree.nil)))
              71
              10
              (BBST.Tree.node
                (BBST.Tree.node (BBST.Tree.node (BBST.Tree.nil) 72 1 (BBST.Tree.nil)) 73 2 (BBST.Tree.nil))
                74
                4
                (BBST.Tree.node (BBST.Tree.nil) 75 1 (BBST.Tree.nil))))
            76
            20
            (BBST.Tree.node
              (BBST.Tree.node
                (BBST.Tree.node (BBST.Tree.node (BBST.Tree.nil) 77 1 (BBST.Tree.nil)) 78 2 (BBST.Tree.nil))
                79
                4
                (BBST.Tree.node (BBST.Tree.nil) 80 1 (BBST.Tree.nil)))
              81
              9
              (BBST.Tree.node
                (BBST.Tree.node (BBST.Tree.node (BBST.Tree.nil) 82 1 (BBST.Tree.nil)) 83 2 (BBST.Tree.nil))
                84
                4
                (BBST.Tree.node (BBST.Tree.nil) 85 1 (BBST.Tree.nil)))))))
      86
      170
      (BBST.Tree.node
        (BBST.Tree.node
          (BBST.Tree.node
            (BBST.Tree.node
              (BBST.Tree.node
                (BBST.Tree.node (BBST.Tree.node (BBST.Tree.nil) 87 1 (BBST.Tree.nil)) 88 2 (BBST.Tree.nil))
                89
                5
                (BBST.Tree.node (BBST.Tree.node (BBST.Tree.nil) 90 1 (BBST.Tree.nil)) 91 2 (BBST.Tree.nil)))
              92
              10
              (BBST.Tree.node
                (BBST.Tree.node (BBST.Tree.node (BBST.Tree.nil) 93 1 (BBST.Tree.nil)) 94 2 (BBST.Tree.nil))
                95
                4
                (BBST.Tree.node (BBST.Tree.nil) 96 1 (BBST.Tree.nil))))
            97
            21
            (BBST.Tree.node
              (BBST.Tree.node
                (BBST.Tree.node (BBST.Tree.node (BBST.Tree.nil) 98 1 (BBST.Tree.nil)) 99 2 (BBST.Tree.nil))
                100
                5
                (BBST.Tree.node (BBST.Tree.node (BBST.Tree.nil) 101 1 (BBST.Tree.nil)) 102 2 (BBST.Tree.nil)))
              103
              10
              (BBST.Tree.node
                (BBST.Tree.node (BBST.Tree.node (BBST.Tree.nil) 104 1 (BBST.Tree.nil)) 105 2 (BBST.Tree.nil))
                106
                4
                (BBST.Tree.node (BBST.Tree.nil) 107 1 (BBST.Tree.nil)))))
          108
          42
          (BBST.Tree.node
            (BBST.Tree.node
              (BBST.Tree.node
                (BBST.Tree.node (BBST.Tree.node (BBST.Tree.nil) 109 1 (BBST.Tree.nil)) 110 2 (BBST.Tree.nil))
                111
                5
                (BBST.Tree.node (BBST.Tree.node (BBST.Tree.nil) 112 1 (BBST.Tree.nil)) 113 2 (BBST.Tree.nil)))
              114
              10
              (BBST.Tree.node
                (BBST.Tree.node (BBST.Tree.node (BBST.Tree.nil) 115 1 (BBST.Tree.nil)) 116 2 (BBST.Tree.nil))
                117
                4
                (BBST.Tree.node (BBST.Tree.nil) 118 1 (BBST.Tree.nil))))
            119
            20
            (BBST.Tree.node
              (BBST.Tree.node
                (BBST.Tree.node (BBST.Tree.node (BBST.Tree.nil) 120 1 (BBST.Tree.nil)) 121 2 (BBST.Tree.nil))
                122
                4
                (BBST.Tree.node (BBST.Tree.nil) 123 1 (BBST.Tree.nil)))
              124
              9
              (BBST.Tree.node
                (BBST.Tree.node (BBST.Tree.node (BBST.Tree.nil) 125 1 (BBST.Tree.nil)) 126 2 (BBST.Tree.nil))
                127
                4
                (BBST.Tree.node (BBST.Tree.nil) 128 1 (BBST.Tree.nil))))))
        129
        84
        (BBST.Tree.node
          (BBST.Tree.node
            (BBST.Tree.node
              (BBST.Tree.node
                (BBST.Tree.node (BBST.Tree.node (BBST.Tree.nil) 130 1 (BBST.Tree.nil)) 131 2 (BBST.Tree.nil))
                132
                5
                (BBST.Tree.node (BBST.Tree.node (BBST.Tree.nil) 133 1 (BBST.Tree.nil)) 134 2 (BBST.Tree.nil)))
              135
              10
              (BBST.Tree.node
                (BBST.Tree.node (BBST.Tree.node (BBST.Tree.nil) 136 1 (BBST.Tree.nil)) 137 2 (BBST.Tree.nil))
                138
                4
                (BBST.Tree.node (BBST.Tree.nil) 139 1 (BBST.Tree.nil))))
            140
            20
            (BBST.Tree.node
              (BBST.Tree.node
                (BBST.Tree.node (BBST.Tree.node (BBST.Tree.nil) 141 1 (BBST.Tree.nil)) 142 2 (BBST.Tree.nil))
                143
                4
                (BBST.Tree.node (BBST.Tree.nil) 144 1 (BBST.Tree.nil)))
              145
              9
              (BBST.Tree.node
                (BBST.Tree.node (BBST.Tree.node (BBST.Tree.nil) 146 1 (BBST.Tree.nil)) 147 2 (BBST.Tree.nil))
                148
                4
                (BBST.Tree.node (BBST.Tree.nil) 149 1 (BBST.Tree.nil)))))
          150
          41
          (BBST.Tree.node
            (BBST.Tree.node
              (BBST.Tree.node
                (BBST.Tree.node (BBST.Tree.node (BBST.Tree.nil) 151 1 (BBST.Tree.nil)) 152 2 (BBST.Tree.nil))
                153
                5
                (BBST.Tree.node (BBST.Tree.node (BBST.Tree.nil) 154 1 (BBST.Tree.nil)) 155 2 (BBST.Tree.nil)))
              156
              10
              (BBST.Tree.node
                (BBST.Tree.node (BBST.Tree.node (BBST.Tree.nil) 157 1 (BBST.Tree.nil)) 158 2 (BBST.Tree.nil))
                159
                4
                (BBST.Tree.node (BBST.Tree.nil) 160 1 (BBST.Tree.nil))))
            161
            20
            (BBST.Tree.node
              (BBST.Tree.node
                (BBST.Tree.node (BBST.Tree.node (BBST.Tree.nil) 162 1 (BBST.Tree.nil)) 163 2 (BBST.Tree.nil))
                164
                4
                (BBST.Tree.node (BBST.Tree.nil) 165 1 (BBST.Tree.nil)))
              166
              9
              (BBST.Tree.node
                (BBST.Tree.node (BBST.Tree.node (BBST.Tree.nil) 167 1 (BBST.Tree.nil)) 168 2 (BBST.Tree.nil))
                169
                4
                (BBST.Tree.node (BBST.Tree.nil) 170 1 (BBST.Tree.nil))))))))
    171
    341
    (BBST.Tree.node
      (BBST.Tree.node
        (BBST.Tree.node
          (BBST.Tree.node
            (BBST.Tree.node
              (BBST.Tree.node
                (BBST.Tree.node (BBST.Tree.node (BBST.Tree.nil) 172 1 (BBST.Tree.nil)) 173 2 (BBST.Tree.nil))
                174
                5
                (BBST.Tree.node (BBST.Tree.node (BBST.Tree.nil) 175 1 (BBST.Tree.nil)) 176 2 (BBST.Tree.nil)))
              177
              10
              (BBST.Tree.node
                (BBST.Tree.node (BBST.Tree.node (BBST.Tree.nil) 178 1 (BBST.Tree.nil)) 179 2 (BBST.Tree.nil))
                180
                4
                (BBST.Tree.node (BBST.Tree.nil) 181 1 (BBST.Tree.nil))))
            182
            21
            (BBST.Tree.node
              (BBST.Tree.node
                (BBST.Tree.node (BBST.Tree.node (BBST.Tree.nil) 183 1 (BBST.Tree.nil)) 184 2 (BBST.Tree.nil))
                185
                5
                (BBST.Tree.node (BBST.Tree.node (BBST.Tree.nil) 186 1 (BBST.Tree.nil)) 187 2 (BBST.Tree.nil)))
              188
              10
              (BBST.Tree.node
                (BBST.Tree.node (BBST.Tree.node (BBST.Tree.nil) 189 1 (BBST.Tree.nil)) 190 2 (BBST.Tree.nil))
                191
                4
                (BBST.Tree.node (BBST.Tree.nil) 192 1 (BBST.Tree.nil)))))
          193
          42
          (BBST.Tree.node
            (BBST.Tree.node
              (BBST.Tree.node
                (BBST.Tree.node (BBST.Tree.node (BBST.Tree.nil) 194 1 (BBST.Tree.nil)) 195 2 (BBST.Tree.nil))
                196
                5
                (BBST.Tree.node (BBST.Tree.node (BBST.Tree.nil) 197 1 (BBST.Tree.nil)) 198 2 (BBST.Tree.nil)))
              199
              10
              (BBST.Tree.node
                (BBST.Tree.node (BBST.Tree.node (BBST.Tree.nil) 200 1 (BBST.Tree.nil)) 201 2 (BBST.Tree.nil))
                202
                4
                (BBST.Tree.node (BBST.Tree.nil) 203 1 (BBST.Tree.nil))))
            204
            20
            (BBST.Tree.node
              (BBST.Tree.node
                (BBST.Tree.node (BBST.Tree.node (BBST.Tree.nil) 205 1 (BBST.Tree.nil)) 206 2 (BBST.Tree.nil))
                207
                4
                (BBST.Tree.node (BBST.Tree.nil) 208 1 (BBST.Tree.nil)))
              209
              9
              (BBST.Tree.node
                (BBST.Tree.node (BBST.Tree.node (BBST.Tree.nil) 210 1 (BBST.Tree.nil)) 211 2 (BBST.Tree.nil))
                212
                4
                (BBST.Tree.node (BBST.Tree.nil) 213 1 (BBST.Tree.nil))))))
        214
        85
        (BBST.Tree.node
          (BBST.Tree.node
            (BBST.Tree.node
              (BBST.Tree.node
                (BBST.Tree.node (BBST.Tree.node (BBST.Tree.nil) 215 1 (BBST.Tree.nil)) 216 2 (BBST.Tree.nil))
                217
                5
                (BBST.Tree.node (BBST.Tree.node (BBST.Tree.nil) 218 1 (BBST.Tree.nil)) 219 2 (BBST.Tree.nil)))
              220
              10
              (BBST.Tree.node
                (BBST.Tree.node (BBST.Tree.node (BBST.Tree.nil) 221 1 (BBST.Tree.nil)) 222 2 (BBST.Tree.nil))
                223
                4
                (BBST.Tree.node (BBST.Tree.nil) 224 1 (BBST.Tree.nil))))
            225
            21
            (BBST.Tree.node
              (BBST.Tree.node
                (BBST.Tree.node (BBST.Tree.node (BBST.Tree.nil) 226 1 (BBST.Tree.nil)) 227 2 (BBST.Tree.nil))
                228
                5
                (BBST.Tree.node (BBST.Tree.node (BBST.Tree.nil) 229 1 (BBST.Tree.nil)) 230 2 (BBST.Tree.nil)))
              231
              10
              (BBST.Tree.node
                (BBST.Tree.node (BBST.Tree.node (BBST.Tree.nil) 232 1 (BBST.Tree.nil)) 233 2 (BBST.Tree.nil))
                234
                4
                (BBST.Tree.node (BBST.Tree.nil) 235 1 (BBST.Tree.nil)))))
          236
          42
          (BBST.Tree.node
            (BBST.Tree.node
              (BBST.Tree.node
                (BBST.Tree.node (BBST.Tree.node (BBST.Tree.nil) 237 1 (BBST.Tree.nil)) 238 2 (BBST.Tree.nil))
                239
                5
                (BBST.Tree.node (BBST.Tree.node (BBST.Tree.nil) 240 1 (BBST.Tree.nil)) 241 2 (BBST.Tree.nil)))
              242
              10
              (BBST.Tree.node
                (BBST.Tree.node (BBST.Tree.node (BBST.Tree.nil) 243 1 (BBST.Tree.nil)) 244 2 (BBST.Tree.nil))
                245
                4
                (BBST.Tree.node (BBST.Tree.nil) 246 1 (BBST.Tree.nil))))
            247
            20
            (BBST.Tree.node
              (BBST.Tree.node
                (BBST.Tree.node (BBST.Tree.node (BBST.Tree.nil) 248 1 (BBST.Tree.nil)) 249 2 (BBST.Tree.nil))
                250
                4
                (BBST.Tree.node (BBST.Tree.nil) 251 1 (BBST.Tree.nil)))
              252
              9
              (BBST.Tree.node
                (BBST.Tree.node (BBST.Tree.node (BBST.Tree.nil) 253 1 (BBST.Tree.nil)) 254 2 (BBST.Tree.nil))
                255
                4
                (BBST.Tree.node (BBST.Tree.nil) 256 1 (BBST.Tree.nil)))))))
      257
      170
      (BBST.Tree.node
        (BBST.Tree.node
          (BBST.Tree.node
            (BBST.Tree.node
              (BBST.Tree.node
                (BBST.Tree.node (BBST.Tree.node (BBST.Tree.nil) 258 1 (BBST.Tree.nil)) 259 2 (BBST.Tree.nil))
                260
                5
                (BBST.Tree.node (BBST.Tree.node (BBST.Tree.nil) 261 1 (BBST.Tree.nil)) 262 2 (BBST.Tree.nil)))
              263
              10
              (BBST.Tree.node
                (BBST.Tree.node (BBST.Tree.node (BBST.Tree.nil) 264 1 (BBST.Tree.nil)) 265 2 (BBST.Tree.nil))
                266
                4
                (BBST.Tree.node (BBST.Tree.nil) 267 1 (BBST.Tree.nil))))
            268
            21
            (BBST.Tree.node
              (BBST.Tree.node
                (BBST.Tree.node (BBST.Tree.node (BBST.Tree.nil) 269 1 (BBST.Tree.nil)) 270 2 (BBST.Tree.nil))
                271
                5
                (BBST.Tree.node (BBST.Tree.node (BBST.Tree.nil) 272 1 (BBST.Tree.nil)) 273 2 (BBST.Tree.nil)))
              274
              10
              (BBST.Tree.node
                (BBST.Tree.node (BBST.Tree.node (BBST.Tree.nil) 275 1 (BBST.Tree.nil)) 276 2 (BBST.Tree.nil))
                277
                4
                (BBST.Tree.node (BBST.Tree.nil) 278 1 (BBST.Tree.nil)))))
          279
          42
          (BBST.Tree.node
            (BBST.Tree.node
              (BBST.Tree.node
                (BBST.Tree.node (BBST.Tree.node (BBST.Tree.nil) 280 1 (BBST.Tree.nil)) 281 2 (BBST.Tree.nil))
                282
                5
                (BBST.Tree.node (BBST.Tree.node (BBST.Tree.nil) 283 1 (BBST.Tree.nil)) 284 2 (BBST.Tree.nil)))
              285
              10
              (BBST.Tree.node
                (BBST.Tree.node (BBST.Tree.node (BBST.Tree.nil) 286 1 (BBST.Tree.nil)) 287 2 (BBST.Tree.nil))
                288
                4
                (BBST.Tree.node (BBST.Tree.nil) 289 1 (BBST.Tree.nil))))
            290
            20
            (BBST.Tree.node
              (BBST.Tree.node
                (BBST.Tree.node (BBST.Tree.node (BBST.Tree.nil) 291 1 (BBST.Tree.nil)) 292 2 (BBST.Tree.nil))
                293
                4
                (BBST.Tree.node (BBST.Tree.nil) 294 1 (BBST.Tree.nil)))
              295
              9
              (BBST.Tree.node
                (BBST.Tree.node (BBST.Tree.node (BBST.Tree.nil) 296 1 (BBST.Tree.nil)) 297 2 (BBST.Tree.nil))
                298
                4
                (BBST.Tree.node (BBST.Tree.nil) 299 1 (BBST.Tree.nil))))))
        300
        84
        (BBST.Tree.node
          (BBST.Tree.node
            (BBST.Tree.node
              (BBST.Tree.node
                (BBST.Tree.node (BBST.Tree.node (BBST.Tree.nil) 301 1 (BBST.Tree.nil)) 302 2 (BBST.Tree.nil))
                303
                5
                (BBST.Tree.node (BBST.Tree.node (BBST.Tree.nil) 304 1 (BBST.Tree.nil)) 305 2 (BBST.Tree.nil)))
              306
              10
              (BBST.Tree.node
                (BBST.Tree.node (BBST.Tree.node (BBST.Tree.nil) 307 1 (BBST.Tree.nil)) 308 2 (BBST.Tree.nil))
                309
                4
                (BBST.Tree.node (BBST.Tree.nil) 310 1 (BBST.Tree.nil))))
            311
            20
            (BBST.Tree.node
              (BBST.Tree.node
                (BBST.Tree.node (BBST.Tree.node (BBST.Tree.nil) 312 1 (BBST.Tree.nil)) 313 2 (BBST.Tree.nil))
                314
                4
                (BBST.Tree.node (BBST.Tree.nil) 315 1 (BBST.Tree.nil)))
              316
              9
              (BBST.Tree.node
                (BBST.Tree.node (BBST.Tree.node (BBST.Tree.nil) 317 1 (BBST.Tree.nil)) 318 2 (BBST.Tree.nil))
                319
                4
                (BBST.Tree.node (BBST.Tree.nil) 320 1 (BBST.Tree.nil)))))
          321
          41
          (BBST.Tree.node
            (BBST.Tree.node
              (BBST.Tree.node
                (BBST.Tree.node (BBST.Tree.node (BBST.Tree.nil) 322 1 (BBST.Tree.nil)) 323 2 (BBST.Tree.nil))
                324
                5
                (BBST.Tree.node (BBST.Tree.node (BBST.Tree.nil) 325 1 (BBST.Tree.nil)) 326 2 (BBST.Tree.nil)))
              327
              10
              (BBST.Tree.node
                (BBST.Tree.node (BBST.Tree.node (BBST.Tree.nil) 328 1 (BBST.Tree.nil)) 329 2 (BBST.Tree.nil))
                330
                4
                (BBST.Tree.node (BBST.Tree.nil) 331 1 (BBST.Tree.nil))))
            332
            20
            (BBST.Tree.node
              (BBST.Tree.node
                (BBST.Tree.node (BBST.Tree.node (BBST.Tree.nil) 333 1 (BBST.Tree.nil)) 334 2 (BBST.Tree.nil))
                335
                4
                (BBST.Tree.node (BBST.Tree.nil) 336 1 (BBST.Tree.nil)))
              337
              9
              (BBST.Tree.node
                (BBST.Tree.node (BBST.Tree.node (BBST.Tree.nil) 338 1 (BBST.Tree.nil)) 339 2 (BBST.Tree.nil))
                340
                4
                (BBST.Tree.node (BBST.Tree.nil) 341 1 (BBST.Tree.nil)))))))))
  342
  750
  (BBST.Tree.node
    (BBST.Tree.node
      (BBST.Tree.node
        (BBST.Tree.node
          (BBST.Tree.node
            (BBST.Tree.node
              (BBST.Tree.node
                (BBST.Tree.node (BBST.Tree.node (BBST.Tree.nil) 343 1 (BBST.Tree.nil)) 344 2 (BBST.Tree.nil))
                345
                5
                (BBST.Tree.node (BBST.Tree.node (BBST.Tree.nil) 346 1 (BBST.Tree.nil)) 347 2 (BBST.Tree.nil)))
              348
              10
              (BBST.Tree.node
                (BBST.Tree.node (BBST.Tree.node (BBST.Tree.nil) 349 1 (BBST.Tree.nil)) 350 2 (BBST.Tree.nil))
                351
                4
                (BBST.Tree.node (BBST.Tree.nil) 352 1 (BBST.Tree.nil))))
            353
            21
            (BBST.Tree.node
              (BBST.Tree.node
                (BBST.Tree.node (BBST.Tree.node (BBST.Tree.nil) 354 1 (BBST.Tree.nil)) 355 2 (BBST.Tree.nil))
                356
                5
                (BBST.Tree.node (BBST.Tree.node (BBST.Tree.nil) 357 1 (BBST.Tree.nil)) 358 2 (BBST.Tree.nil)))
              359
              10
              (BBST.Tree.node
                (BBST.Tree.node (BBST.Tree.node (BBST.Tree.nil) 360 1 (BBST.Tree.nil)) 361 2 (BBST.Tree.nil))
                362
                4
                (BBST.Tree.node (BBST.Tree.nil) 363 1 (BBST.Tree.nil)))))
          364
          42
          (BBST.Tree.node
            (BBST.Tree.node
              (BBST.Tree.node
                (BBST.Tree.node (BBST.Tree.node (BBST.Tree.nil) 365 1 (BBST.Tree.nil)) 366 2 (BBST.Tree.nil))
                367
                5
                (BBST.Tree.node (BBST.Tree.node (BBST.Tree.nil) 368 1 (BBST.Tree.nil)) 369 2 (BBST.Tree.nil)))
              370
              10
              (BBST.Tree.node
                (BBST.Tree.node (BBST.Tree.node (BBST.Tree.nil) 371 1 (BBST.Tree.nil)) 372 2 (BBST.Tree.nil))
                373
                4
                (BBST.Tree.node (BBST.Tree.nil) 374 1 (BBST.Tree.nil))))
            375
            20
            (BBST.Tree.node
              (BBST.Tree.node
                (BBST.Tree.node (BBST.Tree.node (BBST.Tree.nil) 376 1 (BBST.Tree.nil)) 377 2 (BBST.Tree.nil))
                378
                4
                (BBST.Tree.node (BBST.Tree.nil) 379 1 (BBST.Tree.nil)))
              380
              9
              (BBST.Tree.node
                (BBST.Tree.node (BBST.Tree.node (BBST.Tree.nil) 381 1 (BBST.Tree.nil)) 382 2 (BBST.Tree.nil))
                383
                4
                (BBST.Tree.node (BBST.Tree.nil) 384 1 (BBST.Tree.nil))))))
        385
        85
        (BBST.Tree.node
          (BBST.Tree.node
            (BBST.Tree.node
              (BBST.Tree.node
                (BBST.Tree.node (BBST.Tree.node (BBST.Tree.nil) 386 1 (BBST.Tree.nil)) 387 2 (BBST.Tree.nil))
                388
                5
                (BBST.Tree.node (BBST.Tree.node (BBST.Tree.nil) 389 1 (BBST.Tree.nil)) 390 2 (BBST.Tree.nil)))
              391
              10
              (BBST.Tree.node
                (BBST.Tree.node (BBST.Tree.node (BBST.Tree.nil) 392 1 (BBST.Tree.nil)) 393 2 (BBST.Tree.nil))
                394
                4
                (BBST.Tree.node (BBST.Tree.nil) 395 1 (BBST.Tree.nil))))
            396
            21
            (BBST.Tree.node
              (BBST.Tree.node
                (BBST.Tree.node (BBST.Tree.node (BBST.Tree.nil) 397 1 (BBST.Tree.nil)) 398 2 (BBST.Tree.nil))
                399
                5
                (BBST.Tree.node (BBST.Tree.node (BBST.Tree.nil) 400 1 (BBST.Tree.nil)) 401 2 (BBST.Tree.nil)))
              402
              10
              (BBST.Tree.node
                (BBST.Tree.node (BBST.Tree.node (BBST.Tree.nil) 403 1 (BBST.Tree.nil)) 404 2 (BBST.Tree.nil))
                405
                4
                (BBST.Tree.node (BBST.Tree.nil) 406 1 (BBST.Tree.nil)))))
          407
          42
          (BBST.Tree.node
            (BBST.Tree.node
              (BBST.Tree.node
                (BBST.Tree.node (BBST.Tree.node (BBST.Tree.nil) 408 1 (BBST.Tree.nil)) 409 2 (BBST.Tree.nil))
                410
                5
                (BBST.Tree.node (BBST.Tree.node (BBST.Tree.nil) 411 1 (BBST.Tree.nil)) 412 2 (BBST.Tree.nil)))
              413
              10
              (BBST.Tree.node
                (BBST.Tree.node (BBST.Tree.node (BBST.Tree.nil) 414 1 (BBST.Tree.nil)) 415 2 (BBST.Tree.nil))
                416
                4
                (BBST.Tree.node (BBST.Tree.nil) 417 1 (BBST.Tree.nil))))
            418
            20
            (BBST.Tree.node
              (BBST.Tree.node
                (BBST.Tree.node (BBST.Tree.node (BBST.Tree.nil) 419 1 (BBST.Tree.nil)) 420 2 (BBST.Tree.nil))
                421
                4
                (BBST.Tree.node (BBST.Tree.nil) 422 1 (BBST.Tree.nil)))
              423
              9
              (BBST.Tree.node
                (BBST.Tree.node (BBST.Tree.node (BBST.Tree.nil) 424 1 (BBST.Tree.nil)) 425 2 (BBST.Tree.nil))
                426
                4
                (BBST.Tree.node (BBST.Tree.nil) 427 1 (BBST.Tree.nil)))))))
      428
      170
      (BBST.Tree.node
        (BBST.Tree.node
          (BBST.Tree.node
            (BBST.Tree.node
              (BBST.Tree.node
                (BBST.Tree.node (BBST.Tree.node (BBST.Tree.nil) 429 1 (BBST.Tree.nil)) 430 2 (BBST.Tree.nil))
                431
                5
                (BBST.Tree.node (BBST.Tree.node (BBST.Tree.nil) 432 1 (BBST.Tree.nil)) 433 2 (BBST.Tree.nil)))
              434
              10
              (BBST.Tree.node
                (BBST.Tree.node (BBST.Tree.node (BBST.Tree.nil) 435 1 (BBST.Tree.nil)) 436 2 (BBST.Tree.nil))
                437
                4
                (BBST.Tree.node (BBST.Tree.nil) 438 1 (BBST.Tree.nil))))
            439
            21
            (BBST.Tree.node
              (BBST.Tree.node
                (BBST.Tree.node (BBST.Tree.node (BBST.Tree.nil) 440 1 (BBST.Tree.nil)) 441 2 (BBST.Tree.nil))
                442
                5
                (BBST.Tree.node (BBST.Tree.node (BBST.Tree.nil) 443 1 (BBST.Tree.nil)) 444 2 (BBST.Tree.nil)))
              445
              10
              (BBST.Tree.node
                (BBST.Tree.node (BBST.Tree.node (BBST.Tree.nil) 446 1 (BBST.Tree.nil)) 447 2 (BBST.Tree.nil))
                448
                4
                (BBST.Tree.node (BBST.Tree.nil) 449 1 (BBST.Tree.nil)))))
          450
          42
          (BBST.Tree.node
            (BBST.Tree.node
              (BBST.Tree.node
                (BBST.Tree.node (BBST.Tree.node (BBST.Tree.nil) 451 1 (BBST.Tree.nil)) 452 2 (BBST.Tree.nil))
                453
                5
                (BBST.Tree.node (BBST.Tree.node (BBST.Tree.nil) 454 1 (BBST.Tree.nil)) 455 2 (BBST.Tree.nil)))
              456
              10
              (BBST.Tree.node
                (BBST.Tree.node (BBST.Tree.node (BBST.Tree.nil) 457 1 (BBST.Tree.nil)) 458 2 (BBST.Tree.nil))
                459
                4
                (BBST.Tree.node (BBST.Tree.nil) 460 1 (BBST.Tree.nil))))
            461
            20
            (BBST.Tree.node
              (BBST.Tree.node
                (BBST.Tree.node (BBST.Tree.node (BBST.Tree.nil) 462 1 (BBST.Tree.nil)) 463 2 (BBST.Tree.nil))
                464
                4
                (BBST.Tree.node (BBST.Tree.nil) 465 1 (BBST.Tree.nil)))
              466
              9
              (BBST.Tree.node
                (BBST.Tree.node (BBST.Tree.node (BBST.Tree.nil) 467 1 (BBST.Tree.nil)) 468 2 (BBST.Tree.nil))
                469
                4
                (BBST.Tree.node (BBST.Tree.nil) 470 1 (BBST.Tree.nil))))))
        471
        84
        (BBST.Tree.node
          (BBST.Tree.node
            (BBST.Tree.node
              (BBST.Tree.node
                (BBST.Tree.node (BBST.Tree.node (BBST.Tree.nil) 472 1 (BBST.Tree.nil)) 473 2 (BBST.Tree.nil))
                474
                5
                (BBST.Tree.node (BBST.Tree.node (BBST.Tree.nil) 475 1 (BBST.Tree.nil)) 476 2 (BBST.Tree.nil)))
              477
              10
              (BBST.Tree.node
                (BBST.Tree.node (BBST.Tree.node (BBST.Tree.nil) 478 1 (BBST.Tree.nil)) 479 2 (BBST.Tree.nil))
                480
                4
                (BBST.Tree.node (BBST.Tree.nil) 481 1 (BBST.Tree.nil))))
            482
            20
            (BBST.Tree.node
              (BBST.Tree.node
                (BBST.Tree.node (BBST.Tree.node (BBST.Tree.nil) 483 1 (BBST.Tree.nil)) 484 2 (BBST.Tree.nil))
                485
                4
                (BBST.Tree.node (BBST.Tree.nil) 486 1 (BBST.Tree.nil)))
              487
              9
              (BBST.Tree.node
                (BBST.Tree.node (BBST.Tree.node (BBST.Tree.nil) 488 1 (BBST.Tree.nil)) 489 2 (BBST.Tree.nil))
                490
                4
                (BBST.Tree.node (BBST.Tree.nil) 491 1 (BBST.Tree.nil)))))
          492
          41
          (BBST.Tree.node
            (BBST.Tree.node
              (BBST.Tree.node
                (BBST.Tree.node (BBST.Tree.node (BBST.Tree.nil) 493 1 (BBST.Tree.nil)) 494 2 (BBST.Tree.nil))
                495
                5
                (BBST.Tree.node (BBST.Tree.node (BBST.Tree.nil) 496 1 (BBST.Tree.nil)) 497 2 (BBST.Tree.nil)))
              498
              10
              (BBST.Tree.node
                (BBST.Tree.node (BBST.Tree.node (BBST.Tree.nil) 499 1 (BBST.Tree.nil)) 500 2 (BBST.Tree.nil))
                501
                4
                (BBST.Tree.node (BBST.Tree.nil) 502 1 (BBST.Tree.nil))))
            503
            20
            (BBST.Tree.node
              (BBST.Tree.node
                (BBST.Tree.node (BBST.Tree.node (BBST.Tree.nil) 504 1 (BBST.Tree.nil)) 505 2 (BBST.Tree.nil))
                506
                4
                (BBST.Tree.node (BBST.Tree.nil) 507 1 (BBST.Tree.nil)))
              508
              9
              (BBST.Tree.node
                (BBST.Tree.node (BBST.Tree.node (BBST.Tree.nil) 509 1 (BBST.Tree.nil)) 510 2 (BBST.Tree.nil))
                511
                4
                (BBST.Tree.node (BBST.Tree.nil) 512 1 (BBST.Tree.nil))))))))
    513
    408
    (BBST.Tree.node
      (BBST.Tree.node
        (BBST.Tree.node
          (BBST.Tree.node
            (BBST.Tree.node
              (BBST.Tree.node
                (BBST.Tree.node (BBST.Tree.node (BBST.Tree.nil) 514 1 (BBST.Tree.nil)) 515 2 (BBST.Tree.nil))
                516
                5
                (BBST.Tree.node (BBST.Tree.node (BBST.Tree.nil) 517 1 (BBST.Tree.nil)) 518 2 (BBST.Tree.nil)))
              519
              10
              (BBST.Tree.node
                (BBST.Tree.node (BBST.Tree.node (BBST.Tree.nil) 520 1 (BBST.Tree.nil)) 521 2 (BBST.Tree.nil))
                522
                4
                (BBST.Tree.node (BBST.Tree.nil) 523 1 (BBST.Tree.nil))))
            524
            21
            (BBST.Tree.node
              (BBST.Tree.node
                (BBST.Tree.node (BBST.Tree.node (BBST.Tree.nil) 525 1 (BBST.Tree.nil)) 526 2 (BBST.Tree.nil))
                527
                5
                (BBST.Tree.node (BBST.Tree.node (BBST.Tree.nil) 528 1 (BBST.Tree.nil)) 529 2 (BBST.Tree.nil)))
              530
              10
              (BBST.Tree.node
                (BBST.Tree.node (BBST.Tree.node (BBST.Tree.nil) 531 1 (BBST.Tree.nil)) 532 2 (BBST.Tree.nil))
                533
                4
                (BBST.Tree.node (BBST.Tree.nil) 534 1 (BBST.Tree.nil)))))
          535
          42
          (BBST.Tree.node
            (BBST.Tree.node
              (BBST.Tree.node
                (BBST.Tree.node (BBST.Tree.node (BBST.Tree.nil) 536 1 (BBST.Tree.nil)) 537 2 (BBST.Tree.nil))
                538
                5
                (BBST.Tree.node (BBST.Tree.node (BBST.Tree.nil) 539 1 (BBST.Tree.nil)) 540 2 (BBST.Tree.nil)))
              541
              10
              (BBST.Tree.node
                (BBST.Tree.node (BBST.Tree.node (BBST.Tree.nil) 542 1 (BBST.Tree.nil)) 543 2 (BBST.Tree.nil))
                544
                4
                (BBST.Tree.node (BBST.Tree.nil) 545 1 (BBST.Tree.nil))))
            546
            20
            (BBST.Tree.node
              (BBST.Tree.node
                (BBST.Tree.node (BBST.Tree.node (BBST.Tree.nil) 547 1 (BBST.Tree.nil)) 548 2 (BBST.Tree.nil))
                549
                4
                (BBST.Tree.node (BBST.Tree.nil) 550 1 (BBST.Tree.nil)))
              551
              9
              (BBST.Tree.node
                (BBST.Tree.node (BBST.Tree.node (BBST.Tree.nil) 552 1 (BBST.Tree.nil)) 553 2 (BBST.Tree.nil))
                554
                4
                (BBST.Tree.node (BBST.Tree.nil) 555 1 (BBST.Tree.nil))))))
        556
        84
        (BBST.Tree.node
          (BBST.Tree.node
            (BBST.Tree.node
              (BBST.Tree.node
                (BBST.Tree.node (BBST.Tree.node (BBST.Tree.nil) 557 1 (BBST.Tree.nil)) 558 2 (BBST.Tree.nil))
                559
                5
                (BBST.Tree.node (BBST.Tree.node (BBST.Tree.nil) 560 1 (BBST.Tree.nil)) 561 2 (BBST.Tree.nil)))
              562
              10
              (BBST.Tree.node
                (BBST.Tree.node (BBST.Tree.node (BBST.Tree.nil) 563 1 (BBST.Tree.nil)) 564 2 (BBST.Tree.nil))
                565
                4
                (BBST.Tree.node (BBST.Tree.nil) 566 1 (BBST.Tree.nil))))
            567
            20
            (BBST.Tree.node
              (BBST.Tree.node
                (BBST.Tree.node (BBST.Tree.node (BBST.Tree.nil) 568 1 (BBST.Tree.nil)) 569 2 (BBST.Tree.nil))
                570
                4
                (BBST.Tree.node (BBST.Tree.nil) 571 1 (BBST.Tree.nil)))
              572
              9
              (BBST.Tree.node
                (BBST.Tree.node (BBST.Tree.node (BBST.Tree.nil) 573 1 (BBST.Tree.nil)) 574 2 (BBST.Tree.nil))
                575
                4
                (BBST.Tree.node (BBST.Tree.nil) 576 1 (BBST.Tree.nil)))))
          577
          41
          (BBST.Tree.node
            (BBST.Tree.node
              (BBST.Tree.node
                (BBST.Tree.node (BBST.Tree.node (BBST.Tree.nil) 578 1 (BBST.Tree.nil)) 579 2 (BBST.Tree.nil))
                580
                5
                (BBST.Tree.node (BBST.Tree.node (BBST.Tree.nil) 581 1 (BBST.Tree.nil)) 582 2 (BBST.Tree.nil)))
              583
              10
              (BBST.Tree.node
                (BBST.Tree.node (BBST.Tree.node (BBST.Tree.nil) 584 1 (BBST.Tree.nil)) 585 2 (BBST.Tree.nil))
                586
                4
                (BBST.Tree.node (BBST.Tree.nil) 587 1 (BBST.Tree.nil))))
            588
            20
            (BBST.Tree.node
              (BBST.Tree.node
                (BBST.Tree.node (BBST.Tree.node (BBST.Tree.nil) 589 1 (BBST.Tree.nil)) 590 2 (BBST.Tree.nil))
                591
                4
                (BBST.Tree.node (BBST.Tree.nil) 592 1 (BBST.Tree.nil)))
              593
              9
              (BBST.Tree.node
                (BBST.Tree.node (BBST.Tree.node (BBST.Tree.nil) 594 1 (BBST.Tree.nil)) 595 2 (BBST.Tree.nil))
                596
                4
                (BBST.Tree.node (BBST.Tree.nil) 597 1 (BBST.Tree.nil)))))))
      598
      237
      (BBST.Tree.node
        (BBST.Tree.node
          (BBST.Tree.node
            (BBST.Tree.node
              (BBST.Tree.node
                (BBST.Tree.node
                  (BBST.Tree.node (BBST.Tree.node (BBST.Tree.nil) 599 1 (BBST.Tree.nil)) 600 2 (BBST.Tree.nil))
                  601
                  4
                  (BBST.Tree.node (BBST.Tree.nil) 602 1 (BBST.Tree.nil)))
                603
                8
                (BBST.Tree.node
                  (BBST.Tree.node (BBST.Tree.nil) 604 1 (BBST.Tree.nil))
                  605
                  3
                  (BBST.Tree.node (BBST.Tree.nil) 606 1 (BBST.Tree.nil))))
              607
              16
              (BBST.Tree.node
                (BBST.Tree.node
                  (BBST.Tree.node (BBST.Tree.nil) 608 1 (BBST.Tree.nil))
                  609
                  3
                  (BBST.Tree.node (BBST.Tree.nil) 610 1 (BBST.Tree.nil)))
                611
                7
                (BBST.Tree.node
                  (BBST.Tree.node (BBST.Tree.nil) 612 1 (BBST.Tree.nil))
                  613
                  3
                  (BBST.Tree.node (BBST.Tree.nil) 614 1 (BBST.Tree.nil)))))
            615
            33
            (BBST.Tree.node
              (BBST.Tree.node
                (BBST.Tree.node
                  (BBST.Tree.node (BBST.Tree.node (BBST.Tree.nil) 616 1 (BBST.Tree.nil)) 617 2 (BBST.Tree.nil))
                  618
                  4
                  (BBST.Tree.node (BBST.Tree.nil) 619 1 (BBST.Tree.nil)))
                620
                8
                (BBST.Tree.node
                  (BBST.Tree.node (BBST.Tree.nil) 621 1 (BBST.Tree.nil))
                  622
                  3
                  (BBST.Tree.node (BBST.Tree.nil) 623 1 (BBST.Tree.nil))))
              624
              16
              (BBST.Tree.node
                (BBST.Tree.node
                  (BBST.Tree.node (BBST.Tree.nil) 625 1 (BBST.Tree.nil))
                  626
                  3
                  (BBST.Tree.node (BBST.Tree.nil) 627 1 (BBST.Tree.nil)))
                628
                7
                (BBST.Tree.node
                  (BBST.Tree.node (BBST.Tree.nil) 629 1 (BBST.Tree.nil))
                  630
                  3
                  (BBST.Tree.node (BBST.Tree.nil) 631 1 (BBST.Tree.nil))))))
          632
          66
          (BBST.Tree.node
            (BBST.Tree.node
              (BBST.Tree.node
                (BBST.Tree.node
                  (BBST.Tree.node (BBST.Tree.node (BBST.Tree.nil) 633 1 (BBST.Tree.nil)) 634 2 (BBST.Tree.nil))
                  635
                  4
                  (BBST.Tree.node (BBST.Tree.nil) 636 1 (BBST.Tree.nil)))
                637
                8
                (BBST.Tree.node
                  (BBST.Tree.node (BBST.Tree.nil) 638 1 (BBST.Tree.nil))
                  639
                  3
                  (BBST.Tree.node (BBST.Tree.nil) 640 1 (BBST.Tree.nil))))
              641
              16
              (BBST.Tree.node
                (BBST.Tree.node
                  (BBST.Tree.node (BBST.Tree.nil) 642 1 (BBST.Tree.nil))
                  643
                  3
                  (BBST.Tree.node (BBST.Tree.nil) 644 1 (BBST.Tree.nil)))
                645
                7
                (BBST.Tree.node
                  (BBST.Tree.node (BBST.Tree.nil) 646 1 (BBST.Tree.nil))
                  647
                  3
                  (BBST.Tree.node (BBST.Tree.nil) 648 1 (BBST.Tree.nil)))))
            649
            32
            (BBST.Tree.node
              (BBST.Tree.node
                (BBST.Tree.node
                  (BBST.Tree.node (BBST.Tree.nil) 650 1 (BBST.Tree.nil))
                  651
                  3
                  (BBST.Tree.node (BBST.Tree.nil) 652 1 (BBST.Tree.nil)))
                653
                7
                (BBST.Tree.node
                  (BBST.Tree.node (BBST.Tree.nil) 654 1 (BBST.Tree.nil))
                  655
                  3
                  (BBST.Tree.node (BBST.Tree.nil) 656 1 (BBST.Tree.nil))))
              657
              15
              (BBST.Tree.node
                (BBST.Tree.node
                  (BBST.Tree.node (BBST.Tree.nil) 658 1 (BBST.Tree.nil))
                  659
                  3
                  (BBST.Tree.node (BBST.Tree.nil) 660 1 (BBST.Tree.nil)))
                661
                7
                (BBST.Tree.node
                  (BBST.Tree.node (BBST.Tree.nil) 662 1 (BBST.Tree.nil))
                  663
                  3
                  (BBST.Tree.node (BBST.Tree.nil) 664 1 (BBST.Tree.nil)))))))
        665
        152
        (BBST.Tree.node
          (BBST.Tree.node
            (BBST.Tree.node
              (BBST.Tree.node
                (BBST.Tree.node
                  (BBST.Tree.node (BBST.Tree.node (BBST.Tree.nil) 666 1 (BBST.Tree.nil)) 667 2 (BBST.Tree.nil))
                  668
                  4
                  (BBST.Tree.node (BBST.Tree.nil) 669 1 (BBST.Tree.nil)))
                670
                8
                (BBST.Tree.node
                  (BBST.Tree.node (BBST.Tree.nil) 671 1 (BBST.Tree.nil))
                  672
                  3
                  (BBST.Tree.node (BBST.Tree.nil) 673 1 (BBST.Tree.nil))))
              674
              16
              (BBST.Tree.node
                (BBST.Tree.node
                  (BBST.Tree.node (BBST.Tree.nil) 675 1 (BBST.Tree.nil))
                  676
                  3
                  (BBST.Tree.node (BBST.Tree.nil) 677 1 (BBST.Tree.nil)))
                678
                7
                (BBST.Tree.node
                  (BBST.Tree.node (BBST.Tree.nil) 679 1 (BBST.Tree.nil))
                  680
                  3
                  (BBST.Tree.node (BBST.Tree.nil) 681 1 (BBST.Tree.nil)))))
            682
            32
            (BBST.Tree.node
              (BBST.Tree.node
                (BBST.Tree.node
                  (BBST.Tree.node (BBST.Tree.nil) 683 1 (BBST.Tree.nil))
                  684
                  3
                  (BBST.Tree.node (BBST.Tree.nil) 685 1 (BBST.Tree.nil)))
                686
                7
                (BBST.Tree.node
                  (BBST.Tree.node (BBST.Tree.nil) 687 1 (BBST.Tree.nil))
                  688
                  3
                  (BBST.Tree.node (BBST.Tree.nil) 689 1 (BBST.Tree.nil))))
              690
              15
              (BBST.Tree.node
                (BBST.Tree.node
                  (BBST.Tree.node (BBST.Tree.nil) 691 1 (BBST.Tree.nil))
                  692
                  3
                  (BBST.Tree.node (BBST.Tree.nil) 693 1 (BBST.Tree.nil)))
                694
                7
                (BBST.Tree.node
                  (BBST.Tree.node (BBST.Tree.nil) 695 1 (BBST.Tree.nil))
                  696
                  3
                  (BBST.Tree.node (BBST.Tree.nil) 697 1 (BBST.Tree.nil))))))
          698
          85
          (BBST.Tree.node
            (BBST.Tree.node
              (BBST.Tree.node
                (BBST.Tree.node
                  (BBST.Tree.node
                    (BBST.Tree.node (BBST.Tree.nil) 699 1 (BBST.Tree.nil))
                    700
                    3
                    (BBST.Tree.node (BBST.Tree.nil) 701 1 (BBST.Tree.nil)))
                  702
                  6
                  (BBST.Tree.node (BBST.Tree.node (BBST.Tree.nil) 703 1 (BBST.Tree.nil)) 704 2 (BBST.Tree.nil)))
                705
                13
                (BBST.Tree.node
                  (BBST.Tree.node
                    (BBST.Tree.node (BBST.Tree.nil) 706 1 (BBST.Tree.nil))
                    707
                    3
                    (BBST.Tree.node (BBST.Tree.nil) 708 1 (BBST.Tree.nil)))
                  709
                  6
                  (BBST.Tree.node (BBST.Tree.node (BBST.Tree.nil) 710 1 (BBST.Tree.nil)) 711 2 (BBST.Tree.nil))))
              712
              26
              (BBST.Tree.node
                (BBST.Tree.node
                  (BBST.Tree.node
                    (BBST.Tree.node (BBST.Tree.nil) 713 1 (BBST.Tree.nil))
                    714
                    3
                    (BBST.Tree.node (BBST.Tree.nil) 715 1 (BBST.Tree.nil)))
                  716
                  6
                  (BBST.Tree.node (BBST.Tree.node (BBST.Tree.nil) 717 1 (BBST.Tree.nil)) 718 2 (BBST.Tree.nil)))
                719
                12
                (BBST.Tree.node
                  (BBST.Tree.node (BBST.Tree.node (BBST.Tree.nil) 720 1 (BBST.Tree.nil)) 721 2 (BBST.Tree.nil))
                  722
                  5
                  (BBST.Tree.node (BBST.Tree.node (BBST.Tree.nil) 723 1 (BBST.Tree.nil)) 724 2 (BBST.Tree.nil)))))
            725
            52
            (BBST.Tree.node
              (BBST.Tree.node
                (BBST.Tree.node
                  (BBST.Tree.node
                    (BBST.Tree.node (BBST.Tree.nil) 726 1 (BBST.Tree.nil))
                    727
                    3
                    (BBST.Tree.node (BBST.Tree.nil) 728 1 (BBST.Tree.nil)))
                  729
                  6
                  (BBST.Tree.node (BBST.Tree.node (BBST.Tree.nil) 730 1 (BBST.Tree.nil)) 731 2 (BBST.Tree.nil)))
                732
                12
                (BBST.Tree.node
                  (BBST.Tree.node (BBST.Tree.node (BBST.Tree.nil) 733 1 (BBST.Tree.nil)) 734 2 (BBST.Tree.nil))
                  735
                  5
                  (BBST.Tree.node (BBST.Tree.node (BBST.Tree.nil) 736 1 (BBST.Tree.nil)) 737 2 (BBST.Tree.nil))))
              738
              25
              (BBST.Tree.node
                (BBST.Tree.node
                  (BBST.Tree.node
                    (BBST.Tree.node (BBST.Tree.nil) 739 1 (BBST.Tree.nil))
                    740
                    3
                    (BBST.Tree.node (BBST.Tree.nil) 741 1 (BBST.Tree.nil)))
                  742
                  6
                  (BBST.Tree.node (BBST.Tree.node (BBST.Tree.nil) 743 1 (BBST.Tree.nil)) 744 2 (BBST.Tree.nil)))
                745
                12
                (BBST.Tree.node
                  (BBST.Tree.node (BBST.Tree.node (BBST.Tree.nil) 746 1 (BBST.Tree.nil)) 747 2 (BBST.Tree.nil))
                  748
                  5
                  (BBST.Tree.node (BBST.Tree.node (BBST.Tree.nil) 749 1 (BBST.Tree.nil)) 750 2 (BBST.Tree.nil))))))))))

def BBST.lit1000 : BBST.Tree :=
BBST.Tree.node
  (BBST.Tree.node
    (BBST.Tree.node
      (BBST.Tree.node
        (BBST.Tree.node
          (BBST.Tree.node
            (BBST.Tree.node
              (BBST.Tree.node
                (BBST.Tree.node (BBST.Tree.node (BBST.Tree.nil) 1 1 (BBST.Tree.nil)) 2 2 (BBST.Tree.nil))
                3
                5
                (BBST.Tree.node (BBST.Tree.node (BBST.Tree.nil) 4 1 (BBST.Tree.nil)) 5 2 (BBST.Tree.nil)))
              6
              10
              (BBST.Tree.node
                (BBST.Tree.node (BBST.Tree.node (BBST.Tree.nil) 7 1 (BBST.Tree.nil)) 8 2 (BBST.Tree.nil))
                9
                4
                (BBST.Tree.node (BBST.Tree.nil) 10 1 (BBST.Tree.nil))))
            11
            21
            (BBST.Tree.node
              (BBST.Tree.node
                (BBST.Tree.node (BBST.Tree.node (BBST.Tree.nil) 12 1 (BBST.Tree.nil)) 13 2 (BBST.Tree.nil))
                14
                5
                (BBST.Tree.node (BBST.Tree.node (BBST.Tree.nil) 15 1 (BBST.Tree.nil)) 16 2 (BBST.Tree.nil)))
              17
              10
              (BBST.Tree.node
                (BBST.Tree.node (BBST.Tree.node (BBST.Tree.nil) 18 1 (BBST.Tree.nil)) 19 2 (BBST.Tree.nil))
                20
                4
                (BBST.Tree.node (BBST.Tree.nil) 21 1 (BBST.Tree.nil)))))
          22
          42
          (BBST.Tree.node
            (BBST.Tree.node
              (BBST.Tree.node
                (BBST.Tree.node (BBST.Tree.node (BBST.Tree.nil) 23 1 (BBST.Tree.nil)) 24 2 (BBST.Tree.nil))
                25
                5
                (BBST.Tree.node (BBST.Tree.node (BBST.Tree.nil) 26 1 (BBST.Tree.nil)) 27 2 (BBST.Tree.nil)))
              28
              10
              (BBST.Tree.node
                (BBST.Tree.node (BBST.Tree.node (BBST.Tree.nil) 29 1 (BBST.Tree.nil)) 30 2 (BBST.Tree.nil))
                31
                4
                (BBST.Tree.node (BBST.Tree.nil) 32 1 (BBST.Tree.nil))))
            33
            20
            (BBST.Tree.node
              (BBST.Tree.node
                (BBST.Tree.node (BBST.Tree.node (BBST.Tree.nil) 34 1 (BBST.Tree.nil)) 35 2 (BBST.Tree.nil))
                36
                4
                (BBST.Tree.node (BBST.Tree.nil) 37 1 (BBST.Tree.nil)))
              38
              9
              (BBST.Tree.node
                (BBST.Tree.node (BBST.Tree.node (BBST.Tree.nil) 39 1 (BBST.Tree.nil)) 40 2 (BBST.Tree.nil))
                41
                4
                (BBST.Tree.node (BBST.Tree.nil) 42 1 (BBST.Tree.nil))))))
        43
        85
        (BBST.Tree.node
          (BBST.Tree.node
            (BBST.Tree.node
              (BBST.Tree.node
                (BBST.Tree.node (BBST.Tree.node (BBST.Tree.nil) 44 1 (BBST.Tree.nil)) 45 2 (BBST.Tree.nil))
                46
                5
                (BBST.Tree.node (BBST.Tree.node (BBST.Tree.nil) 47 1 (BBST.Tree.nil)) 48 2 (BBST.Tree.nil)))
              49
              10
              (BBST.Tree.node
                (BBST.Tree.node (BBST.Tree.node (BBST.Tree.nil) 50 1 (BBST.Tree.nil)) 51 2 (BBST.Tree.nil))
                52
                4
                (BBST.Tree.node (BBST.Tree.nil) 53 1 (BBST.Tree.nil))))
            54
            21
            (BBST.Tree.node
              (BBST.Tree.node
                (BBST.Tree.node (BBST.Tree.node (BBST.Tree.nil) 55 1 (BBST.Tree.nil)) 56 2 (BBST.Tree.nil))
                57
                5
                (BBST.Tree.node (BBST.Tree.node (BBST.Tree.nil) 58 1 (BBST.Tree.nil)) 59 2 (BBST.Tree.nil)))
              60
              10
              (BBST.Tree.node
                (BBST.Tree.node (BBST.Tree.node (BBST.Tree.nil) 61 1 (BBST.Tree.nil)) 62 2 (BBST.Tree.nil))
                63
                4
                (BBST.Tree.node (BBST.Tree.nil) 64 1 (BBST.Tree.nil)))))
          65
          42
          (BBST.Tree.node
            (BBST.Tree.node
              (BBST.Tree.node
                (BBST.Tree.node (BBST.Tree.node (BBST.Tree.nil) 66 1 (BBST.Tree.nil)) 67 2 (BBST.Tree.nil))
                68
                5
                (BBST.Tree.node (BBST.Tree.node (BBST.Tree.nil) 69 1 (BBST.Tree.nil)) 70 2 (BBST.Tree.nil)))
              71
              10
              (BBST.Tree.node
                (BBST.Tree.node (BBST.Tree.node (BBST.Tree.nil) 72 1 (BBST.Tree.nil)) 73 2 (BBST.Tree.nil))
                74
                4
                (BBST.Tree.node (BBST.Tree.nil) 75 1 (BBST.Tree.nil))))
            76
            20
            (BBST.Tree.node
              (BBST.Tree.node
                (BBST.Tree.node (BBST.Tree.node (BBST.Tree.nil) 77 1 (BBST.Tree.nil)) 78 2 (BBST.Tree.nil))
                79
                4
                (BBST.Tree.node (BBST.Tree.nil) 80 1 (BBST.Tree.nil)))
              81
              9
              (BBST.Tree.node
                (BBST.Tree.node (BBST.Tree.node (BBST.Tree.nil) 82 1 (BBST.Tree.nil)) 83 2 (BBST.Tree.nil))
                84
                4
                (BBST.Tree.node (BBST.Tree.nil) 85 1 (BBST.Tree.nil)))))))
      86
      170
      (BBST.Tree.node
        (BBST.Tree.node
          (BBST.Tree.node
            (BBST.Tree.node
              (BBST.Tree.node
                (BBST.Tree.node (BBST.Tree.node (BBST.Tree.nil) 87 1 (BBST.Tree.nil)) 88 2 (BBST.Tree.nil))
                89
                5
                (BBST.Tree.node (BBST.Tree.node (BBST.Tree.nil) 90 1 (BBST.Tree.nil)) 91 2 (BBST.Tree.nil)))
              92
              10
              (BBST.Tree.node
                (BBST.Tree.node (BBST.Tree.node (BBST.Tree.nil) 93 1 (BBST.Tree.nil)) 94 2 (BBST.Tree.nil))
                95
                4
                (BBST.Tree.node (BBST.Tree.nil) 96 1 (BBST.Tree.nil))))
            97
            21
            (BBST.Tree.node
              (BBST.Tree.node
                (BBST.Tree.node (BBST.Tree.node (BBST.Tree.nil) 98 1 (BBST.Tree.nil)) 99 2 (BBST.Tree.nil))
                100
                5
                (BBST.Tree.node (BBST.Tree.node (BBST.Tree.nil) 101 1 (BBST.Tree.nil)) 102 2 (BBST.Tree.nil)))
              103
              10
              (BBST.Tree.node
                (BBST.Tree.node (BBST.Tree.node (BBST.Tree.nil) 104 1 (BBST.Tree.nil)) 105 2 (BBST.Tree.nil))
                106
                4
                (BBST.Tree.node (BBST.Tree.nil) 107 1 (BBST.Tree.nil)))))
          108
          42
          (BBST.Tree.node
            (BBST.Tree.node
              (BBST.Tree.node
                (BBST.Tree.node (BBST.Tree.node (BBST.Tree.nil) 109 1 (BBST.Tree.nil)) 110 2 (BBST.Tree.nil))
                111
                5
                (BBST.Tree.node (BBST.Tree.node (BBST.Tree.nil) 112 1 (BBST.Tree.nil)) 113 2 (BBST.Tree.nil)))
              114
              10
              (BBST.Tree.node
                (BBST.Tree.node (BBST.Tree.node (BBST.Tree.nil) 115 1 (BBST.Tree.nil)) 116 2 (BBST.Tree.nil))
                117
                4
                (BBST.Tree.node (BBST.Tree.nil) 118 1 (BBST.Tree.nil))))
            119
            20
            (BBST.Tree.node
              (BBST.Tree.node
                (BBST.Tree.node (BBST.Tree.node (BBST.Tree.nil) 120 1 (BBST.Tree.nil)) 121 2 (BBST.Tree.nil))
                122
                4
                (BBST.Tree.node (BBST.Tree.nil) 123 1 (BBST.Tree.nil)))
              124
              9
              (BBST.Tree.node
                (BBST.Tree.node (BBST.Tree.node (BBST.Tree.nil) 125 1 (BBST.Tree.nil)) 126 2 (BBST.Tree.nil))
                127
                4
                (BBST.Tree.node (BBST.Tree.nil) 128 1 (BBST.Tree.nil))))))
        129
        84
        (BBST.Tree.node
          (BBST.Tree.node
            (BBST.Tree.node
              (BBST.Tree.node
                (BBST.Tree.node (BBST.Tree.node (BBST.Tree.nil) 130 1 (BBST.Tree.nil)) 131 2 (BBST.Tree.nil))
                132
                5
                (BBST.Tree.node (BBST.Tree.node (BBST.Tree.nil) 133 1 (BBST.Tree.nil)) 134 2 (BBST.Tree.nil)))
              135
              10
              (BBST.Tree.node
                (BBST.Tree.node (BBST.Tree.node (BBST.Tree.nil) 136 1 (BBST.Tree.nil)) 137 2 (BBST.Tree.nil))
                138
                4
                (BBST.Tree.node (BBST.Tree.nil) 139 1 (BBST.Tree.nil))))
            140
            20
            (BBST.Tree.node
              (BBST.Tree.node
                (BBST.Tree.node (BBST.Tree.node (BBST.Tree.nil) 141 1 (BBST.Tree.nil)) 142 2 (BBST.Tree.nil))
                143
                4
                (BBST.Tree.node (BBST.Tree.nil) 144 1 (BBST.Tree.nil)))
              145
              9
              (BBST.Tree.node
                (BBST.Tree.node (BBST.Tree.node (BBST.Tree.nil) 146 1 (BBST.Tree.nil)) 147 2 (BBST.Tree.nil))
                148
                4
                (BBST.Tree.node (BBST.Tree.nil) 149 1 (BBST.Tree.nil)))))
          150
          41
          (BBST.Tree.node
            (BBST.Tree.node
              (BBST.Tree.node
                (BBST.Tree.node (BBST.Tree.node (BBST.Tree.nil) 151 1 (BBST.Tree.nil)) 152 2 (BBST.Tree.nil))
                153
                5
                (BBST.Tree.node (BBST.Tree.node (BBST.Tree.nil) 154 1 (BBST.Tree.nil)) 155 2 (BBST.Tree.nil)))
              156
              10
              (BBST.Tree.node
                (BBST.Tree.node (BBST.Tree.node (BBST.Tree.nil) 157 1 (BBST.Tree.nil)) 158 2 (BBST.Tree.nil))
                159
                4
                (BBST.Tree.node (BBST.Tree.nil) 160 1 (BBST.Tree.nil))))
            161
            20
            (BBST.Tree.node
              (BBST.Tree.node
                (BBST.Tree.node (BBST.Tree.node (BBST.Tree.nil) 162 1 (BBST.Tree.nil)) 163 2 (BBST.Tree.nil))
                164
                4
                (BBST.Tree.node (BBST.Tree.nil) 165 1 (BBST.Tree.nil)))
              166
              9
              (BBST.Tree.node
                (BBST.Tree.node (BBST.Tree.node (BBST.Tree.nil) 167 1 (BBST.Tree.nil)) 168 2 (BBST.Tree.nil))
                169
                4
                (BBST.Tree.node (BBST.Tree.nil) 170 1 (BBST.Tree.nil))))))))
    171
    341
    (BBST.Tree.node
      (BBST.Tree.node
        (BBST.Tree.node
          (BBST.Tree.node
            (BBST.Tree.node
              (BBST.Tree.node
                (BBST.Tree.node (BBST.Tree.node (BBST.Tree.nil) 172 1 (BBST.Tree.nil)) 173 2 (BBST.Tree.nil))
                174
                5
                (BBST.Tree.node (BBST.Tree.node (BBST.Tree.nil) 175 1 (BBST.Tree.nil)) 176 2 (BBST.Tree.nil)))
              177
              10
              (BBST.Tree.node
                (BBST.Tree.node (BBST.Tree.node (BBST.Tree.nil) 178 1 (BBST.Tree.nil)) 179 2 (BBST.Tree.nil))
                180
                4
                (BBST.Tree.node (BBST.Tree.nil) 181 1 (BBST.Tree.nil))))
            182
            21
            (BBST.Tree.node
              (BBST.Tree.node
                (BBST.Tree.node (BBST.Tree.node (BBST.Tree.nil) 183 1 (BBST.Tree.nil)) 184 2 (BBST.Tree.nil))
                185
                5
                (BBST.Tree.node (BBST.Tree.node (BBST.Tree.nil) 186 1 (BBST.Tree.nil)) 187 2 (BBST.Tree.nil)))
              188
              10
              (BBST.Tree.node
                (BBST.Tree.node (BBST.Tree.node (BBST.Tree.nil) 189 1 (BBST.Tree.nil)) 190 2 (BBST.Tree.nil))
                191
                4
                (BBST.Tree.node (BBST.Tree.nil) 192 1 (BBST.Tree.nil)))))
          193
          42
          (BBST.Tree.node
            (BBST.Tree.node
              (BBST.Tree.node
                (BBST.Tree.node (BBST.Tree.node (BBST.Tree.nil) 194 1 (BBST.Tree.nil)) 195 2 (BBST.Tree.nil))
                196
                5
                (BBST.Tree.node (BBST.Tree.node (BBST.Tree.nil) 197 1 (BBST.Tree.nil)) 198 2 (BBST.Tree.nil)))
              199
              10
              (BBST.Tree.node
                (BBST.Tree.node (BBST.Tree.node (BBST.Tree.nil) 200 1 (BBST.Tree.nil)) 201 2 (BBST.Tree.nil))
                202
                4
                (BBST.Tree.node (BBST.Tree.nil) 203 1 (BBST.Tree.nil))))
            204
            20
            (BBST.Tree.node
              (BBST.Tree.node
                (BBST.Tree.node (BBST.Tree.node (BBST.Tree.nil) 205 1 (BBST.Tree.nil)) 206 2 (BBST.Tree.nil))
                207
                4
                (BBST.Tree.node (BBST.Tree.nil) 208 1 (BBST.Tree.nil)))
              209
              9
              (BBST.Tree.node
                (BBST.Tree.node (BBST.Tree.node (BBST.Tree.nil) 210 1 (BBST.Tree.nil)) 211 2 (BBST.Tree.nil))
                212
                4
                (BBST.Tree.node (BBST.Tree.nil) 213 1 (BBST.Tree.nil))))))
        214
        85
        (BBST.Tree.node
          (BBST.Tree.node
            (BBST.Tree.node
              (BBST.Tree.node
                (BBST.Tree.node (BBST.Tree.node (BBST.Tree.nil) 215 1 (BBST.Tree.nil)) 216 2 (BBST.Tree.nil))
                217
                5
                (BBST.Tree.node (BBST.Tree.node (BBST.Tree.nil) 218 1 (BBST.Tree.nil)) 219 2 (BBST.Tree.nil)))
              220
              10
              (BBST.Tree.node
                (BBST.Tree.node (BBST.Tree.node (BBST.Tree.nil) 221 1 (BBST.Tree.nil)) 222 2 (BBST.Tree.nil))
                223
                4
                (BBST.Tree.node (BBST.Tree.nil) 224 1 (BBST.Tree.nil))))
            225
            21
            (BBST.Tree.node
              (BBST.Tree.node
                (BBST.Tree.node (BBST.Tree.node (BBST.Tree.nil) 226 1 (BBST.Tree.nil)) 227 2 (BBST.Tree.nil))
                228
                5
                (BBST.Tree.node (BBST.Tree.node (BBST.Tree.nil) 229 1 (BBST.Tree.nil)) 230 2 (BBST.Tree.nil)))
              231
              10
              (BBST.Tree.node
                (BBST.Tree.node (BBST.Tree.node (BBST.Tree.nil) 232 1 (BBST.Tree.nil)) 233 2 (BBST.Tree.nil))
                234
                4
                (BBST.Tree.node (BBST.Tree.nil) 235 1 (BBST.Tree.nil)))))
          236
          42
          (BBST.Tree.node
            (BBST.Tree.node
              (BBST.Tree.node
                (BBST.Tree.node (BBST.Tree.node (BBST.Tree.nil) 237 1 (BBST.Tree.nil)) 238 2 (BBST.Tree.nil))
                239
                5
                (BBST.Tree.node (BBST.Tree.node (BBST.Tree.nil) 240 1 (BBST.Tree.nil)) 241 2 (BBST.Tree.nil)))
              242
              10
              (BBST.Tree.node
                (BBST.Tree.node (BBST.Tree.node (BBST.Tree.nil) 243 1 (BBST.Tree.nil)) 244 2 (BBST.Tree.nil))
                245
                4
                (BBST.Tree.node (BBST.Tree.nil) 246 1 (BBST.Tree.nil))))
            247
            20
            (BBST.Tree.node
              (BBST.Tree.node
                (BBST.Tree.node (BBST.Tree.node (BBST.Tree.nil) 248 1 (BBST.Tree.nil)) 249 2 (BBST.Tree.nil))
                250
                4
                (BBST.Tree.node (BBST.Tree.nil) 251 1 (BBST.Tree.nil)))
              252
              9
              (BBST.Tree.node
                (BBST.Tree.node (BBST.Tree.node (BBST.Tree.nil) 253 1 (BBST.Tree.nil)) 254 2 (BBST.Tree.nil))
                255
                4
                (BBST.Tree.node (BBST.Tree.nil) 256 1 (BBST.Tree.nil)))))))
      257
      170
      (BBST.Tree.node
        (BBST.Tree.node
          (BBST.Tree.node
            (BBST.Tree.node
              (BBST.Tree.node
                (BBST.Tree.node (BBST.Tree.node (BBST.Tree.nil) 258 1 (BBST.Tree.nil)) 259 2 (BBST.Tree.nil))
                260
                5
                (BBST.Tree.node (BBST.Tree.node (BBST.Tree.nil) 261 1 (BBST.Tree.nil)) 262 2 (BBST.Tree.nil)))
              263
              10
              (BBST.Tree.node
                (BBST.Tree.node (BBST.Tree.node (BBST.Tree.nil) 264 1 (BBST.Tree.nil)) 265 2 (BBST.Tree.nil))
                266
                4
                (BBST.Tree.node (BBST.Tree.nil) 267 1 (BBST.Tree.nil))))
            268
            21
            (BBST.Tree.node
              (BBST.Tree.node
                (BBST.Tree.node (BBST.Tree.node (BBST.Tree.nil) 269 1 (BBST.Tree.nil)) 270 2 (BBST.Tree.nil))
                271
                5
                (BBST.Tree.node (BBST.Tree.node (BBST.Tree.nil) 272 1 (BBST.Tree.nil)) 273 2 (BBST.Tree.nil)))
              274
              10
              (BBST.Tree.node
                (BBST.Tree.node (BBST.Tree.node (BBST.Tree.nil) 275 1 (BBST.Tree.nil)) 276 2 (BBST.Tree.nil))
                277
                4
                (BBST.Tree.node (BBST.Tree.nil) 278 1 (BBST.Tree.nil)))))
          279
          42
          (BBST.Tree.node
            (BBST.Tree.node
              (BBST.Tree.node
                (BBST.Tree.node (BBST.Tree.node (BBST.Tree.nil) 280 1 (BBST.Tree.nil)) 281 2 (BBST.Tree.nil))
                282
                5
                (BBST.Tree.node (BBST.Tree.node (BBST.Tree.nil) 283 1 (BBST.Tree.nil)) 284 2 (BBST.Tree.nil)))
              285
              10
              (BBST.Tree.node
                (BBST.Tree.node (BBST.Tree.node (BBST.Tree.nil) 286 1 (BBST.Tree.nil)) 287 2 (BBST.Tree.nil))
                288
                4
                (BBST.Tree.node (BBST.Tree.nil) 289 1 (BBST.Tree.nil))))
            290
            20
            (BBST.Tree.node
              (BBST.Tree.node
                (BBST.Tree.node (BBST.Tree.node (BBST.Tree.nil) 291 1 (BBST.Tree.nil)) 292 2 (BBST.Tree.nil))
                293
                4
                (BBST.Tree.node (BBST.Tree.nil) 294 1 (BBST.Tree.nil)))
              295
              9
              (BBST.Tree.node
                (BBST.Tree.node (BBST.Tree.node (BBST.Tree.nil) 296 1 (BBST.Tree.nil)) 297 2 (BBST.Tree.nil))
                298
                4
                (BBST.Tree.node (BBST.Tree.nil) 299 1 (BBST.Tree.nil))))))
        300
        84
        (BBST.Tree.node
          (BBST.Tree.node
            (BBST.Tree.node
              (BBST.Tree.node
                (BBST.Tree.node (BBST.Tree.node (BBST.Tree.nil) 301 1 (BBST.Tree.nil)) 302 2 (BBST.Tree.nil))
                303
                5
                (BBST.Tree.node (BBST.Tree.node (BBST.Tree.nil) 304 1 (BBST.Tree.nil)) 305 2 (BBST.Tree.nil)))
              306
              10
              (BBST.Tree.node
                (BBST.Tree.node (BBST.Tree.node (BBST.Tree.nil) 307 1 (BBST.Tree.nil)) 308 2 (BBST.Tree.nil))
                309
                4
                (BBST.Tree.node (BBST.Tree.nil) 310 1 (BBST.Tree.nil))))
            311
            20
            (BBST.Tree.node
              (BBST.Tree.node
                (BBST.Tree.node (BBST.Tree.node (BBST.Tree.nil) 312 1 (BBST.Tree.nil)) 313 2 (BBST.Tree.nil))
                314
                4
                (BBST.Tree.node (BBST.Tree.nil) 315 1 (BBST.Tree.nil)))
              316
              9
              (BBST.Tree.node
                (BBST.Tree.node (BBST.Tree.node (BBST.Tree.nil) 317 1 (BBST.Tree.nil)) 318 2 (BBST.Tree.nil))
                319
                4
                (BBST.Tree.node (BBST.Tree.nil) 320 1 (BBST.Tree.nil)))))
          321
          41
          (BBST.Tree.node
            (BBST.Tree.node
              (BBST.Tree.node
                (BBST.Tree.node (BBST.Tree.node (BBST.Tree.nil) 322 1 (BBST.Tree.nil)) 323 2 (BBST.Tree.nil))
                324
                5
                (BBST.Tree.node (BBST.Tree.node (BBST.Tree.nil) 325 1 (BBST.Tree.nil)) 326 2 (BBST.Tree.nil)))
              327
              10
              (BBST.Tree.node
                (BBST.Tree.node (BBST.Tree.node (BBST.Tree.nil) 328 1 (BBST.Tree.nil)) 329 2 (BBST.Tree.nil))
                330
                4
                (BBST.Tree.node (BBST.Tree.nil) 331 1 (BBST.Tree.nil))))
            332
            20
            (BBST.Tree.node
              (BBST.Tree.node
                (BBST.Tree.node (BBST.Tree.node (BBST.Tree.nil) 333 1 (BBST.Tree.nil)) 334 2 (BBST.Tree.nil))
                335
                4
                (BBST.Tree.node (BBST.Tree.nil) 336 1 (BBST.Tree.nil)))
              337
              9
              (BBST.Tree.node
                (BBST.Tree.node (BBST.Tree.node (BBST.Tree.nil) 338 1 (BBST.Tree.nil)) 339 2 (BBST.Tree.nil))
                340
                4
                (BBST.Tree.node (BBST.Tree.nil) 341 1 (BBST.Tree.nil)))))))))
  342
  1000
  (BBST.Tree.node
    (BBST.Tree.node
      (BBST.Tree.node
        (BBST.Tree.node
          (BBST.Tree.node
            (BBST.Tree.node
              (BBST.Tree.node
                (BBST.Tree.node
                  (BBST.Tree.node (BBST.Tree.node (BBST.Tree.nil) 343 1 (BBST.Tree.nil)) 344 2 (BBST.Tree.nil))
                  345
                  4
                  (BBST.Tree.node (BBST.Tree.nil) 346 1 (BBST.Tree.nil)))
                347
                8
                (BBST.Tree.node
                  (BBST.Tree.node (BBST.Tree.nil) 348 1 (BBST.Tree.nil))
                  349
                  3
                  (BBST.Tree.node (BBST.Tree.nil) 350 1 (BBST.Tree.nil))))
              351
              16
              (BBST.Tree.node
                (BBST.Tree.node
                  (BBST.Tree.node (BBST.Tree.nil) 352 1 (BBST.Tree.nil))
                  353
                  3
                  (BBST.Tree.node (BBST.Tree.nil) 354 1 (BBST.Tree.nil)))
                355
                7
                (BBST.Tree.node
                  (BBST.Tree.node (BBST.Tree.nil) 356 1 (BBST.Tree.nil))
                  357
                  3
                  (BBST.Tree.node (BBST.Tree.nil) 358 1 (BBST.Tree.nil)))))
            359
            32
            (BBST.Tree.node
              (BBST.Tree.node
                (BBST.Tree.node
                  (BBST.Tree.node (BBST.Tree.nil) 360 1 (BBST.Tree.nil))
                  361
                  3
                  (BBST.Tree.node (BBST.Tree.nil) 362 1 (BBST.Tree.nil)))
                363
                7
                (BBST.Tree.node
                  (BBST.Tree.node (BBST.Tree.nil) 364 1 (BBST.Tree.nil))
                  365
                  3
                  (BBST.Tree.node (BBST.Tree.nil) 366 1 (BBST.Tree.nil))))
              367
              15
              (BBST.Tree.node
                (BBST.Tree.node
                  (BBST.Tree.node (BBST.Tree.nil) 368 1 (BBST.Tree.nil))
                  369
                  3
                  (BBST.Tree.node (BBST.Tree.nil) 370 1 (BBST.Tree.nil)))
                371
                7
                (BBST.Tree.node
                  (BBST.Tree.node (BBST.Tree.nil) 372 1 (BBST.Tree.nil))
                  373
                  3
                  (BBST.Tree.node (BBST.Tree.nil) 374 1 (BBST.Tree.nil))))))
          375
          64
          (BBST.Tree.node
            (BBST.Tree.node
              (BBST.Tree.node
                (BBST.Tree.node
                  (BBST.Tree.node (BBST.Tree.nil) 376 1 (BBST.Tree.nil))
                  377
                  3
                  (BBST.Tree.node (BBST.Tree.nil) 378 1 (BBST.Tree.nil)))
                379
                7
                (BBST.Tree.node
                  (BBST.Tree.node (BBST.Tree.nil) 380 1 (BBST.Tree.nil))
                  381
                  3
                  (BBST.Tree.node (BBST.Tree.nil) 382 1 (BBST.Tree.nil))))
              383
              15
              (BBST.Tree.node
                (BBST.Tree.node
                  (BBST.Tree.node (BBST.Tree.nil) 384 1 (BBST.Tree.nil))
                  385
                  3
                  (BBST.Tree.node (BBST.Tree.nil) 386 1 (BBST.Tree.nil)))
                387
                7
                (BBST.Tree.node
                  (BBST.Tree.node (BBST.Tree.nil) 388 1 (BBST.Tree.nil))
                  389
                  3
                  (BBST.Tree.node (BBST.Tree.nil) 390 1 (BBST.Tree.nil)))))
            391
            31
            (BBST.Tree.node
              (BBST.Tree.node
                (BBST.Tree.node
                  (BBST.Tree.node (BBST.Tree.nil) 392 1 (BBST.Tree.nil))
                  393
                  3
                  (BBST.Tree.node (BBST.Tree.nil) 394 1 (BBST.Tree.nil)))
                395
                7
                (BBST.Tree.node
                  (BBST.Tree.node (BBST.Tree.nil) 396 1 (BBST.Tree.nil))
                  397
                  3
                  (BBST.Tree.node (BBST.Tree.nil) 398 1 (BBST.Tree.nil))))
              399
              15
              (BBST.Tree.node
                (BBST.Tree.node
                  (BBST.Tree.node (BBST.Tree.nil) 400 1 (BBST.Tree.nil))
                  401
                  3
                  (BBST.Tree.node (BBST.Tree.nil) 402 1 (BBST.Tree.nil)))
                403
                7
                (BBST.Tree.node
                  (BBST.Tree.node (BBST.Tree.nil) 404 1 (BBST.Tree.nil))
                  405
                  3
                  (BBST.Tree.node (BBST.Tree.nil) 406 1 (BBST.Tree.nil)))))))
        407
        128
        (BBST.Tree.node
          (BBST.Tree.node
            (BBST.Tree.node
              (BBST.Tree.node
                (BBST.Tree.node
                  (BBST.Tree.node (BBST.Tree.nil) 408 1 (BBST.Tree.nil))
                  409
                  3
                  (BBST.Tree.node (BBST.Tree.nil) 410 1 (BBST.Tree.nil)))
                411
                7
                (BBST.Tree.node
                  (BBST.Tree.node (BBST.Tree.nil) 412 1 (BBST.Tree.nil))
                  413
                  3
                  (BBST.Tree.node (BBST.Tree.nil) 414 1 (BBST.Tree.nil))))
              415
              15
              (BBST.Tree.node
                (BBST.Tree.node
                  (BBST.Tree.node (BBST.Tree.nil) 416 1 (BBST.Tree.nil))
                  417
                  3
                  (BBST.Tree.node (BBST.Tree.nil) 418 1 (BBST.Tree.nil)))
                419
                7
                (BBST.Tree.node
                  (BBST.Tree.node (BBST.Tree.nil) 420 1 (BBST.Tree.nil))
                  421
                  3
                  (BBST.Tree.node (BBST.Tree.nil) 422 1 (BBST.Tree.nil)))))
            423
            31
            (BBST.Tree.node
              (BBST.Tree.node
                (BBST.Tree.node
                  (BBST.Tree.node (BBST.Tree.nil) 424 1 (BBST.Tree.nil))
                  425
                  3
                  (BBST.Tree.node (BBST.Tree.nil) 426 1 (BBST.Tree.nil)))
                427
                7
                (BBST.Tree.node
                  (BBST.Tree.node (BBST.Tree.nil) 428 1 (BBST.Tree.nil))
                  429
                  3
                  (BBST.Tree.node (BBST.Tree.nil) 430 1 (BBST.Tree.nil))))
              431
              15
              (BBST.Tree.node
                (BBST.Tree.node
                  (BBST.Tree.node (BBST.Tree.nil) 432 1 (BBST.Tree.nil))
                  433
                  3
                  (BBST.Tree.node (BBST.Tree.nil) 434 1 (BBST.Tree.nil)))
                435
                7
                (BBST.Tree.node
                  (BBST.Tree.node (BBST.Tree.nil) 436 1 (BBST.Tree.nil))
                  437
                  3
                  (BBST.Tree.node (BBST.Tree.nil) 438 1 (BBST.Tree.nil))))))
          439
          63
          (BBST.Tree.node
            (BBST.Tree.node
              (BBST.Tree.node
                (BBST.Tree.node
                  (BBST.Tree.node (BBST.Tree.nil) 440 1 (BBST.Tree.nil))
                  441
                  3
                  (BBST.Tree.node (BBST.Tree.nil) 442 1 (BBST.Tree.nil)))
                443
                7
                (BBST.Tree.node
                  (BBST.Tree.node (BBST.Tree.nil) 444 1 (BBST.Tree.nil))
                  445
                  3
                  (BBST.Tree.node (BBST.Tree.nil) 446 1 (BBST.Tree.nil))))
              447
              15
              (BBST.Tree.node
                (BBST.Tree.node
                  (BBST.Tree.node (BBST.Tree.nil) 448 1 (BBST.Tree.nil))
                  449
                  3
                  (BBST.Tree.node (BBST.Tree.nil) 450 1 (BBST.Tree.nil)))
                451
                7
                (BBST.Tree.node
                  (BBST.Tree.node (BBST.Tree.nil) 452 1 (BBST.Tree.nil))
                  453
                  3
                  (BBST.Tree.node (BBST.Tree.nil) 454 1 (BBST.Tree.nil)))))
            455
            31
            (BBST.Tree.node
              (BBST.Tree.node
                (BBST.Tree.node
                  (BBST.Tree.node (BBST.Tree.nil) 456 1 (BBST.Tree.nil))
                  457
                  3
                  (BBST.Tree.node (BBST.Tree.nil) 458 1 (BBST.Tree.nil)))
                459
                7
                (BBST.Tree.node
                  (BBST.Tree.node (BBST.Tree.nil) 460 1 (BBST.Tree.nil))
                  461
                  3
                  (BBST.Tree.node (BBST.Tree.nil) 462 1 (BBST.Tree.nil))))
              463
              15
              (BBST.Tree.node
                (BBST.Tree.node
                  (BBST.Tree.node (BBST.Tree.nil) 464 1 (BBST.Tree.nil))
                  465
                  3
                  (BBST.Tree.node (BBST.Tree.nil) 466 1 (BBST.Tree.nil)))
                467
                7
                (BBST.Tree.node
                  (BBST.Tree.node (BBST.Tree.nil) 468 1 (BBST.Tree.nil))
                  469
                  3
                  (BBST.Tree.node (BBST.Tree.nil) 470 1 (BBST.Tree.nil))))))))
      471
      257
      (BBST.Tree.node
        (BBST.Tree.node
          (BBST.Tree.node
            (BBST.Tree.node
              (BBST.Tree.node
                (BBST.Tree.node
                  (BBST.Tree.node (BBST.Tree.node (BBST.Tree.nil) 472 1 (BBST.Tree.nil)) 473 2 (BBST.Tree.nil))
                  474
                  4
                  (BBST.Tree.node (BBST.Tree.nil) 475 1 (BBST.Tree.nil)))
                476
                8
                (BBST.Tree.node
                  (BBST.Tree.node (BBST.Tree.nil) 477 1 (BBST.Tree.nil))
                  478
                  3
                  (BBST.Tree.node (BBST.Tree.nil) 479 1 (BBST.Tree.nil))))
              480
              16
              (BBST.Tree.node
                (BBST.Tree.node
                  (BBST.Tree.node (BBST.Tree.nil) 481 1 (BBST.Tree.nil))
                  482
                  3
                  (BBST.Tree.node (BBST.Tree.nil) 483 1 (BBST.Tree.nil)))
                484
                7
                (BBST.Tree.node
                  (BBST.Tree.node (BBST.Tree.nil) 485 1 (BBST.Tree.nil))
                  486
                  3
                  (BBST.Tree.node (BBST.Tree.nil) 487 1 (BBST.Tree.nil)))))
            488
            32
            (BBST.Tree.node
              (BBST.Tree.node
                (BBST.Tree.node
                  (BBST.Tree.node (BBST.Tree.nil) 489 1 (BBST.Tree.nil))
                  490
                  3
                  (BBST.Tree.node (BBST.Tree.nil) 491 1 (BBST.Tree.nil)))
                492
                7
                (BBST.Tree.node
                  (BBST.Tree.node (BBST.Tree.nil) 493 1 (BBST.Tree.nil))
                  494
                  3
                  (BBST.Tree.node (BBST.Tree.nil) 495 1 (BBST.Tree.nil))))
              496
              15
              (BBST.Tree.node
                (BBST.Tree.node
                  (BBST.Tree.node (BBST.Tree.nil) 497 1 (BBST.Tree.nil))
                  498
                  3
                  (BBST.Tree.node (BBST.Tree.nil) 499 1 (BBST.Tree.nil)))
                500
                7
                (BBST.Tree.node
                  (BBST.Tree.node (BBST.Tree.nil) 501 1 (BBST.Tree.nil))
                  502
                  3
                  (BBST.Tree.node (BBST.Tree.nil) 503 1 (BBST.Tree.nil))))))
          504
          64
          (BBST.Tree.node
            (BBST.Tree.node
              (BBST.Tree.node
                (BBST.Tree.node
                  (BBST.Tree.node (BBST.Tree.nil) 505 1 (BBST.Tree.nil))
                  506
                  3
                  (BBST.Tree.node (BBST.Tree.nil) 507 1 (BBST.Tree.nil)))
                508
                7
                (BBST.Tree.node
                  (BBST.Tree.node (BBST.Tree.nil) 509 1 (BBST.Tree.nil))
                  510
                  3
                  (BBST.Tree.node (BBST.Tree.nil) 511 1 (BBST.Tree.nil))))
              512
              15
              (BBST.Tree.node
                (BBST.Tree.node
                  (BBST.Tree.node (BBST.Tree.nil) 513 1 (BBST.Tree.nil))
                  514
                  3
                  (BBST.Tree.node (BBST.Tree.nil) 515 1 (BBST.Tree.nil)))
                516
                7
                (BBST.Tree.node
                  (BBST.Tree.node (BBST.Tree.nil) 517 1 (BBST.Tree.nil))
                  518
                  3
                  (BBST.Tree.node (BBST.Tree.nil) 519 1 (BBST.Tree.nil)))))
            520
            31
            (BBST.Tree.node
              (BBST.Tree.node
                (BBST.Tree.node
                  (BBST.Tree.node (BBST.Tree.nil) 521 1 (BBST.Tree.nil))
                  522
                  3
                  (BBST.Tree.node (BBST.Tree.nil) 523 1 (BBST.Tree.nil)))
                524
                7
                (BBST.Tree.node
                  (BBST.Tree.node (BBST.Tree.nil) 525 1 (BBST.Tree.nil))
                  526
                  3
                  (BBST.Tree.node (BBST.Tree.nil) 527 1 (BBST.Tree.nil))))
              528
              15
              (BBST.Tree.node
                (BBST.Tree.node
                  (BBST.Tree.node (BBST.Tree.nil) 529 1 (BBST.Tree.nil))
                  530
                  3
                  (BBST.Tree.node (BBST.Tree.nil) 531 1 (BBST.Tree.nil)))
                532
                7
                (BBST.Tree.node
                  (BBST.Tree.node (BBST.Tree.nil) 533 1 (BBST.Tree.nil))
                  534
                  3
                  (BBST.Tree.node (BBST.Tree.nil) 535 1 (BBST.Tree.nil)))))))
        536
        128
        (BBST.Tree.node
          (BBST.Tree.node
            (BBST.Tree.node
              (BBST.Tree.node
                (BBST.Tree.node
                  (BBST.Tree.node (BBST.Tree.nil) 537 1 (BBST.Tree.nil))
                  538
                  3
                  (BBST.Tree.node (BBST.Tree.nil) 539 1 (BBST.Tree.nil)))
                540
                7
                (BBST.Tree.node
                  (BBST.Tree.node (BBST.Tree.nil) 541 1 (BBST.Tree.nil))
                  542
                  3
                  (BBST.Tree.node (BBST.Tree.nil) 543 1 (BBST.Tree.nil))))
              544
              15
              (BBST.Tree.node
                (BBST.Tree.node
                  (BBST.Tree.node (BBST.Tree.nil) 545 1 (BBST.Tree.nil))
                  546
                  3
                  (BBST.Tree.node (BBST.Tree.nil) 547 1 (BBST.Tree.nil)))
                548
                7
                (BBST.Tree.node
                  (BBST.Tree.node (BBST.Tree.nil) 549 1 (BBST.Tree.nil))
                  550
                  3
                  (BBST.Tree.node (BBST.Tree.nil) 551 1 (BBST.Tree.nil)))))
            552
            31
            (BBST.Tree.node
              (BBST.Tree.node
                (BBST.Tree.node
                  (BBST.Tree.node (BBST.Tree.nil) 553 1 (BBST.Tree.nil))
                  554
                  3
                  (BBST.Tree.node (BBST.Tree.nil) 555 1 (BBST.Tree.nil)))
                556
                7
                (BBST.Tree.node
                  (BBST.Tree.node (BBST.Tree.nil) 557 1 (BBST.Tree.nil))
                  558
                  3
                  (BBST.Tree.node (BBST.Tree.nil) 559 1 (BBST.Tree.nil))))
              560
              15
              (BBST.Tree.node
                (BBST.Tree.node
                  (BBST.Tree.node (BBST.Tree.nil) 561 1 (BBST.Tree.nil))
                  562
                  3
                  (BBST.Tree.node (BBST.Tree.nil) 563 1 (BBST.Tree.nil)))
                564
                7
                (BBST.Tree.node
                  (BBST.Tree.node (BBST.Tree.nil) 565 1 (BBST.Tree.nil))
                  566
                  3
                  (BBST.Tree.node (BBST.Tree.nil) 567 1 (BBST.Tree.nil))))))
          568
          63
          (BBST.Tree.node
            (BBST.Tree.node
              (BBST.Tree.node
                (BBST.Tree.node
                  (BBST.Tree.node (BBST.Tree.nil) 569 1 (BBST.Tree.nil))
                  570
                  3
                  (BBST.Tree.node (BBST.Tree.nil) 571 1 (BBST.Tree.nil)))
                572
                7
                (BBST.Tree.node
                  (BBST.Tree.node (BBST.Tree.nil) 573 1 (BBST.Tree.nil))
                  574
                  3
                  (BBST.Tree.node (BBST.Tree.nil) 575 1 (BBST.Tree.nil))))
              576
              15
              (BBST.Tree.node
                (BBST.Tree.node
                  (BBST.Tree.node (BBST.Tree.nil) 577 1 (BBST.Tree.nil))
                  578
                  3
                  (BBST.Tree.node (BBST.Tree.nil) 579 1 (BBST.Tree.nil)))
                580
                7
                (BBST.Tree.node
                  (BBST.Tree.node (BBST.Tree.nil) 581 1 (BBST.Tree.nil))
                  582
                  3
                  (BBST.Tree.node (BBST.Tree.nil) 583 1 (BBST.Tree.nil)))))
            584
            31
            (BBST.Tree.node
              (BBST.Tree.node
                (BBST.Tree.node
                  (BBST.Tree.node (BBST.Tree.nil) 585 1 (BBST.Tree.nil))
                  586
                  3
                  (BBST.Tree.node (BBST.Tree.nil) 587 1 (BBST.Tree.nil)))
                588
                7
                (BBST.Tree.node
                  (BBST.Tree.node (BBST.Tree.nil) 589 1 (BBST.Tree.nil))
                  590
                  3
                  (BBST.Tree.node (BBST.Tree.nil) 591 1 (BBST.Tree.nil))))
              592
              15
              (BBST.Tree.node
                (BBST.Tree.node
                  (BBST.Tree.node (BBST.Tree.nil) 593 1 (BBST.Tree.nil))
                  594
                  3
                  (BBST.Tree.node (BBST.Tree.nil) 595 1 (BBST.Tree.nil)))
                596
                7
                (BBST.Tree.node
                  (BBST.Tree.node (BBST.Tree.nil) 597 1 (BBST.Tree.nil))
                  598
                  3
                  (BBST.Tree.node (BBST.Tree.nil) 599 1 (BBST.Tree.nil)))))))))
    600
    658
    (BBST.Tree.node
      (BBST.Tree.node
        (BBST.Tree.node
          (BBST.Tree.node
            (BBST.Tree.node
              (BBST.Tree.node
                (BBST.Tree.node
                  (BBST.Tree.node
                    (BBST.Tree.node (BBST.Tree.nil) 601 1 (BBST.Tree.nil))
                    602
                    3
                    (BBST.Tree.node (BBST.Tree.nil) 603 1 (BBST.Tree.nil)))
                  604
                  6
                  (BBST.Tree.node (BBST.Tree.node (BBST.Tree.nil) 605 1 (BBST.Tree.nil)) 606 2 (BBST.Tree.nil)))
                607
                12
                (BBST.Tree.node
                  (BBST.Tree.node (BBST.Tree.node (BBST.Tree.nil) 608 1 (BBST.Tree.nil)) 609 2 (BBST.Tree.nil))
                  610
                  5
                  (BBST.Tree.node (BBST.Tree.node (BBST.Tree.nil) 611 1 (BBST.Tree.nil)) 612 2 (BBST.Tree.nil))))
              613
              24
              (BBST.Tree.node
                (BBST.Tree.node
                  (BBST.Tree.node (BBST.Tree.node (BBST.Tree.nil) 614 1 (BBST.Tree.nil)) 615 2 (BBST.Tree.nil))
                  616
                  5
                  (BBST.Tree.node (BBST.Tree.node (BBST.Tree.nil) 617 1 (BBST.Tree.nil)) 618 2 (BBST.Tree.nil)))
                619
                11
                (BBST.Tree.node
                  (BBST.Tree.node (BBST.Tree.node (BBST.Tree.nil) 620 1 (BBST.Tree.nil)) 621 2 (BBST.Tree.nil))
                  622
                  5
                  (BBST.Tree.node (BBST.Tree.node (BBST.Tree.nil) 623 1 (BBST.Tree.nil)) 624 2 (BBST.Tree.nil)))))
            625
            48
            (BBST.Tree.node
              (BBST.Tree.node
                (BBST.Tree.node
                  (BBST.Tree.node (BBST.Tree.node (BBST.Tree.nil) 626 1 (BBST.Tree.nil)) 627 2 (BBST.Tree.nil))
                  628
                  5
                  (BBST.Tree.node (BBST.Tree.node (BBST.Tree.nil) 629 1 (BBST.Tree.nil)) 630 2 (BBST.Tree.nil)))
                631
                11
                (BBST.Tree.node
                  (BBST.Tree.node (BBST.Tree.node (BBST.Tree.nil) 632 1 (BBST.Tree.nil)) 633 2 (BBST.Tree.nil))
                  634
                  5
                  (BBST.Tree.node (BBST.Tree.node (BBST.Tree.nil) 635 1 (BBST.Tree.nil)) 636 2 (BBST.Tree.nil))))
              637
              23
              (BBST.Tree.node
                (BBST.Tree.node
                  (BBST.Tree.node (BBST.Tree.node (BBST.Tree.nil) 638 1 (BBST.Tree.nil)) 639 2 (BBST.Tree.nil))
                  640
                  5
                  (BBST.Tree.node (BBST.Tree.node (BBST.Tree.nil) 641 1 (BBST.Tree.nil)) 642 2 (BBST.Tree.nil)))
                643
                11
                (BBST.Tree.node
                  (BBST.Tree.node (BBST.Tree.node (BBST.Tree.nil) 644 1 (BBST.Tree.nil)) 645 2 (BBST.Tree.nil))
                  646
                  5
                  (BBST.Tree.node (BBST.Tree.node (BBST.Tree.nil) 647 1 (BBST.Tree.nil)) 648 2 (BBST.Tree.nil))))))
          649
          97
          (BBST.Tree.node
            (BBST.Tree.node
              (BBST.Tree.node
                (BBST.Tree.node
                  (BBST.Tree.node
                    (BBST.Tree.node (BBST.Tree.nil) 650 1 (BBST.Tree.nil))
                    651
                    3
                    (BBST.Tree.node (BBST.Tree.nil) 652 1 (BBST.Tree.nil)))
                  653
                  6
                  (BBST.Tree.node (BBST.Tree.node (BBST.Tree.nil) 654 1 (BBST.Tree.nil)) 655 2 (BBST.Tree.nil)))
                656
                12
                (BBST.Tree.node
                  (BBST.Tree.node (BBST.Tree.node (BBST.Tree.nil) 657 1 (BBST.Tree.nil)) 658 2 (BBST.Tree.nil))
                  659
                  5
                  (BBST.Tree.node (BBST.Tree.node (BBST.Tree.nil) 660 1 (BBST.Tree.nil)) 661 2 (BBST.Tree.nil))))
              662
              24
              (BBST.Tree.node
                (BBST.Tree.node
                  (BBST.Tree.node (BBST.Tree.node (BBST.Tree.nil) 663 1 (BBST.Tree.nil)) 664 2 (BBST.Tree.nil))
                  665
                  5
                  (BBST.Tree.node (BBST.Tree.node (BBST.Tree.nil) 666 1 (BBST.Tree.nil)) 667 2 (BBST.Tree.nil)))
                668
                11
                (BBST.Tree.node
                  (BBST.Tree.node (BBST.Tree.node (BBST.Tree.nil) 669 1 (BBST.Tree.nil)) 670 2 (BBST.Tree.nil))
                  671
                  5
                  (BBST.Tree.node (BBST.Tree.node (BBST.Tree.nil) 672 1 (BBST.Tree.nil)) 673 2 (BBST.Tree.nil)))))
            674
            48
            (BBST.Tree.node
              (BBST.Tree.node
                (BBST.Tree.node
                  (BBST.Tree.node (BBST.Tree.node (BBST.Tree.nil) 675 1 (BBST.Tree.nil)) 676 2 (BBST.Tree.nil))
                  677
                  5
                  (BBST.Tree.node (BBST.Tree.node (BBST.Tree.nil) 678 1 (BBST.Tree.nil)) 679 2 (BBST.Tree.nil)))
                680
                11
                (BBST.Tree.node
                  (BBST.Tree.node (BBST.Tree.node (BBST.Tree.nil) 681 1 (BBST.Tree.nil)) 682 2 (BBST.Tree.nil))
                  683
                  5
                  (BBST.Tree.node (BBST.Tree.node (BBST.Tree.nil) 684 1 (BBST.Tree.nil)) 685 2 (BBST.Tree.nil))))
              686
              23
              (BBST.Tree.node
                (BBST.Tree.node
                  (BBST.Tree.node (BBST.Tree.node (BBST.Tree.nil) 687 1 (BBST.Tree.nil)) 688 2 (BBST.Tree.nil))
                  689
                  5
                  (BBST.Tree.node (BBST.Tree.node (BBST.Tree.nil) 690 1 (BBST.Tree.nil)) 691 2 (BBST.Tree.nil)))
                692
                11
                (BBST.Tree.node
                  (BBST.Tree.node (BBST.Tree.node (BBST.Tree.nil) 693 1 (BBST.Tree.nil)) 694 2 (BBST.Tree.nil))
                  695
                  5
                  (BBST.Tree.node (BBST.Tree.node (BBST.Tree.nil) 696 1 (BBST.Tree.nil)) 697 2 (BBST.Tree.nil)))))))
        698
        194
        (BBST.Tree.node
          (BBST.Tree.node
            (BBST.Tree.node
              (BBST.Tree.node
                (BBST.Tree.node
                  (BBST.Tree.node
                    (BBST.Tree.node (BBST.Tree.nil) 699 1 (BBST.Tree.nil))
                    700
                    3
                    (BBST.Tree.node (BBST.Tree.nil) 701 1 (BBST.Tree.nil)))
                  702
                  6
                  (BBST.Tree.node (BBST.Tree.node (BBST.Tree.nil) 703 1 (BBST.Tree.nil)) 704 2 (BBST.Tree.nil)))
                705
                12
                (BBST.Tree.node
                  (BBST.Tree.node (BBST.Tree.node (BBST.Tree.nil) 706 1 (BBST.Tree.nil)) 707 2 (BBST.Tree.nil))
                  708
                  5
                  (BBST.Tree.node (BBST.Tree.node (BBST.Tree.nil) 709 1 (BBST.Tree.nil)) 710 2 (BBST.Tree.nil))))
              711
              24
              (BBST.Tree.node
                (BBST.Tree.node
                  (BBST.Tree.node (BBST.Tree.node (BBST.Tree.nil) 712 1 (BBST.Tree.nil)) 713 2 (BBST.Tree.nil))
                  714
                  5
                  (BBST.Tree.node (BBST.Tree.node (BBST.Tree.nil) 715 1 (BBST.Tree.nil)) 716 2 (BBST.Tree.nil)))
                717
                11
                (BBST.Tree.node
                  (BBST.Tree.node (BBST.Tree.node (BBST.Tree.nil) 718 1 (BBST.Tree.nil)) 719 2 (BBST.Tree.nil))
                  720
                  5
                  (BBST.Tree.node (BBST.Tree.node (BBST.Tree.nil) 721 1 (BBST.Tree.nil)) 722 2 (BBST.Tree.nil)))))
            723
            48
            (BBST.Tree.node
              (BBST.Tree.node
                (BBST.Tree.node
                  (BBST.Tree.node (BBST.Tree.node (BBST.Tree.nil) 724 1 (BBST.Tree.nil)) 725 2 (BBST.Tree.nil))
                  726
                  5
                  (BBST.Tree.node (BBST.Tree.node (BBST.Tree.nil) 727 1 (BBST.Tree.nil)) 728 2 (BBST.Tree.nil)))
                729
                11
                (BBST.Tree.node
                  (BBST.Tree.node (BBST.Tree.node (BBST.Tree.nil) 730 1 (BBST.Tree.nil)) 731 2 (BBST.Tree.nil))
                  732
                  5
                  (BBST.Tree.node (BBST.Tree.node (BBST.Tree.nil) 733 1 (BBST.Tree.nil)) 734 2 (BBST.Tree.nil))))
              735
              23
              (BBST.Tree.node
                (BBST.Tree.node
                  (BBST.Tree.node (BBST.Tree.node (BBST.Tree.nil) 736 1 (BBST.Tree.nil)) 737 2 (BBST.Tree.nil))
                  738
                  5
                  (BBST.Tree.node (BBST.Tree.node (BBST.Tree.nil) 739 1 (BBST.Tree.nil)) 740 2 (BBST.Tree.nil)))
                741
                11
                (BBST.Tree.node
                  (BBST.Tree.node (BBST.Tree.node (BBST.Tree.nil) 742 1 (BBST.Tree.nil)) 743 2 (BBST.Tree.nil))
                  744
                  5
                  (BBST.Tree.node (BBST.Tree.node (BBST.Tree.nil) 745 1 (BBST.Tree.nil)) 746 2 (BBST.Tree.nil))))))
          747
          96
          (BBST.Tree.node
            (BBST.Tree.node
              (BBST.Tree.node
                (BBST.Tree.node
                  (BBST.Tree.node (BBST.Tree.node (BBST.Tree.nil) 748 1 (BBST.Tree.nil)) 749 2 (BBST.Tree.nil))
                  750
                  5
                  (BBST.Tree.node (BBST.Tree.node (BBST.Tree.nil) 751 1 (BBST.Tree.nil)) 752 2 (BBST.Tree.nil)))
                753
                11
                (BBST.Tree.node
                  (BBST.Tree.node (BBST.Tree.node (BBST.Tree.nil) 754 1 (BBST.Tree.nil)) 755 2 (BBST.Tree.nil))
                  756
                  5
                  (BBST.Tree.node (BBST.Tree.node (BBST.Tree.nil) 757 1 (BBST.Tree.nil)) 758 2 (BBST.Tree.nil))))
              759
              23
              (BBST.Tree.node
                (BBST.Tree.node
                  (BBST.Tree.node (BBST.Tree.node (BBST.Tree.nil) 760 1 (BBST.Tree.nil)) 761 2 (BBST.Tree.nil))
                  762
                  5
                  (BBST.Tree.node (BBST.Tree.node (BBST.Tree.nil) 763 1 (BBST.Tree.nil)) 764 2 (BBST.Tree.nil)))
                765
                11
                (BBST.Tree.node
                  (BBST.Tree.node (BBST.Tree.node (BBST.Tree.nil) 766 1 (BBST.Tree.nil)) 767 2 (BBST.Tree.nil))
                  768
                  5
                  (BBST.Tree.node (BBST.Tree.node (BBST.Tree.nil) 769 1 (BBST.Tree.nil)) 770 2 (BBST.Tree.nil)))))
            771
            47
            (BBST.Tree.node
              (BBST.Tree.node
                (BBST.Tree.node
                  (BBST.Tree.node (BBST.Tree.node (BBST.Tree.nil) 772 1 (BBST.Tree.nil)) 773 2 (BBST.Tree.nil))
                  774
                  5
                  (BBST.Tree.node (BBST.Tree.node (BBST.Tree.nil) 775 1 (BBST.Tree.nil)) 776 2 (BBST.Tree.nil)))
                777
                11
                (BBST.Tree.node
                  (BBST.Tree.node (BBST.Tree.node (BBST.Tree.nil) 778 1 (BBST.Tree.nil)) 779 2 (BBST.Tree.nil))
                  780
                  5
                  (BBST.Tree.node (BBST.Tree.node (BBST.Tree.nil) 781 1 (BBST.Tree.nil)) 782 2 (BBST.Tree.nil))))
              783
              23
              (BBST.Tree.node
                (BBST.Tree.node
                  (BBST.Tree.node (BBST.Tree.node (BBST.Tree.nil) 784 1 (BBST.Tree.nil)) 785 2 (BBST.Tree.nil))
                  786
                  5
                  (BBST.Tree.node (BBST.Tree.node (BBST.Tree.nil) 787 1 (BBST.Tree.nil)) 788 2 (BBST.Tree.nil)))
                789
                11
                (BBST.Tree.node
                  (BBST.Tree.node (BBST.Tree.node (BBST.Tree.nil) 790 1 (BBST.Tree.nil)) 791 2 (BBST.Tree.nil))
                  792
                  5
                  (BBST.Tree.node (BBST.Tree.node (BBST.Tree.nil) 793 1 (BBST.Tree.nil)) 794 2 (BBST.Tree.nil))))))))
      795
      400
      (BBST.Tree.node
        (BBST.Tree.node
          (BBST.Tree.node
            (BBST.Tree.node
              (BBST.Tree.node
                (BBST.Tree.node
                  (BBST.Tree.node
                    (BBST.Tree.node (BBST.Tree.nil) 796 1 (BBST.Tree.nil))
                    797
                    3
                    (BBST.Tree.node (BBST.Tree.nil) 798 1 (BBST.Tree.nil)))
                  799
                  6
                  (BBST.Tree.node (BBST.Tree.node (BBST.Tree.nil) 800 1 (BBST.Tree.nil)) 801 2 (BBST.Tree.nil)))
                802
                12
                (BBST.Tree.node
                  (BBST.Tree.node (BBST.Tree.node (BBST.Tree.nil) 803 1 (BBST.Tree.nil)) 804 2 (BBST.Tree.nil))
                  805
                  5
                  (BBST.Tree.node (BBST.Tree.node (BBST.Tree.nil) 806 1 (BBST.Tree.nil)) 807 2 (BBST.Tree.nil))))
              808
              24
              (BBST.Tree.node
                (BBST.Tree.node
                  (BBST.Tree.node (BBST.Tree.node (BBST.Tree.nil) 809 1 (BBST.Tree.nil)) 810 2 (BBST.Tree.nil))
                  811
                  5
                  (BBST.Tree.node (BBST.Tree.node (BBST.Tree.nil) 812 1 (BBST.Tree.nil)) 813 2 (BBST.Tree.nil)))
                814
                11
                (BBST.Tree.node
                  (BBST.Tree.node (BBST.Tree.node (BBST.Tree.nil) 815 1 (BBST.Tree.nil)) 816 2 (BBST.Tree.nil))
                  817
                  5
                  (BBST.Tree.node (BBST.Tree.node (BBST.Tree.nil) 818 1 (BBST.Tree.nil)) 819 2 (BBST.Tree.nil)))))
            820
            48
            (BBST.Tree.node
              (BBST.Tree.node
                (BBST.Tree.node
                  (BBST.Tree.node (BBST.Tree.node (BBST.Tree.nil) 821 1 (BBST.Tree.nil)) 822 2 (BBST.Tree.nil))
                  823
                  5
                  (BBST.Tree.node (BBST.Tree.node (BBST.Tree.nil) 824 1 (BBST.Tree.nil)) 825 2 (BBST.Tree.nil)))
                826
                11
                (BBST.Tree.node
                  (BBST.Tree.node (BBST.Tree.node (BBST.Tree.nil) 827 1 (BBST.Tree.nil)) 828 2 (BBST.Tree.nil))
                  829
                  5
                  (BBST.Tree.node (BBST.Tree.node (BBST.Tree.nil) 830 1 (BBST.Tree.nil)) 831 2 (BBST.Tree.nil))))
              832
              23
              (BBST.Tree.node
                (BBST.Tree.node
                  (BBST.Tree.node (BBST.Tree.node (BBST.Tree.nil) 833 1 (BBST.Tree.nil)) 834 2 (BBST.Tree.nil))
                  835
                  5
                  (BBST.Tree.node (BBST.Tree.node (BBST.Tree.nil) 836 1 (BBST.Tree.nil)) 837 2 (BBST.Tree.nil)))
                838
                11
                (BBST.Tree.node
                  (BBST.Tree.node (BBST.Tree.node (BBST.Tree.nil) 839 1 (BBST.Tree.nil)) 840 2 (BBST.Tree.nil))
                  841
                  5
                  (BBST.Tree.node (BBST.Tree.node (BBST.Tree.nil) 842 1 (BBST.Tree.nil)) 843 2 (BBST.Tree.nil))))))
          844
          96
          (BBST.Tree.node
            (BBST.Tree.node
              (BBST.Tree.node
                (BBST.Tree.node
                  (BBST.Tree.node (BBST.Tree.node (BBST.Tree.nil) 845 1 (BBST.Tree.nil)) 846 2 (BBST.Tree.nil))
                  847
                  5
                  (BBST.Tree.node (BBST.Tree.node (BBST.Tree.nil) 848 1 (BBST.Tree.nil)) 849 2 (BBST.Tree.nil)))
                850
                11
                (BBST.Tree.node
                  (BBST.Tree.node (BBST.Tree.node (BBST.Tree.nil) 851 1 (BBST.Tree.nil)) 852 2 (BBST.Tree.nil))
                  853
                  5
                  (BBST.Tree.node (BBST.Tree.node (BBST.Tree.nil) 854 1 (BBST.Tree.nil)) 855 2 (BBST.Tree.nil))))
              856
              23
              (BBST.Tree.node
                (BBST.Tree.node
                  (BBST.Tree.node (BBST.Tree.node (BBST.Tree.nil) 857 1 (BBST.Tree.nil)) 858 2 (BBST.Tree.nil))
                  859
                  5
                  (BBST.Tree.node (BBST.Tree.node (BBST.Tree.nil) 860 1 (BBST.Tree.nil)) 861 2 (BBST.Tree.nil)))
                862
                11
                (BBST.Tree.node
                  (BBST.Tree.node (BBST.Tree.node (BBST.Tree.nil) 863 1 (BBST.Tree.nil)) 864 2 (BBST.Tree.nil))
                  865
                  5
                  (BBST.Tree.node (BBST.Tree.node (BBST.Tree.nil) 866 1 (BBST.Tree.nil)) 867 2 (BBST.Tree.nil)))))
            868
            47
            (BBST.Tree.node
              (BBST.Tree.node
                (BBST.Tree.node
                  (BBST.Tree.node (BBST.Tree.node (BBST.Tree.nil) 869 1 (BBST.Tree.nil)) 870 2 (BBST.Tree.nil))
                  871
                  5
                  (BBST.Tree.node (BBST.Tree.node (BBST.Tree.nil) 872 1 (BBST.Tree.nil)) 873 2 (BBST.Tree.nil)))
                874
                11
                (BBST.Tree.node
                  (BBST.Tree.node (BBST.Tree.node (BBST.Tree.nil) 875 1 (BBST.Tree.nil)) 876 2 (BBST.Tree.nil))
                  877
                  5
                  (BBST.Tree.node (BBST.Tree.node (BBST.Tree.nil) 878 1 (BBST.Tree.nil)) 879 2 (BBST.Tree.nil))))
              880
              23
              (BBST.Tree.node
                (BBST.Tree.node
                  (BBST.Tree.node (BBST.Tree.node (BBST.Tree.nil) 881 1 (BBST.Tree.nil)) 882 2 (BBST.Tree.nil))
                  883
                  5
                  (BBST.Tree.node (BBST.Tree.node (BBST.Tree.nil) 884 1 (BBST.Tree.nil)) 885 2 (BBST.Tree.nil)))
                886
                11
                (BBST.Tree.node
                  (BBST.Tree.node (BBST.Tree.node (BBST.Tree.nil) 887 1 (BBST.Tree.nil)) 888 2 (BBST.Tree.nil))
                  889
                  5
                  (BBST.Tree.node (BBST.Tree.node (BBST.Tree.nil) 890 1 (BBST.Tree.nil)) 891 2 (BBST.Tree.nil)))))))
        892
        205
        (BBST.Tree.node
          (BBST.Tree.node
            (BBST.Tree.node
              (BBST.Tree.node
                (BBST.Tree.node
                  (BBST.Tree.node
                    (BBST.Tree.node (BBST.Tree.nil) 893 1 (BBST.Tree.nil))
                    894
                    3
                    (BBST.Tree.node (BBST.Tree.nil) 895 1 (BBST.Tree.nil)))
                  896
                  6
                  (BBST.Tree.node (BBST.Tree.node (BBST.Tree.nil) 897 1 (BBST.Tree.nil)) 898 2 (BBST.Tree.nil)))
                899
                12
                (BBST.Tree.node
                  (BBST.Tree.node (BBST.Tree.node (BBST.Tree.nil) 900 1 (BBST.Tree.nil)) 901 2 (BBST.Tree.nil))
                  902
                  5
                  (BBST.Tree.node (BBST.Tree.node (BBST.Tree.nil) 903 1 (BBST.Tree.nil)) 904 2 (BBST.Tree.nil))))
              905
              24
              (BBST.Tree.node
                (BBST.Tree.node
                  (BBST.Tree.node (BBST.Tree.node (BBST.Tree.nil) 906 1 (BBST.Tree.nil)) 907 2 (BBST.Tree.nil))
                  908
                  5
                  (BBST.Tree.node (BBST.Tree.node (BBST.Tree.nil) 909 1 (BBST.Tree.nil)) 910 2 (BBST.Tree.nil)))
                911
                11
                (BBST.Tree.node
                  (BBST.Tree.node (BBST.Tree.node (BBST.Tree.nil) 912 1 (BBST.Tree.nil)) 913 2 (BBST.Tree.nil))
                  914
                  5
                  (BBST.Tree.node (BBST.Tree.node (BBST.Tree.nil) 915 1 (BBST.Tree.nil)) 916 2 (BBST.Tree.nil)))))
            917
            48
            (BBST.Tree.node
              (BBST.Tree.node
                (BBST.Tree.node
                  (BBST.Tree.node (BBST.Tree.node (BBST.Tree.nil) 918 1 (BBST.Tree.nil)) 919 2 (BBST.Tree.nil))
                  920
                  5
                  (BBST.Tree.node (BBST.Tree.node (BBST.Tree.nil) 921 1 (BBST.Tree.nil)) 922 2 (BBST.Tree.nil)))
                923
                11
                (BBST.Tree.node
                  (BBST.Tree.node (BBST.Tree.node (BBST.Tree.nil) 924 1 (BBST.Tree.nil)) 925 2 (BBST.Tree.nil))
                  926
                  5
                  (BBST.Tree.node (BBST.Tree.node (BBST.Tree.nil) 927 1 (BBST.Tree.nil)) 928 2 (BBST.Tree.nil))))
              929
              23
              (BBST.Tree.node
                (BBST.Tree.node
                  (BBST.Tree.node (BBST.Tree.node (BBST.Tree.nil) 930 1 (BBST.Tree.nil)) 931 2 (BBST.Tree.nil))
                  932
                  5
                  (BBST.Tree.node (BBST.Tree.node (BBST.Tree.nil) 933 1 (BBST.Tree.nil)) 934 2 (BBST.Tree.nil)))
                935
                11
                (BBST.Tree.node
                  (BBST.Tree.node (BBST.Tree.node (BBST.Tree.nil) 936 1 (BBST.Tree.nil)) 937 2 (BBST.Tree.nil))
                  938
                  5
                  (BBST.Tree.node (BBST.Tree.node (BBST.Tree.nil) 939 1 (BBST.Tree.nil)) 940 2 (BBST.Tree.nil))))))
          941
          108
          (BBST.Tree.node
            (BBST.Tree.node
              (BBST.Tree.node
                (BBST.Tree.node
                  (BBST.Tree.node (BBST.Tree.node (BBST.Tree.nil) 942 1 (BBST.Tree.nil)) 943 2 (BBST.Tree.nil))
                  944
                  5
                  (BBST.Tree.node (BBST.Tree.node (BBST.Tree.nil) 945 1 (BBST.Tree.nil)) 946 2 (BBST.Tree.nil)))
                947
                11
                (BBST.Tree.node
                  (BBST.Tree.node (BBST.Tree.node (BBST.Tree.nil) 948 1 (BBST.Tree.nil)) 949 2 (BBST.Tree.nil))
                  950
                  5
                  (BBST.Tree.node (BBST.Tree.node (BBST.Tree.nil) 951 1 (BBST.Tree.nil)) 952 2 (BBST.Tree.nil))))
              953
              23
              (BBST.Tree.node
                (BBST.Tree.node
                  (BBST.Tree.node (BBST.Tree.node (BBST.Tree.nil) 954 1 (BBST.Tree.nil)) 955 2 (BBST.Tree.nil))
                  956
                  5
                  (BBST.Tree.node (BBST.Tree.node (BBST.Tree.nil) 957 1 (BBST.Tree.nil)) 958 2 (BBST.Tree.nil)))
                959
                11
                (BBST.Tree.node
                  (BBST.Tree.node (BBST.Tree.node (BBST.Tree.nil) 960 1 (BBST.Tree.nil)) 961 2 (BBST.Tree.nil))
                  962
                  5
                  (BBST.Tree.node (BBST.Tree.node (BBST.Tree.nil) 963 1 (BBST.Tree.nil)) 964 2 (BBST.Tree.nil)))))
            965
            59
            (BBST.Tree.node
              (BBST.Tree.node
                (BBST.Tree.node
                  (BBST.Tree.node (BBST.Tree.node (BBST.Tree.nil) 966 1 (BBST.Tree.nil)) 967 2 (BBST.Tree.nil))
                  968
                  5
                  (BBST.Tree.node (BBST.Tree.node (BBST.Tree.nil) 969 1 (BBST.Tree.nil)) 970 2 (BBST.Tree.nil)))
                971
                11
                (BBST.Tree.node
                  (BBST.Tree.node (BBST.Tree.node (BBST.Tree.nil) 972 1 (BBST.Tree.nil)) 973 2 (BBST.Tree.nil))
                  974
                  5
                  (BBST.Tree.node (BBST.Tree.node (BBST.Tree.nil) 975 1 (BBST.Tree.nil)) 976 2 (BBST.Tree.nil))))
              977
              35
              (BBST.Tree.node
                (BBST.Tree.node
                  (BBST.Tree.node
                    (BBST.Tree.node (BBST.Tree.node (BBST.Tree.nil) 978 1 (BBST.Tree.nil)) 979 2 (BBST.Tree.nil))
                    980
                    4
                    (BBST.Tree.node (BBST.Tree.nil) 981 1 (BBST.Tree.nil)))
                  982
                  9
                  (BBST.Tree.node
                    (BBST.Tree.node (BBST.Tree.node (BBST.Tree.nil) 983 1 (BBST.Tree.nil)) 984 2 (BBST.Tree.nil))
                    985
                    4
                    (BBST.Tree.node (BBST.Tree.nil) 986 1 (BBST.Tree.nil))))
                987
                23
                (BBST.Tree.node
                  (BBST.Tree.node
                    (BBST.Tree.node (BBST.Tree.node (BBST.Tree.nil) 988 1 (BBST.Tree.nil)) 989 2 (BBST.Tree.nil))
                    990
                    4
                    (BBST.Tree.node (BBST.Tree.nil) 991 1 (BBST.Tree.nil)))
                  992
                  13
                  (BBST.Tree.node
                    (BBST.Tree.node (BBST.Tree.node (BBST.Tree.nil) 993 1 (BBST.Tree.nil)) 994 2 (BBST.Tree.nil))
                    995
                    8
                    (BBST.Tree.node
                      (BBST.Tree.node (BBST.Tree.node (BBST.Tree.nil) 996 1 (BBST.Tree.nil)) 997 2 (BBST.Tree.nil))
                      998
                      5
                      (BBST.Tree.node
                        (BBST.Tree.nil)
                        999
                        2
                        (BBST.Tree.node (BBST.Tree.nil) 1000 1 (BBST.Tree.nil)))))))))))))


/-! ### Basic facts about counters, sizes and count_node -/

namespace BBST

namespace Tree

@[simp] theorem ctr_nil : ctr nil = 0 := rfl

@[simp] theorem ctr_node (l : Tree) (k : Int) (c : Nat) (r : Tree) : ctr (node l k c r) = c := rfl

@[simp] theorem csize_nil : csize nil = 0 := rfl

@[simp] theorem csize_node (l : Tree) (k : Int) (c : Nat) (r : Tree) :
    csize (node l k c r) = csize l + csize r + 1 := rfl

@[simp] theorem count_node_nil : count_node nil = nil := rfl

theorem count_node_node (l : Tree) (k : Int) (c : Nat) (r : Tree) :
    count_node (node l k c r) =
      node (count_node l) k (ctr (count_node l) + ctr (count_node r) + 1) (count_node r) := rfl

@[simp] theorem ctr_count_node (t : Tree) : ctr (count_node t) = csize t := by
  induction t with
  | nil => rfl
  | node l k c r ihl ihr => simp [count_node, ihl, ihr]

@[simp] theorem csize_count_node (t : Tree) : csize (count_node t) = csize t := by
  induction t with
  | nil => rfl
  | node l k c r ihl ihr => simp [count_node, ihl, ihr]

@[simp] theorem counters_ok_nil : counters_ok nil = true := rfl

theorem counters_ok_node_iff {l r : Tree} {k : Int} {c : Nat} :
    counters_ok (node l k c r) = true ↔
      c = ctr l + ctr r + 1 ∧ counters_ok l = true ∧ counters_ok r = true := by
  simp [counters_ok, and_assoc]

theorem counters_ok_count_node (t : Tree) : counters_ok (count_node t) = true := by
  induction t with
  | nil => rfl
  | node l k c r ihl ihr =>
    rw [count_node_node]
    exact counters_ok_node_iff.mpr ⟨rfl, ihl, ihr⟩

theorem ctr_eq_csize : ∀ {t : Tree}, counters_ok t = true → ctr t = csize t := by
  intro t
  induction t with
  | nil => intro _; rfl
  | node l k c r ihl ihr =>
    intro h
    rcases counters_ok_node_iff.mp h with ⟨hc, hl, hr⟩
    simp [hc, ihl hl, ihr hr]

theorem count_node_eq_self : ∀ {t : Tree}, counters_ok t = true → count_node t = t := by
  intro t
  induction t with
  | nil => intro _; rfl
  | node l k c r ihl ihr =>
    intro h
    rcases counters_ok_node_iff.mp h with ⟨hc, hl, hr⟩
    rw [count_node_node, ihl hl, ihr hr, hc]

/-! ### In order traversal and rebuild -/

@[simp] theorem inOrder_nil : inOrder nil = [] := rfl

@[simp] theorem inOrder_node (l : Tree) (k : Int) (c : Nat) (r : Tree) :
    inOrder (node l k c r) = inOrder l ++ (k, c) :: inOrder r := rfl

@[simp] theorem inorderKeys_nil : inorderKeys nil = [] := rfl

@[simp] theorem inorderKeys_node (l : Tree) (k : Int) (c : Nat) (r : Tree) :
    inorderKeys (node l k c r) = inorderKeys l ++ k :: inorderKeys r := by
  simp [inorderKeys, inOrder]

theorem length_inOrder (t : Tree) : (inOrder t).length = csize t := by
  induction t with
  | nil => rfl
  | node l k c r ihl ihr => simp [ihl, ihr]; omega

theorem length_inorderKeys (t : Tree) : (inorderKeys t).length = csize t := by
  rw [inorderKeys, List.length_map, length_inOrder]

theorem inorderKeys_count_node (t : Tree) : inorderKeys (count_node t) = inorderKeys t := by
  induction t with
  | nil => rfl
  | node l k c r ihl ihr => rw [count_node_node, inorderKeys_node, inorderKeys_node, ihl, ihr]

theorem take_getD_drop :
    ∀ (l : List (Int × Nat)) (m : Nat), m < l.length →
      l.take m ++ l.getD m (0, 0) :: l.drop (m + 1) = l := by
  intro l
  induction l with
  | nil => intro m h; simp at h
  | cons x xs ih =>
    intro m h
    cases m with
    | zero => simp
    | succ m2 =>
      simp only [List.take_succ_cons, List.getD_cons_succ, List.drop_succ_cons, List.cons_append,
        List.cons.injEq, true_and]
      exact ih m2 (by simpa using h)

theorem inOrder_rebuild_go :
    ∀ (fuel : Nat) (l : List (Int × Nat)), l.length ≤ fuel → inOrder (rebuild_go fuel l) = l := by
  intro fuel
  induction fuel with
  | zero =>
    intro l h
    have : l = [] := List.eq_nil_of_length_eq_zero (Nat.le_zero.mp h)
    subst this
    rfl
  | succ n ih =>
    intro l h
    match l with
    | [] => rfl
    | x :: xs =>
      have hm : (x :: xs).length / 2 < (x :: xs).length :=
        Nat.div_lt_self (by simp) (by omega)
      simp only [rebuild_go, inOrder_node]
      rw [ih _ (by simp only [List.length_take, List.length_cons] at *; omega),
        ih _ (by simp only [List.length_drop, List.length_cons] at *; omega)]
      exact take_getD_drop (x :: xs) ((x :: xs).length / 2) hm

theorem inOrder_rebuild_tree (l : List (Int × Nat)) : inOrder (rebuild_tree l) = l :=
  inOrder_rebuild_go l.length l le_rfl

theorem csize_rebuild_tree (l : List (Int × Nat)) : csize (rebuild_tree l) = l.length := by
  rw [← length_inOrder, inOrder_rebuild_tree]

/-! ### Facts about rebalance -/

theorem inorderKeys_rebalance (t : Tree) : inorderKeys (rebalance t) = inorderKeys t := by
  rw [rebalance, inorderKeys_count_node, inorderKeys, inOrder_rebuild_tree, inorderKeys]

theorem csize_rebalance (t : Tree) : csize (rebalance t) = csize t := by
  rw [rebalance, csize_count_node, csize_rebuild_tree, length_inOrder]

theorem ctr_rebalance (t : Tree) : ctr (rebalance t) = csize t := by
  rw [rebalance, ctr_count_node, csize_rebuild_tree, length_inOrder]

theorem counters_ok_rebalance (t : Tree) : counters_ok (rebalance t) = true :=
  counters_ok_count_node _

/-! ### The climb of add preserves counters, size and key sequence -/

theorem climb_preserve (tb bb : Nat) (k : Int) :
    ∀ t : Tree, counters_ok t = true →
      counters_ok (climb_rebalance tb bb t k).1 = true ∧
      ctr (climb_rebalance tb bb t k).1 = ctr t ∧
      csize (climb_rebalance tb bb t k).1 = csize t ∧
      inorderKeys (climb_rebalance tb bb t k).1 = inorderKeys t := by
  intro t
  induction t with
  | nil => intro _; simp [climb_rebalance]
  | node l nk c r ihl ihr =>
    intro h
    rcases counters_ok_node_iff.mp h with ⟨hc, hl, hr⟩
    have hcsl := ctr_eq_csize hl
    have hcsr := ctr_eq_csize hr
    by_cases h1 : k < nk
    · rcases ihl hl with ⟨al, bl, cl, dl⟩
      have hok : counters_ok (node (climb_rebalance tb bb l k).1 nk c r) = true :=
        counters_ok_node_iff.mpr ⟨by rw [bl]; exact hc, al, hr⟩
      have hcs : csize (node (climb_rebalance tb bb l k).1 nk c r) = csize (node l nk c r) := by
        simp [cl]
      have hio : inorderKeys (node (climb_rebalance tb bb l k).1 nk c r) =
          inorderKeys (node l nk c r) := by
        rw [inorderKeys_node, inorderKeys_node, dl]
      simp only [climb_rebalance, if_pos h1]
      by_cases h2 : (climb_rebalance tb bb l k).2
      · simp only [h2, if_true]
        exact ⟨hok, by simp, hcs, hio⟩
      · simp only [h2, Bool.false_eq_true, if_false]
        by_cases h3 : is_balanced tb bb (node (climb_rebalance tb bb l k).1 nk c r)
        · simp only [h3, if_true]
          exact ⟨hok, by simp, hcs, hio⟩
        · simp only [h3, Bool.false_eq_true, if_false]
          refine ⟨counters_ok_rebalance _, ?_, ?_, ?_⟩
          · rw [ctr_rebalance, hcs]
            simp [hc, hcsl, hcsr]
          · rw [csize_rebalance, hcs]
          · rw [inorderKeys_rebalance, hio]
    · by_cases h4 : nk < k
      · rcases ihr hr with ⟨ar, br, cr2, dr⟩
        have hok : counters_ok (node l nk c (climb_rebalance tb bb r k).1) = true :=
          counters_ok_node_iff.mpr ⟨by rw [br]; exact hc, hl, ar⟩
        have hcs : csize (node l nk c (climb_rebalance tb bb r k).1) = csize (node l nk c r) := by
          simp [cr2]
        have hio : inorderKeys (node l nk c (climb_rebalance tb bb r k).1) =
            inorderKeys (node l nk c r) := by
          rw [inorderKeys_node, inorderKeys_node, dr]
        simp only [climb_rebalance, if_neg h1, if_pos h4]
        by_cases h2 : (climb_rebalance tb bb r k).2
        · simp only [h2, if_true]
          exact ⟨hok, by simp, hcs, hio⟩
        · simp only [h2, Bool.false_eq_true, if_false]
          by_cases h3 : is_balanced tb bb (node l nk c (climb_rebalance tb bb r k).1)
          · simp only [h3, if_true]
            exact ⟨hok, by simp, hcs, hio⟩
          · simp only [h3, Bool.false_eq_true, if_false]
            refine ⟨counters_ok_rebalance _, ?_, ?_, ?_⟩
            · rw [ctr_rebalance, hcs]
              simp [hc, hcsl, hcsr]
            · rw [csize_rebalance, hcs]
            · rw [inorderKeys_rebalance, hio]
      · simp only [climb_rebalance, if_neg h1, if_neg h4]
        exact ⟨h, by simp, by simp, by simp⟩

end Tree

end BBST

/-! ### Equivalence of add with its optimized form on counter consistent trees -/

namespace BBST

namespace Tree

theorem csize_addEntry :
    ∀ (t : Tree) (k : Int) (u : Tree), addEntry t k = some u → csize u = csize t + 1 := by
  intro t k
  induction t with
  | nil =>
    intro u h
    simp only [addEntry, Option.some.injEq] at h
    subst h
    rfl
  | node l nk c r ihl ihr =>
    intro u h
    by_cases h1 : k < nk
    · simp only [addEntry, if_pos h1, Option.map_eq_some'] at h
      rcases h with ⟨lt, hlt, hu⟩
      subst hu
      have := ihl lt hlt
      simp [this]
      omega
    · by_cases h2 : nk < k
      · simp only [addEntry, if_neg h1, if_pos h2, Option.map_eq_some'] at h
        rcases h with ⟨rt, hrt, hu⟩
        subst hu
        have := ihr rt hrt
        simp [this]
        omega
      · simp [addEntry, if_neg h1, if_neg h2] at h

theorem insertFast_eq :
    ∀ (t : Tree) (k : Int), counters_ok t = true →
      insertFast t k = (addEntry t k).map count_node := by
  intro t k
  induction t with
  | nil => intro _; rfl
  | node l nk c r ihl ihr =>
    intro h
    rcases counters_ok_node_iff.mp h with ⟨hc, hl, hr⟩
    have e1 := ctr_eq_csize hl
    have e2 := ctr_eq_csize hr
    by_cases h1 : k < nk
    · cases he : addEntry l k with
      | none =>
        have hn : insertFast l k = none := by rw [ihl hl, he]; rfl
        simp [insertFast, addEntry, if_pos h1, he, hn]
      | some u =>
        have hif : insertFast l k = some (count_node u) := by rw [ihl hl, he]; rfl
        have hsz : csize u = csize l + 1 := csize_addEntry l k u he
        simp only [insertFast, addEntry, if_pos h1, he, hif, Option.map_some']
        rw [count_node_node, count_node_eq_self hr, ctr_count_node]
        have : c + 1 = csize u + ctr r + 1 := by omega
        rw [this]
    · by_cases h2 : nk < k
      · cases he : addEntry r k with
        | none =>
          have hn : insertFast r k = none := by rw [ihr hr, he]; rfl
          simp [insertFast, addEntry, if_neg h1, if_pos h2, he, hn]
        | some u =>
          have hif : insertFast r k = some (count_node u) := by rw [ihr hr, he]; rfl
          have hsz : csize u = csize r + 1 := csize_addEntry r k u he
          simp only [insertFast, addEntry, if_neg h1, if_pos h2, he, hif, Option.map_some']
          rw [count_node_node, count_node_eq_self hl, ctr_count_node]
          have : c + 1 = ctr l + csize u + 1 := by omega
          rw [this]
      · simp [insertFast, addEntry, if_neg h1, if_neg h2]

end Tree

theorem add_eq_addFast (s : BalancedBSTSet) (k : Int) (h : s.root.counters_ok = true) :
    add s k = addFast s k := by
  unfold add addFast
  cases hr : s.root with
  | nil =>
    have : Tree.count_node (Tree.node Tree.nil k 0 Tree.nil) = Tree.node Tree.nil k 1 Tree.nil := rfl
    rw [this]
  | node l nk c r =>
    have h2 : Tree.counters_ok (Tree.node l nk c r) = true := hr ▸ h
    rw [Tree.insertFast_eq _ k h2]
    cases he : Tree.addEntry (Tree.node l nk c r) k with
    | none => rfl
    | some t1 => rfl

theorem counters_ok_add (s : BalancedBSTSet) (k : Int) (h : s.root.counters_ok = true) :
    ((add s k).1).root.counters_ok = true := by
  unfold add
  cases hr : s.root with
  | nil => exact Tree.counters_ok_count_node _
  | node l nk c r =>
    cases he : Tree.addEntry (Tree.node l nk c r) k with
    | none =>
      simp only []
      rw [hr] at h
      exact hr ▸ h
    | some t1 =>
      simp only []
      by_cases hb : s.self_balancing
      · simp only [hb, if_true]
        exact (Tree.climb_preserve s.top s.bottom k _ (Tree.counters_ok_count_node t1)).1
      · simp only [hb, if_false]
        exact Tree.counters_ok_count_node t1

theorem foldl_add_eq_fast :
    ∀ (ks : List Int) (s : BalancedBSTSet), s.root.counters_ok = true →
      ks.foldl (fun a x => (add a x).1) s = ks.foldl (fun a x => (addFast a x).1) s := by
  intro ks
  induction ks with
  | nil => intro s _; rfl
  | cons k ks2 ih =>
    intro s h
    simp only [List.foldl_cons]
    rw [show (add s k).1 = (addFast s k).1 from by rw [add_eq_addFast s k h]]
    have h2 : ((addFast s k).1).root.counters_ok = true := by
      rw [← add_eq_addFast s k h]
      exact counters_ok_add s k h
    exact ih _ h2

theorem init_root (sb : Bool) (tb bb : Nat) : (init sb tb bb).root = Tree.nil := by
  unfold init
  split <;> rfl

theorem buildAdds_eq_buildFast (sb : Bool) (tb bb : Nat) (ks : List Int) :
    buildAdds sb tb bb ks = buildFast sb tb bb ks := by
  unfold buildAdds buildFast
  exact foldl_add_eq_fast ks _ (by rw [init_root]; rfl)

end BBST

/-! ### Balance of rebuilt subtrees, and the counterexample states -/

namespace BBST

namespace Tree

theorem is_balanced_node_iff {tb bb : Nat} {l r : Tree} {k : Int} {c : Nat} :
    is_balanced tb bb (node l k c r) = true ↔ ctr l * bb ≤ c * tb ∧ ctr r * bb ≤ c * tb := by
  simp only [is_balanced]
  split_ifs with h1 h2 <;> simp <;> omega

@[simp] theorem balancedAll_nil (tb bb : Nat) : balancedAll tb bb nil = true := rfl

theorem balancedAll_node_iff {tb bb : Nat} {l r : Tree} {k : Int} {c : Nat} :
    balancedAll tb bb (node l k c r) = true ↔
      is_balanced tb bb (node l k c r) = true ∧
        balancedAll tb bb l = true ∧ balancedAll tb bb r = true := by
  simp [balancedAll, and_assoc]

theorem csize_rebuild_go (fuel : Nat) (l : List (Int × Nat)) (h : l.length ≤ fuel) :
    csize (rebuild_go fuel l) = l.length := by
  rw [← length_inOrder, inOrder_rebuild_go fuel l h]

theorem balancedAll_count_rebuild_go :
    ∀ (fuel : Nat) (l : List (Int × Nat)), l.length ≤ fuel →
      balancedAll 2 3 (count_node (rebuild_go fuel l)) = true := by
  intro fuel
  induction fuel with
  | zero =>
    intro l h
    have : l = [] := List.eq_nil_of_length_eq_zero (Nat.le_zero.mp h)
    subst this
    rfl
  | succ n ih =>
    intro l h
    match l with
    | [] => rfl
    | x :: xs =>
      have hm : (x :: xs).length / 2 < (x :: xs).length :=
        Nat.div_lt_self (by simp) (by omega)
      have htk : ((x :: xs).take ((x :: xs).length / 2)).length ≤ n := by
        simp only [List.length_take, List.length_cons] at *
        omega
      have hdp : ((x :: xs).drop ((x :: xs).length / 2 + 1)).length ≤ n := by
        simp only [List.length_drop, List.length_cons] at *
        omega
      simp only [rebuild_go, count_node_node]
      refine balancedAll_node_iff.mpr ⟨?_, ih _ htk, ih _ hdp⟩
      refine is_balanced_node_iff.mpr ⟨?_, ?_⟩ <;>
        rw [ctr_count_node, ctr_count_node, csize_rebuild_go n _ htk, csize_rebuild_go n _ hdp] <;>
        simp only [List.length_take, List.length_drop, List.length_cons] at * <;>
        omega

theorem balancedAll_rebalance (t : Tree) : balancedAll 2 3 (rebalance t) = true := by
  rw [rebalance, rebuild_tree]
  exact balancedAll_count_rebuild_go (inOrder t).length (inOrder t) le_rfl

theorem remove_descend_no_rebalance (tb bb : Nat) :
    ∀ (t : Tree) (k : Int), ancestors_balanced tb bb t k = true →
      remove_descend true tb bb t k = ((remove_descend false tb bb t k).1, false) := by
  intro t
  induction t with
  | nil => intro k _; rfl
  | node l nk c r ihl ihr =>
    intro k h
    by_cases h1 : k < nk
    · simp only [ancestors_balanced, if_pos h1, Bool.and_eq_true] at h
      obtain ⟨ha, hb⟩ := h
      simp only [remove_descend, if_pos h1, ihl k ha]
      simp [hb]
    · by_cases h2 : nk < k
      · simp only [ancestors_balanced, if_neg h1, if_pos h2, Bool.and_eq_true] at h
        obtain ⟨ha, hb⟩ := h
        simp only [remove_descend, if_neg h1, if_pos h2, ihr k ha]
        simp [hb]
      · simp [remove_descend, if_neg h1, if_neg h2]

end Tree

/-- C2 counterexample: in self balancing mode with the default ratio, the ten
adds of cexAdds all complete (the size reaches 10), yet afterwards the weight
balance invariant fails at some node: the last add rebuilds only the lowest
unbalanced ancestor of the new leaf while the root, which the same insertion
also unbalanced, is left untouched. -/
theorem c2_weight_balance_counterexample :
    (buildAdds true 0 0 cexAdds).size = 10 ∧
    Tree.balancedAll 2 3 (buildAdds true 0 0 cexAdds).root = false := by
  constructor
  · decide
  · decide

/-- C2 as amended: a rebalance leaves the subtree it rebuilt weight balanced
at every node for the default ratio 2/3; the invariant is guaranteed inside
rebuilt subtrees, not at their ancestors. -/
theorem c2_amended_rebuilt_subtree_balanced (t : Tree) :
    Tree.balancedAll 2 3 (Tree.rebalance t) = true :=
  Tree.balancedAll_rebalance t

/-- C4: removing the key at the root of a self balancing tree holding {1, 2}
raises AttributeError inside find_unbalanced, because the parent captured for
the climb is None while the tree is still nonempty; the node is nevertheless
unlinked and the size decremented before the raise. -/
theorem c4_remove_root_raises :
    (remove (buildAdds true 0 0 [1, 2]) 1).2.2 = some PyErr.attributeError ∧
    (remove (buildAdds true 0 0 [1, 2]) 1).1.size = 1 ∧
    (remove (buildAdds true 0 0 [1, 1000]) 1000).2.2 = none := by
  refine ⟨by decide, by decide, by decide⟩

/-- C5: on the tree holding {1, 2}, after one successful advance the iterator
remove raises AttributeError (the recount line reads a name mangled private
attribute the tree does not have), with the node already unlinked: the size
has dropped to 1.  The claim that it completes without error fails on every
invocation. -/
theorem c5_iterator_remove_raises :
    ((nextEntry (iterator (buildAdds true 0 0 [1, 2]))).map
        (fun p => (iterRemove (buildAdds true 0 0 [1, 2]) p.2).2.2)) =
      some (some PyErr.attributeError) ∧
    ((nextEntry (iterator (buildAdds true 0 0 [1, 2]))).map
        (fun p => (iterRemove (buildAdds true 0 0 [1, 2]) p.2).1.size)) = some 1 := by
  refine ⟨by decide, by decide⟩

/-- C6 counterexample: on cexSet, removing the key 20 (a node with two
children whose successor 25 is its own right child) completes without error
under both the code and the behavior the claim describes, yet the resulting
trees differ: the code climbs from the parent of the node found by key and
rebalances nothing, while a climb from the former parent of the physically
unlinked successor would rebuild the subtree now rooted at 25. -/
theorem c6_climb_start_counterexample :
    (remove cexSet 20).1 ≠ (removeSpecClaimed cexSet 20).1 ∧
    (remove cexSet 20).2.2 = none ∧ (removeSpecClaimed cexSet 20).2.2 = none := by
  refine ⟨by decide, by decide, by decide⟩

/-- C6 as amended: the find_unbalanced search of remove starts at the
original parent of the node located by key, also in the two children case:
whenever every strict ancestor of the located node passes its balance check
after the unlink, the self balancing remove descent coincides with the plain
one and performs no rebalance, even if the located node or nodes below it
(such as the former parent of the successor) are unbalanced. -/
theorem c6_amended_climb_from_found_parent (tb bb : Nat) (t : Tree) (k : Int)
    (h : Tree.ancestors_balanced tb bb t k = true) :
    Tree.remove_descend true tb bb t k = ((Tree.remove_descend false tb bb t k).1, false) :=
  Tree.remove_descend_no_rebalance tb bb t k h

/-- Witness for the amended C6 on the counterexample state: the only strict
ancestor of the node 20, the root 30, stays balanced after the unlink, so the
self balancing descent equals the plain one there, although the subtree now
rooted at 25 is unbalanced. -/
theorem c6_amended_climb_from_found_parent_witness :
    Tree.ancestors_balanced 2 3 cexTree 20 = true ∧
    Tree.remove_descend true 2 3 cexTree 20 = ((Tree.remove_descend false 2 3 cexTree 20).1, false) :=
  ⟨by decide, c6_amended_climb_from_found_parent 2 3 cexTree 20 (by decide)⟩

end BBST

/-! ### Counter consistency through remove -/

namespace BBST

namespace Tree

theorem findEntry_nil (k : Int) : findEntry nil k = none := rfl

theorem findEntry_node_lt {l r : Tree} {nk k : Int} {c : Nat} (h : k < nk) :
    findEntry (node l nk c r) k = findEntry l k := by
  simp [findEntry, h]

theorem findEntry_node_gt {l r : Tree} {nk k : Int} {c : Nat} (h1 : ¬ k < nk) (h2 : nk < k) :
    findEntry (node l nk c r) k = findEntry r k := by
  simp [findEntry, h1, h2]

theorem removeLeftmost_spec :
    ∀ (l : Tree) (k : Int) (c : Nat) (r : Tree),
      counters_ok l = true → counters_ok r = true →
      counters_ok (removeLeftmost l k c r).2 = true ∧
      csize (removeLeftmost l k c r).2 = csize l + csize r ∧
      ctr (removeLeftmost l k c r).2 = csize l + csize r := by
  intro l
  induction l with
  | nil =>
    intro k c r _ hr
    refine ⟨hr, by simp [removeLeftmost], ?_⟩
    simp [removeLeftmost, ctr_eq_csize hr]
  | node ll lk lc lr ihl ihr =>
    intro k c r h hr
    rcases counters_ok_node_iff.mp h with ⟨hc, h1, h2⟩
    rcases ihl lk lc lr h1 h2 with ⟨a1, a2, a3⟩
    have e2 := ctr_eq_csize hr
    simp only [removeLeftmost]
    refine ⟨counters_ok_node_iff.mpr ⟨by rw [a3, e2], a1, hr⟩, ?_, ?_⟩
    · simp [a2]
      omega
    · simp [a3, e2]
      omega

theorem unlinkNode_spec :
    ∀ t : Tree, counters_ok t = true → t ≠ nil →
      counters_ok (unlinkNode t) = true ∧
      csize (unlinkNode t) = csize t - 1 ∧
      ctr (unlinkNode t) = csize t - 1 := by
  intro t h hne
  match t with
  | nil => exact absurd rfl hne
  | node nil nk c r =>
    rcases counters_ok_node_iff.mp h with ⟨hc, h1, h2⟩
    have hu : unlinkNode (node nil nk c r) = r := by simp [unlinkNode]
    rw [hu]
    refine ⟨h2, by simp, ?_⟩
    simp [ctr_eq_csize h2]
  | node (node a b d e) nk c nil =>
    rcases counters_ok_node_iff.mp h with ⟨hc, h1, h2⟩
    have hu : unlinkNode (node (node a b d e) nk c nil) = node a b d e := by simp [unlinkNode]
    rw [hu]
    refine ⟨h1, by simp, ?_⟩
    rw [ctr_eq_csize h1]
    simp
  | node (node a b d e) nk c (node rl rk rc rr) =>
    rcases counters_ok_node_iff.mp h with ⟨hc, h1, h2⟩
    rcases counters_ok_node_iff.mp h2 with ⟨hc2, h3, h4⟩
    rcases removeLeftmost_spec rl rk rc rr h3 h4 with ⟨a1, a2, a3⟩
    have e1 := ctr_eq_csize h1
    have hu : unlinkNode (node (node a b d e) nk c (node rl rk rc rr)) =
        node (node a b d e) (removeLeftmost rl rk rc rr).1
          (ctr (node a b d e) + ctr (removeLeftmost rl rk rc rr).2 + 1)
          (removeLeftmost rl rk rc rr).2 := by simp [unlinkNode]
    rw [hu]
    refine ⟨counters_ok_node_iff.mpr ⟨rfl, h1, a1⟩, ?_, ?_⟩
    · simp [a2]
      omega
    · simp [a3, e1]
      omega

theorem findEntry_some_ne_nil {t : Tree} {k : Int} (h : findEntry t k ≠ none) : t ≠ nil := by
  intro he
  subst he
  exact h rfl

theorem remove_descend_spec (sb : Bool) (tb bb : Nat) :
    ∀ (t : Tree) (k : Int), counters_ok t = true → findEntry t k ≠ none →
      counters_ok (remove_descend sb tb bb t k).1 = true ∧
      csize (remove_descend sb tb bb t k).1 = csize t - 1 ∧
      ctr (remove_descend sb tb bb t k).1 = csize t - 1 := by
  intro t
  induction t with
  | nil => intro k _ hf; exact absurd rfl hf
  | node l nk c r ihl ihr =>
    intro k h hf
    rcases counters_ok_node_iff.mp h with ⟨hc, hl, hr⟩
    have e1 := ctr_eq_csize hl
    have e2 := ctr_eq_csize hr
    by_cases h1 : k < nk
    · rw [findEntry_node_lt h1] at hf
      have hlne : l ≠ nil := findEntry_some_ne_nil hf
      have hlpos : 1 ≤ csize l := by
        cases l with
        | nil => exact absurd rfl hlne
        | node a b d e => simp
      rcases ihl k hl hf with ⟨a1, a2, a3⟩
      have hok : counters_ok (node (remove_descend sb tb bb l k).1 nk
          (ctr (remove_descend sb tb bb l k).1 + ctr r + 1) r) = true :=
        counters_ok_node_iff.mpr ⟨rfl, a1, hr⟩
      have hcs : csize (node (remove_descend sb tb bb l k).1 nk
          (ctr (remove_descend sb tb bb l k).1 + ctr r + 1) r) = csize (node l nk c r) - 1 := by
        simp [a2]
        omega
      have hct : ctr (node (remove_descend sb tb bb l k).1 nk
          (ctr (remove_descend sb tb bb l k).1 + ctr r + 1) r) = csize (node l nk c r) - 1 := by
        simp [a3]
        omega
      simp only [remove_descend, if_pos h1]
      by_cases hsb : sb
      · subst hsb
        simp only [Bool.not_true, Bool.false_eq_true, if_false]
        by_cases h2 : (remove_descend true tb bb l k).2
        · simp only [h2, if_true]
          exact ⟨hok, hcs, hct⟩
        · simp only [h2, Bool.false_eq_true, if_false]
          by_cases h3 : is_balanced tb bb (node (remove_descend true tb bb l k).1 nk
              (ctr (remove_descend true tb bb l k).1 + ctr r + 1) r)
          · simp only [h3, if_true]
            exact ⟨hok, hcs, hct⟩
          · simp only [h3, Bool.false_eq_true, if_false]
            refine ⟨counters_ok_rebalance _, ?_, ?_⟩
            · rw [csize_rebalance, hcs]
            · rw [ctr_rebalance, hcs]
      · have hsb2 : sb = false := by simpa using hsb
        subst hsb2
        simp only [Bool.not_false, if_true]
        exact ⟨hok, hcs, hct⟩
    · by_cases h2 : nk < k
      · rw [findEntry_node_gt h1 h2] at hf
        have hrne : r ≠ nil := findEntry_some_ne_nil hf
        have hrpos : 1 ≤ csize r := by
          cases r with
          | nil => exact absurd rfl hrne
          | node a b d e => simp
        rcases ihr k hr hf with ⟨a1, a2, a3⟩
        have hok : counters_ok (node l nk
            (ctr l + ctr (remove_descend sb tb bb r k).1 + 1) (remove_descend sb tb bb r k).1) = true :=
          counters_ok_node_iff.mpr ⟨rfl, hl, a1⟩
        have hcs : csize (node l nk
            (ctr l + ctr (remove_descend sb tb bb r k).1 + 1) (remove_descend sb tb bb r k).1) =
            csize (node l nk c r) - 1 := by
          simp [a2]
          omega
        have hct : ctr (node l nk
            (ctr l + ctr (remove_descend sb tb bb r k).1 + 1) (remove_descend sb tb bb r k).1) =
            csize (node l nk c r) - 1 := by
          simp [a3]
          omega
        simp only [remove_descend, if_neg h1, if_pos h2]
        by_cases hsb : sb
        · subst hsb
          simp only [Bool.not_true, Bool.false_eq_true, if_false]
          by_cases h3 : (remove_descend true tb bb r k).2
          · simp only [h3, if_true]
            exact ⟨hok, hcs, hct⟩
          · simp only [h3, Bool.false_eq_true, if_false]
            by_cases h4 : is_balanced tb bb (node l nk
                (ctr l + ctr (remove_descend true tb bb r k).1 + 1) (remove_descend true tb bb r k).1)
            · simp only [h4, if_true]
              exact ⟨hok, hcs, hct⟩
            · simp only [h4, Bool.false_eq_true, if_false]
              refine ⟨counters_ok_rebalance _, ?_, ?_⟩
              · rw [csize_rebalance, hcs]
              · rw [ctr_rebalance, hcs]
        · have hsb2 : sb = false := by simpa using hsb
          subst hsb2
          simp only [Bool.not_false, if_true]
          exact ⟨hok, hcs, hct⟩
      · simp only [remove_descend, if_neg h1, if_neg h2]
        exact unlinkNode_spec (node l nk c r) h (by simp)

end Tree

theorem counters_ok_remove :
    ∀ (s : BalancedBSTSet) (k : Int), s.root.counters_ok = true →
      ((remove s k).1).root.counters_ok = true ∧
      Tree.ctr ((remove s k).1).root = Tree.csize ((remove s k).1).root ∧
      ((remove s k).1.size = s.size - 1 ∧
          Tree.csize ((remove s k).1).root = Tree.csize s.root - 1 ∧ 1 ≤ Tree.csize s.root ∨
        (remove s k).1 = s) := by
  rintro ⟨sb, tb, bb, rt, sz⟩ k h
  rcases rt with _ | ⟨l, nk, c, r⟩
  · exact ⟨h, Tree.ctr_eq_csize h, Or.inr rfl⟩
  · cases hf : Tree.findEntry (Tree.node l nk c r) k with
    | none =>
      have e : remove ⟨sb, tb, bb, Tree.node l nk c r, sz⟩ k =
          (⟨sb, tb, bb, Tree.node l nk c r, sz⟩, false, none) := by
        unfold remove
        dsimp only
        rw [hf]
      rw [e]
      exact ⟨h, Tree.ctr_eq_csize h, Or.inr rfl⟩
    | some u =>
      by_cases hk : k = nk
      · have e : (remove ⟨sb, tb, bb, Tree.node l nk c r, sz⟩ k).1 =
            ⟨sb, tb, bb, Tree.unlinkNode (Tree.node l nk c r), sz - 1⟩ := by
          unfold remove
          dsimp only
          rw [hf]
          dsimp only
          rw [if_pos hk]
        rcases Tree.unlinkNode_spec (Tree.node l nk c r) h (by simp) with ⟨a1, a2, a3⟩
        rw [e]
        exact ⟨a1, by rw [a3, a2], Or.inl ⟨rfl, a2, by simp⟩⟩
      · have hfne : Tree.findEntry (Tree.node l nk c r) k ≠ none := by
          rw [hf]
          simp
        have e : (remove ⟨sb, tb, bb, Tree.node l nk c r, sz⟩ k).1 =
            ⟨sb, tb, bb, (Tree.remove_descend sb tb bb (Tree.node l nk c r) k).1, sz - 1⟩ := by
          unfold remove
          dsimp only
          rw [hf]
          dsimp only
          rw [if_neg hk]
        rcases Tree.remove_descend_spec sb tb bb (Tree.node l nk c r) k h hfne with ⟨a1, a2, a3⟩
        rw [e]
        exact ⟨a1, by rw [a3, a2], Or.inl ⟨rfl, a2, by simp⟩⟩

theorem invariant_add :
    ∀ (s : BalancedBSTSet) (k : Int), s.root.counters_ok = true →
      (Tree.ctr s.root : Int) = s.size →
      ((add s k).1).root.counters_ok = true ∧
      (Tree.ctr ((add s k).1).root : Int) = (add s k).1.size := by
  rintro ⟨sb, tb, bb, rt, sz⟩ k h1 h2
  rcases rt with _ | ⟨l, nk, c, r⟩
  · refine ⟨Tree.counters_ok_count_node _, ?_⟩
    have e : (add ⟨sb, tb, bb, Tree.nil, sz⟩ k).1 =
        ⟨sb, tb, bb, Tree.count_node (Tree.node Tree.nil k 0 Tree.nil), sz + 1⟩ := rfl
    rw [e]
    simp only [Tree.ctr_count_node]
    simp at h2 ⊢
    omega
  · dsimp only at h1 h2
    cases he : Tree.addEntry (Tree.node l nk c r) k with
    | none =>
      have e : (add ⟨sb, tb, bb, Tree.node l nk c r, sz⟩ k).1 =
          ⟨sb, tb, bb, Tree.node l nk c r, sz⟩ := by
        unfold add
        dsimp only
        rw [he]
      rw [e]
      exact ⟨h1, h2⟩
    | some t1 =>
      have hcsz : Tree.csize t1 = Tree.csize (Tree.node l nk c r) + 1 :=
        Tree.csize_addEntry (Tree.node l nk c r) k t1 he
      have hco : Tree.counters_ok (Tree.count_node t1) = true := Tree.counters_ok_count_node t1
      have hsz0 : Tree.ctr (Tree.node l nk c r) = Tree.csize (Tree.node l nk c r) :=
        Tree.ctr_eq_csize h1
      cases sb with
      | false =>
        have e : (add ⟨false, tb, bb, Tree.node l nk c r, sz⟩ k).1 =
            ⟨false, tb, bb, Tree.count_node t1, sz + 1⟩ := by
          unfold add
          dsimp only
          rw [he]
          simp
        rw [e]
        refine ⟨hco, ?_⟩
        have hc2 := hsz0
        simp only [Tree.ctr_node] at h2
        simp only [Tree.ctr_node, Tree.csize_node] at hc2
        simp only [Tree.ctr_count_node, hcsz, Tree.csize_node]
        push_cast
        omega
      | true =>
        have e : (add ⟨true, tb, bb, Tree.node l nk c r, sz⟩ k).1 =
            ⟨true, tb, bb, (Tree.climb_rebalance tb bb (Tree.count_node t1) k).1, sz + 1⟩ := by
          unfold add
          dsimp only
          rw [he]
          simp
        rw [e]
        rcases Tree.climb_preserve tb bb k (Tree.count_node t1) hco with ⟨b1, b2, b3, b4⟩
        refine ⟨b1, ?_⟩
        have hc2 := hsz0
        simp only [Tree.ctr_node] at h2
        simp only [Tree.ctr_node, Tree.csize_node] at hc2
        simp only [b2, Tree.ctr_count_node, hcsz, Tree.csize_node]
        push_cast
        omega

theorem invariant_runOps :
    ∀ (ops : List Op) (s : BalancedBSTSet), s.root.counters_ok = true →
      (Tree.ctr s.root : Int) = s.size →
      (ops.foldl applyOp s).root.counters_ok = true ∧
      (Tree.ctr (ops.foldl applyOp s).root : Int) = (ops.foldl applyOp s).size := by
  intro ops
  induction ops with
  | nil => intro s h1 h2; exact ⟨h1, h2⟩
  | cons op rest ih =>
    intro s h1 h2
    have hstep : (applyOp s op).root.counters_ok = true ∧
        (Tree.ctr (applyOp s op).root : Int) = (applyOp s op).size := by
      cases op with
      | addK k => exact invariant_add s k h1 h2
      | removeK k =>
        rcases counters_ok_remove s k h1 with ⟨a1, a2, a3⟩
        refine ⟨a1, ?_⟩
        rcases a3 with ⟨e1, e2, e3⟩ | e4
        · have hs : Tree.ctr s.root = Tree.csize s.root := Tree.ctr_eq_csize h1
          simp only [applyOp]
          rw [a2, e1, e2]
          rw [hs] at h2
          omega
        · simp only [applyOp]
          rw [e4]
          exact h2
    exact ih (applyOp s op) hstep.1 hstep.2

/-- C3: after every sequence of public add and remove operations from a
freshly constructed tree, in either balancing mode and for any constructor
ratio, every node satisfies counter(n) = 1 + counter(left) + counter(right)
with absent children counting 0, and the size field equals the root counter,
0 when the tree is empty.  States left behind by a raising remove are
included: the recount runs before the raise. -/
theorem c3_counter_consistency (sb : Bool) (tb bb : Nat) (ops : List Op) :
    Tree.counters_ok (runOps sb tb bb ops).root = true ∧
    (Tree.ctr (runOps sb tb bb ops).root : Int) = (runOps sb tb bb ops).size := by
  unfold runOps
  refine invariant_runOps ops (init sb tb bb) ?_ ?_
  · rw [init_root]
    rfl
  · rw [init_root]
    unfold init
    split <;> rfl

end BBST

/-! ### The iterator yields exactly the in order key sequence -/

namespace BBST

theorem getSmallestValue_nil (fs : List Frame) : getSmallestValue Tree.nil fs = none := rfl

theorem getSmallestValue_some :
    ∀ (t : Tree), t ≠ Tree.nil → ∀ (fs : List Frame), ∃ loc : Loc,
      getSmallestValue t fs = some loc ∧
      locRemaining loc = Tree.inorderKeys t ++ framesKeys fs := by
  intro t
  induction t with
  | nil => intro h; exact absurd rfl h
  | node l k c r ihl ihr =>
    intro _ fs
    cases l with
    | nil =>
      refine ⟨⟨Tree.nil, k, c, r, fs⟩, rfl, ?_⟩
      simp [locRemaining]
    | node a b d e =>
      rcases ihl (by simp) (Frame.fromLeft k c r :: fs) with ⟨loc, h1, h2⟩
      refine ⟨loc, h1, ?_⟩
      rw [h2]
      simp [framesKeys, Tree.inorderKeys_node]

theorem climbLeft_none : ∀ (fs : List Frame) (t : Tree), climbLeft fs t = none → framesKeys fs = [] := by
  intro fs
  induction fs with
  | nil => intro t _; rfl
  | cons f fs2 ih =>
    intro t h
    cases f with
    | fromLeft k c r => simp [climbLeft] at h
    | fromRight l k c => exact ih _ h

theorem climbLeft_some :
    ∀ (fs : List Frame) (t : Tree) (loc : Loc), climbLeft fs t = some loc →
      locRemaining loc = framesKeys fs := by
  intro fs
  induction fs with
  | nil => intro t loc h; simp [climbLeft] at h
  | cons f fs2 ih =>
    intro t loc h
    cases f with
    | fromLeft k c r =>
      simp only [climbLeft, Option.some.injEq] at h
      subst h
      rfl
    | fromRight l k c => exact ih _ loc h

theorem successor_none {loc : Loc} (h : successor loc = none) :
    Tree.inorderKeys loc.right = [] ∧ framesKeys loc.path = [] := by
  rcases loc with ⟨l, k, c, r, fs⟩
  cases r with
  | nil =>
    simp only [successor] at h
    exact ⟨rfl, climbLeft_none fs _ h⟩
  | node rl rk rc rr =>
    simp only [successor] at h
    rcases getSmallestValue_some (Tree.node rl rk rc rr) (by simp)
        (Frame.fromRight l k c :: fs) with ⟨loc2, h1, _⟩
    rw [h1] at h
    exact absurd h (by simp)

theorem successor_some {loc loc2 : Loc} (h : successor loc = some loc2) :
    locRemaining loc2 = Tree.inorderKeys loc.right ++ framesKeys loc.path := by
  rcases loc with ⟨l, k, c, r, fs⟩
  cases r with
  | nil =>
    simp only [successor] at h
    simpa using climbLeft_some fs _ loc2 h
  | node rl rk rc rr =>
    simp only [successor] at h
    rcases getSmallestValue_some (Tree.node rl rk rc rr) (by simp)
        (Frame.fromRight l k c :: fs) with ⟨loc3, h1, h2⟩
    rw [h1] at h
    cases h
    rw [h2]
    rfl

theorem iterToList_none (fuel : Nat) : iterToList fuel none = [] := by
  cases fuel <;> rfl

theorem iterToList_spec :
    ∀ (fuel : Nat) (loc : Loc), (locRemaining loc).length ≤ fuel →
      iterToList fuel (some loc) = locRemaining loc := by
  intro fuel
  induction fuel with
  | zero => intro loc h; simp [locRemaining] at h
  | succ n ih =>
    intro loc h
    cases hs : successor loc with
    | none =>
      rcases successor_none hs with ⟨e1, e2⟩
      simp only [iterToList, hs, iterToList_none]
      simp [locRemaining, e1, e2]
    | some loc2 =>
      have h2 : locRemaining loc = loc.key :: locRemaining loc2 := by
        rw [successor_some hs]
        simp [locRemaining]
      simp only [iterToList, hs]
      rw [ih loc2 (by rw [h2] at h; simpa using h), h2]

theorem iterKeys_eq_inorderKeys (t : Tree) : iterKeys t = Tree.inorderKeys t := by
  cases ht : t with
  | nil => rfl
  | node l k c r =>
    rcases getSmallestValue_some (Tree.node l k c r) (by simp) [] with ⟨loc, h1, h2⟩
    rw [iterKeys, h1, iterToList_spec]
    · rw [h2]
      simp [framesKeys]
    · rw [h2]
      simp [framesKeys, Tree.length_inorderKeys]
      omega

/-- C10: peek yields the head of the keys still to be produced, in
particular None (and no error) when the iteration is exhausted, and hasNext
is true exactly when a key remains to be yielded. -/
theorem c10_peek_hasNext (it : BSTIterator) :
    peek it = (iterRemainingKeys it).head? ∧
    (hasNext it = true ↔ iterRemainingKeys it ≠ []) := by
  rcases it with ⟨cur, pend⟩
  cases cur with
  | none => exact ⟨rfl, by simp [hasNext, iterRemainingKeys]⟩
  | some loc =>
    constructor
    · simp [peek, iterRemainingKeys, locRemaining]
    · simp [hasNext, iterRemainingKeys, locRemaining]

end BBST

/-! ### Sortedness of the in order sequence through add -/

namespace BBST

theorem sorted_append_iff {l1 l2 : List Int} :
    List.Sorted (· < ·) (l1 ++ l2) ↔
      List.Sorted (· < ·) l1 ∧ List.Sorted (· < ·) l2 ∧ ∀ x ∈ l1, ∀ y ∈ l2, x < y :=
  List.pairwise_append

namespace Tree

theorem addEntry_mem :
    ∀ (t u : Tree) (k : Int), addEntry t k = some u →
      ∀ x : Int, x ∈ inorderKeys u ↔ x = k ∨ x ∈ inorderKeys t := by
  intro t
  induction t with
  | nil =>
    intro u k h x
    simp only [addEntry, Option.some.injEq] at h
    subst h
    simp
  | node l nk c r ihl ihr =>
    intro u k h x
    by_cases h1 : k < nk
    · simp only [addEntry, if_pos h1, Option.map_eq_some'] at h
      rcases h with ⟨l2, hl2, hu⟩
      subst hu
      simp only [inorderKeys_node, List.mem_append, List.mem_cons, ihl l2 k hl2 x]
      tauto
    · by_cases h2 : nk < k
      · simp only [addEntry, if_neg h1, if_pos h2, Option.map_eq_some'] at h
        rcases h with ⟨r2, hr2, hu⟩
        subst hu
        simp only [inorderKeys_node, List.mem_append, List.mem_cons, ihr r2 k hr2 x]
        tauto
      · simp [addEntry, if_neg h1, if_neg h2] at h

theorem addEntry_none_mem :
    ∀ (t : Tree) (k : Int), addEntry t k = none → k ∈ inorderKeys t := by
  intro t
  induction t with
  | nil => intro k h; simp [addEntry] at h
  | node l nk c r ihl ihr =>
    intro k h
    by_cases h1 : k < nk
    · simp only [addEntry, if_pos h1, Option.map_eq_none'] at h
      simp [ihl k h]
    · by_cases h2 : nk < k
      · simp only [addEntry, if_neg h1, if_pos h2, Option.map_eq_none'] at h
        simp [ihr k h]
      · have hk : k = nk := by omega
        simp [hk]

theorem addEntry_sorted :
    ∀ (t u : Tree) (k : Int), List.Sorted (· < ·) (inorderKeys t) →
      addEntry t k = some u → List.Sorted (· < ·) (inorderKeys u) := by
  intro t
  induction t with
  | nil =>
    intro u k _ h
    simp only [addEntry, Option.some.injEq] at h
    subst h
    simp
  | node l nk c r ihl ihr =>
    intro u k hs h
    rw [inorderKeys_node, sorted_append_iff] at hs
    rcases hs with ⟨hsl, hsr, hcross⟩
    rw [List.sorted_cons] at hsr
    rcases hsr with ⟨hnk, hsr2⟩
    by_cases h1 : k < nk
    · simp only [addEntry, if_pos h1, Option.map_eq_some'] at h
      rcases h with ⟨l2, hl2, hu⟩
      subst hu
      rw [inorderKeys_node, sorted_append_iff, List.sorted_cons]
      refine ⟨ihl l2 k hsl hl2, ⟨hnk, hsr2⟩, ?_⟩
      intro x hx y hy
      rcases (addEntry_mem l l2 k hl2 x).mp hx with rfl | hx2
      · rcases List.mem_cons.mp hy with rfl | hy2
        · exact h1
        · exact lt_trans h1 (hnk y hy2)
      · rcases List.mem_cons.mp hy with rfl | hy2
        · exact hcross x hx2 y (by simp)
        · exact hcross x hx2 y (by simp [hy2])
    · by_cases h2 : nk < k
      · simp only [addEntry, if_neg h1, if_pos h2, Option.map_eq_some'] at h
        rcases h with ⟨r2, hr2, hu⟩
        subst hu
        rw [inorderKeys_node, sorted_append_iff, List.sorted_cons]
        refine ⟨hsl, ⟨?_, ihr r2 k hsr2 hr2⟩, ?_⟩
        · intro y hy
          rcases (addEntry_mem r r2 k hr2 y).mp hy with rfl | hy2
          · exact h2
          · exact hnk y hy2
        · intro x hx y hy
          rcases List.mem_cons.mp hy with rfl | hy2
          · exact hcross x hx y (by simp)
          · rcases (addEntry_mem r r2 k hr2 y).mp hy2 with rfl | hy3
            · exact lt_trans (hcross x hx nk (by simp)) h2
            · exact hcross x hx y (by simp [hy3])
      · simp [addEntry, if_neg h1, if_neg h2] at h

end Tree

theorem add_keys :
    ∀ (s : BalancedBSTSet) (k : Int), s.root.counters_ok = true →
      List.Sorted (· < ·) (Tree.inorderKeys s.root) →
      List.Sorted (· < ·) (Tree.inorderKeys ((add s k).1).root) ∧
      ∀ x, x ∈ Tree.inorderKeys ((add s k).1).root ↔ x = k ∨ x ∈ Tree.inorderKeys s.root := by
  rintro ⟨sb, tb, bb, rt, sz⟩ k hco hs
  rcases rt with _ | ⟨l, nk, c, r⟩
  · have e : (add ⟨sb, tb, bb, Tree.nil, sz⟩ k).1 =
        ⟨sb, tb, bb, Tree.count_node (Tree.node Tree.nil k 0 Tree.nil), sz + 1⟩ := rfl
    rw [e]
    constructor
    · simp [Tree.inorderKeys_count_node]
    · intro x
      simp [Tree.inorderKeys_count_node]
  · dsimp only at hco hs
    cases he : Tree.addEntry (Tree.node l nk c r) k with
    | none =>
      have e : (add ⟨sb, tb, bb, Tree.node l nk c r, sz⟩ k).1 =
          ⟨sb, tb, bb, Tree.node l nk c r, sz⟩ := by
        unfold add
        dsimp only
        rw [he]
      rw [e]
      refine ⟨hs, ?_⟩
      intro x
      have hk := Tree.addEntry_none_mem (Tree.node l nk c r) k he
      constructor
      · exact Or.inr
      · rintro (rfl | hx)
        · exact hk
        · exact hx
    | some t1 =>
      have hkeys1 : Tree.inorderKeys (Tree.count_node t1) = Tree.inorderKeys t1 :=
        Tree.inorderKeys_count_node t1
      have hsort1 : List.Sorted (· < ·) (Tree.inorderKeys t1) :=
        Tree.addEntry_sorted (Tree.node l nk c r) t1 k hs he
      have hmem1 := Tree.addEntry_mem (Tree.node l nk c r) t1 k he
      cases sb with
      | false =>
        have e : (add ⟨false, tb, bb, Tree.node l nk c r, sz⟩ k).1 =
            ⟨false, tb, bb, Tree.count_node t1, sz + 1⟩ := by
          unfold add
          dsimp only
          rw [he]
          simp
        rw [e]
        refine ⟨by rw [hkeys1]; exact hsort1, ?_⟩
        intro x
        rw [hkeys1]
        exact hmem1 x
      | true =>
        have e : (add ⟨true, tb, bb, Tree.node l nk c r, sz⟩ k).1 =
            ⟨true, tb, bb, (Tree.climb_rebalance tb bb (Tree.count_node t1) k).1, sz + 1⟩ := by
          unfold add
          dsimp only
          rw [he]
          simp
        rw [e]
        have hcl := Tree.climb_preserve tb bb k (Tree.count_node t1) (Tree.counters_ok_count_node t1)
        rw [hcl.2.2.2, hkeys1]
        exact ⟨hsort1, hmem1⟩

theorem buildAdds_sorted_mem :
    ∀ (ks : List Int) (s : BalancedBSTSet), s.root.counters_ok = true →
      List.Sorted (· < ·) (Tree.inorderKeys s.root) →
      List.Sorted (· < ·) (Tree.inorderKeys (ks.foldl (fun a x => (add a x).1) s).root) ∧
      ∀ x, x ∈ Tree.inorderKeys (ks.foldl (fun a x => (add a x).1) s).root ↔
        x ∈ ks ∨ x ∈ Tree.inorderKeys s.root := by
  intro ks
  induction ks with
  | nil =>
    intro s _ hs
    exact ⟨hs, by simp⟩
  | cons k ks2 ih =>
    intro s hco hs
    rcases add_keys s k hco hs with ⟨a1, a2⟩
    rcases ih ((add s k).1) (counters_ok_add s k hco) a1 with ⟨b1, b2⟩
    simp only [List.foldl_cons]
    refine ⟨b1, ?_⟩
    intro x
    rw [b2 x, a2 x, List.mem_cons]
    tauto

/-- C1: for every sequence of adds of pairwise distinct keys into a fresh
tree, in either balancing mode and with any constructor ratio, the full
iteration produces a strictly ascending key sequence whose members are
exactly the inserted keys. -/
theorem c1_iteration_yields_sorted_keys (sb : Bool) (tb bb : Nat) (ks : List Int)
    (h : ks.Nodup) :
    List.Sorted (· < ·) (iterKeys (buildAdds sb tb bb ks).root) ∧
    ∀ x, x ∈ iterKeys (buildAdds sb tb bb ks).root ↔ x ∈ ks := by
  have h0 : (init sb tb bb).root.counters_ok = true := by
    rw [init_root]
    rfl
  have h1 : List.Sorted (· < ·) (Tree.inorderKeys (init sb tb bb).root) := by
    rw [init_root]
    simp
  rcases buildAdds_sorted_mem ks (init sb tb bb) h0 h1 with ⟨a1, a2⟩
  rw [iterKeys_eq_inorderKeys]
  refine ⟨a1, ?_⟩
  intro x
  rw [buildAdds, a2 x, init_root]
  simp

/-- Witness for C1 at a concrete input: the keys 3, 1, 2 are pairwise
distinct, and iterating the resulting self balancing tree yields them in
ascending order. -/
theorem c1_iteration_yields_sorted_keys_witness :
    List.Sorted (· < ·) (iterKeys (buildAdds true 0 0 [3, 1, 2]).root) ∧
    ∀ x, x ∈ iterKeys (buildAdds true 0 0 [3, 1, 2]).root ↔ x ∈ ([3, 1, 2] : List Int) :=
  c1_iteration_yields_sorted_keys true 0 0 [3, 1, 2] (by decide)

theorem sorted_eq_of_mem_iff :
    ∀ (l1 l2 : List Int), List.Sorted (· < ·) l1 → List.Sorted (· < ·) l2 →
      (∀ x, x ∈ l1 ↔ x ∈ l2) → l1 = l2 := by
  intro l1
  induction l1 with
  | nil =>
    intro l2 _ _ hm
    cases l2 with
    | nil => rfl
    | cons y ys => simpa using (hm y).mpr (by simp)
  | cons x xs ih =>
    intro l2 hs1 hs2 hm
    cases l2 with
    | nil => simpa using (hm x).mp (by simp)
    | cons y ys =>
      rw [List.sorted_cons] at hs1 hs2
      rcases hs1 with ⟨hx, hs1⟩
      rcases hs2 with ⟨hy, hs2⟩
      have hxy : x = y := by
        rcases List.mem_cons.mp ((hm x).mp (by simp)) with h1 | h1
        · exact h1
        · rcases List.mem_cons.mp ((hm y).mpr (by simp)) with h2 | h2
          · omega
          · have := hy x h1
            have := hx y h2
            omega
      subst hxy
      have htail : ∀ z, z ∈ xs ↔ z ∈ ys := by
        intro z
        constructor
        · intro hz
          rcases List.mem_cons.mp ((hm z).mp (by simp [hz])) with h1 | h1
          · have := hx z hz
            omega
          · exact h1
        · intro hz
          rcases List.mem_cons.mp ((hm z).mpr (by simp [hz])) with h1 | h1
          · have := hy z hz
            omega
          · exact h1
      rw [ih ys hs1 hs2 htail]

end BBST

/-! ### Rebalance rebuilds a minimum height tree over the same nodes -/

namespace BBST

namespace Tree

theorem log2_step {L : Nat} (h : 2 ≤ L) : Nat.log2 L = Nat.log2 (L / 2) + 1 := by
  rw [Nat.log2]
  simp [h]

theorem log2_mono {m n : Nat} (h : m ≤ n) : Nat.log2 m ≤ Nat.log2 n := by
  rw [Nat.log2_eq_log_two, Nat.log2_eq_log_two]
  exact Nat.log_mono_right h

theorem rebuild_go_nil_fuel : ∀ fuel : Nat, rebuild_go fuel [] = nil := by
  intro f
  cases f <;> rfl

theorem getHeight_count_node (t : Tree) : getHeight (count_node t) = getHeight t := by
  induction t with
  | nil => rfl
  | node l k c r ihl ihr => simp [count_node, getHeight, ihl, ihr]

theorem getHeight_ge (t : Tree) : -1 ≤ getHeight t := by
  induction t with
  | nil => simp [getHeight]
  | node l k c r ihl ihr =>
    simp only [getHeight]
    have := le_max_left (getHeight l) (getHeight r)
    omega

theorem getHeight_rebuild_go :
    ∀ (fuel : Nat) (l : List (Int × Nat)), l.length ≤ fuel → l ≠ [] →
      getHeight (rebuild_go fuel l) = (Nat.log2 l.length : Int) := by
  intro fuel
  induction fuel with
  | zero =>
    intro l h hne
    exact absurd (List.eq_nil_of_length_eq_zero (Nat.le_zero.mp h)) hne
  | succ n ih =>
    intro l h hne
    match l with
    | [] => exact absurd rfl hne
    | x :: xs =>
      have hlen : (x :: xs).length = xs.length + 1 := rfl
      rw [hlen] at h
      by_cases h2 : xs.length = 0
      · have hxs : xs = [] := List.eq_nil_of_length_eq_zero h2
        subst hxs
        have e : rebuild_go (n + 1) [x] = node nil x.1 x.2 nil := by
          simp [rebuild_go, rebuild_go_nil_fuel]
        rw [e]
        simp [getHeight]
        norm_num [Nat.log2]
      · simp only [rebuild_go]
        set m := (x :: xs).length / 2 with hm
        have hm2 : m = (xs.length + 1) / 2 := by rw [hm, hlen]
        have hTlen : ((x :: xs).take m).length = m := by
          rw [List.length_take, hlen]
          omega
        have hDlen : ((x :: xs).drop (m + 1)).length = xs.length - m := by
          rw [List.length_drop, hlen]
          omega
        have hTne : (x :: xs).take m ≠ [] := by
          intro hh
          rw [hh] at hTlen
          simp at hTlen
          omega
        have hHL : getHeight (rebuild_go n ((x :: xs).take m)) = (Nat.log2 m : Int) := by
          rw [ih _ ?_ hTne, hTlen]
          rw [hTlen, hm2]
          omega
        rw [hlen]
        simp only [getHeight]
        rcases Nat.eq_zero_or_pos (xs.length - m) with hz | hpos
        · have hDnil : (x :: xs).drop (m + 1) = [] :=
            List.eq_nil_of_length_eq_zero (by rw [hDlen]; exact hz)
          rw [hDnil, rebuild_go_nil_fuel, hHL]
          have hmax : max ((Nat.log2 m : Int)) (getHeight nil) = (Nat.log2 m : Int) := by
            apply max_eq_left
            show (-1 : Int) ≤ _
            omega
          rw [hmax, log2_step (by omega : 2 ≤ xs.length + 1), ← hm2]
          push_cast
          omega
        · have hDne : (x :: xs).drop (m + 1) ≠ [] := by
            intro hh
            rw [hh] at hDlen
            simp at hDlen
            omega
          have hHR : getHeight (rebuild_go n ((x :: xs).drop (m + 1))) =
              (Nat.log2 (xs.length - m) : Int) := by
            rw [ih _ ?_ hDne, hDlen]
            rw [hDlen]
            omega
          rw [hHL, hHR]
          have hle : xs.length - m ≤ m := by omega
          have hmax : max ((Nat.log2 m : Int)) ((Nat.log2 (xs.length - m) : Int)) =
              (Nat.log2 m : Int) := by
            apply max_eq_left
            have := log2_mono hle
            omega
          rw [hmax, log2_step (by omega : 2 ≤ xs.length + 1), ← hm2]
          push_cast
          omega

theorem inOrder_ne_nil {t : Tree} (h : t ≠ nil) : inOrder t ≠ [] := by
  cases t with
  | nil => exact absurd rfl h
  | node l k c r => simp

theorem getHeight_rebalance {t : Tree} (h : t ≠ nil) :
    getHeight (rebalance t) = (Nat.log2 (csize t) : Int) := by
  rw [rebalance, getHeight_count_node, rebuild_tree,
    getHeight_rebuild_go (inOrder t).length (inOrder t) le_rfl (inOrder_ne_nil h),
    length_inOrder]

theorem csize_le_pow_getHeight : ∀ t : Tree, csize t ≤ 2 ^ (getHeight t + 1).toNat - 1 := by
  intro t
  induction t with
  | nil => simp [getHeight, csize]
  | node l k c r ihl ihr =>
    have hgl := getHeight_ge l
    have hgr := getHeight_ge r
    have hml : getHeight l ≤ max (getHeight l) (getHeight r) := le_max_left _ _
    have hmr : getHeight r ≤ max (getHeight l) (getHeight r) := le_max_right _ _
    have hpl : 2 ^ (getHeight l + 1).toNat ≤ 2 ^ (max (getHeight l) (getHeight r) + 1).toNat :=
      Nat.pow_le_pow_right (by omega) (by omega)
    have hpr : 2 ^ (getHeight r + 1).toNat ≤ 2 ^ (max (getHeight l) (getHeight r) + 1).toNat :=
      Nat.pow_le_pow_right (by omega) (by omega)
    have hb1 : 1 ≤ 2 ^ (getHeight l + 1).toNat := Nat.one_le_two_pow
    have hb2 : 1 ≤ 2 ^ (getHeight r + 1).toNat := Nat.one_le_two_pow
    have hb3 : 1 ≤ 2 ^ (max (getHeight l) (getHeight r) + 1).toNat := Nat.one_le_two_pow
    simp only [csize, getHeight]
    have hexp : (1 + max (getHeight l) (getHeight r) + 1).toNat =
        (max (getHeight l) (getHeight r) + 1).toNat + 1 := by omega
    rw [hexp, pow_succ]
    omega

theorem csize_pos_ne_nil {u : Tree} (h : 1 ≤ csize u) : u ≠ nil := by
  intro hh
  subst hh
  simp at h

theorem getHeight_nonneg {u : Tree} (h : u ≠ nil) : 0 ≤ getHeight u := by
  cases u with
  | nil => exact absurd rfl h
  | node l k c r =>
    have hgl := getHeight_ge l
    have hml := le_max_left (getHeight l) (getHeight r)
    simp only [getHeight]
    omega

theorem log2_le_getHeight {u : Tree} (h : u ≠ nil) :
    (Nat.log2 (csize u) : Int) ≤ getHeight u := by
  have h1 := csize_le_pow_getHeight u
  have hpos : 1 ≤ csize u := by
    cases u with
    | nil => exact absurd rfl h
    | node l k c r => simp
  have h2 : csize u < 2 ^ (getHeight u + 1).toNat := by omega
  have h3 : Nat.log2 (csize u) < (getHeight u + 1).toNat := (Nat.log2_lt (by omega)).mpr h2
  have h4 := getHeight_nonneg h
  omega

end Tree

/-- C7: on a nonempty subtree, rebalance flattens and rebuilds by ceil
midpoint selection a tree over exactly the same nodes, with unchanged in
order key sequence and unchanged node count (no node created or destroyed),
all counters recomputed, and the height of the rebuilt subtree is the
binary logarithm of its node count, the minimum possible for any tree with
that many nodes. -/
theorem c7_rebalance_minimum_height_rebuild (t : Tree) (h : t ≠ Tree.nil) :
    Tree.inorderKeys (Tree.rebalance t) = Tree.inorderKeys t ∧
    Tree.csize (Tree.rebalance t) = Tree.csize t ∧
    Tree.counters_ok (Tree.rebalance t) = true ∧
    Tree.getHeight (Tree.rebalance t) = (Nat.log2 (Tree.csize t) : Int) ∧
    ∀ u : Tree, Tree.csize u = Tree.csize t →
      Tree.getHeight (Tree.rebalance t) ≤ Tree.getHeight u := by
  have hpos : 1 ≤ Tree.csize t := by
    cases t with
    | nil => exact absurd rfl h
    | node l k c r => simp
  refine ⟨Tree.inorderKeys_rebalance t, Tree.csize_rebalance t, Tree.counters_ok_rebalance t,
    Tree.getHeight_rebalance h, ?_⟩
  intro u hu
  rw [Tree.getHeight_rebalance h, ← hu]
  exact Tree.log2_le_getHeight (Tree.csize_pos_ne_nil (by omega))

/-- Witness for C7 on the three node subtree holding 1, 2, 3 with stale
counters: the rebuild keeps the keys and node count, recounts, and reaches
height 1. -/
theorem c7_rebalance_minimum_height_rebuild_witness :
    (Tree.node (Tree.node Tree.nil 1 7 Tree.nil) 2 9 (Tree.node Tree.nil 3 5 Tree.nil) ≠
      Tree.nil) ∧
    (Tree.inorderKeys (Tree.rebalance
        (Tree.node (Tree.node Tree.nil 1 7 Tree.nil) 2 9 (Tree.node Tree.nil 3 5 Tree.nil))) =
      Tree.inorderKeys
        (Tree.node (Tree.node Tree.nil 1 7 Tree.nil) 2 9 (Tree.node Tree.nil 3 5 Tree.nil)) ∧
      Tree.csize (Tree.rebalance
          (Tree.node (Tree.node Tree.nil 1 7 Tree.nil) 2 9 (Tree.node Tree.nil 3 5 Tree.nil))) =
        Tree.csize
          (Tree.node (Tree.node Tree.nil 1 7 Tree.nil) 2 9 (Tree.node Tree.nil 3 5 Tree.nil)) ∧
      Tree.counters_ok (Tree.rebalance
          (Tree.node (Tree.node Tree.nil 1 7 Tree.nil) 2 9 (Tree.node Tree.nil 3 5 Tree.nil))) =
        true ∧
      Tree.getHeight (Tree.rebalance
          (Tree.node (Tree.node Tree.nil 1 7 Tree.nil) 2 9 (Tree.node Tree.nil 3 5 Tree.nil))) =
        (Nat.log2 (Tree.csize
          (Tree.node (Tree.node Tree.nil 1 7 Tree.nil) 2 9 (Tree.node Tree.nil 3 5 Tree.nil))) :
          Int) ∧
      ∀ u : Tree,
        Tree.csize u = Tree.csize
          (Tree.node (Tree.node Tree.nil 1 7 Tree.nil) 2 9 (Tree.node Tree.nil 3 5 Tree.nil)) →
        Tree.getHeight (Tree.rebalance
            (Tree.node (Tree.node Tree.nil 1 7 Tree.nil) 2 9 (Tree.node Tree.nil 3 5 Tree.nil))) ≤
          Tree.getHeight u) :=
  ⟨by decide,
    c7_rebalance_minimum_height_rebuild
      (Tree.node (Tree.node Tree.nil 1 7 Tree.nil) 2 9 (Tree.node Tree.nil 3 5 Tree.nil))
      (by decide)⟩

end BBST

/-! ### Set algebra -/

namespace BBST

theorem set_diff_scan_nil (x : Int) : set_diff_scan x [] = false := rfl

theorem set_diff_go_nil : ∀ l : List Int, set_diff_go l [] = l := by
  intro l
  induction l with
  | nil => rfl
  | cons x xs ih => simp [set_diff_go, set_diff_scan_nil, ih]

theorem iterKeys_init : iterKeys (init false 0 0).root = [] := by
  rw [init_root]
  rfl

theorem appendAll_sorted (L : List Int) (h : List.Sorted (· < ·) L) :
    Tree.inorderKeys (appendAll (init false 0 0) L).root = L := by
  unfold appendAll
  rcases buildAdds_sorted_mem L (init false 0 0) (by rw [init_root]; rfl)
      (by rw [init_root]; simp) with ⟨a1, a2⟩
  refine sorted_eq_of_mem_iff _ _ a1 h ?_
  intro x
  rw [a2 x, init_root]
  simp

/-- C8: on the collections built from 1..8 and from 6..12, intersection,
union and both differences yield the specified key sets, and for every
collection with a sorted in order sequence (every collection the public
operations can build), the difference with a freshly constructed empty set
iterates to exactly the same keys. -/
theorem c8_set_algebra :
    (iterKeys (set_intersection (buildAdds false 0 0 [1, 2, 3, 4, 5, 6, 7, 8])
        (buildAdds false 0 0 [6, 7, 8, 9, 10, 11, 12])).root = [6, 7, 8] ∧
      iterKeys (set_union (buildAdds false 0 0 [1, 2, 3, 4, 5, 6, 7, 8])
        (buildAdds false 0 0 [6, 7, 8, 9, 10, 11, 12])).root =
          [1, 2, 3, 4, 5, 6, 7, 8, 9, 10, 11, 12] ∧
      iterKeys (set_diff (buildAdds false 0 0 [1, 2, 3, 4, 5, 6, 7, 8])
        (buildAdds false 0 0 [6, 7, 8, 9, 10, 11, 12])).root = [1, 2, 3, 4, 5] ∧
      iterKeys (set_diff (buildAdds false 0 0 [6, 7, 8, 9, 10, 11, 12])
        (buildAdds false 0 0 [1, 2, 3, 4, 5, 6, 7, 8])).root = [9, 10, 11, 12]) ∧
    ∀ s : BalancedBSTSet, List.Sorted (· < ·) (Tree.inorderKeys s.root) →
      iterKeys (set_diff s (init false 0 0)).root = iterKeys s.root := by
  constructor
  · refine ⟨by decide, by decide, by decide, by decide⟩
  · intro s hs
    unfold set_diff
    rw [iterKeys_init, set_diff_go_nil, iterKeys_eq_inorderKeys s.root,
      iterKeys_eq_inorderKeys, appendAll_sorted _ hs]

/-- Witness for the universally quantified part of C8 on the collection
holding {1, 2}: its in order sequence is sorted and the difference with a
fresh empty set iterates to the same keys. -/
theorem c8_set_algebra_witness :
    List.Sorted (· < ·) (Tree.inorderKeys (buildAdds false 0 0 [1, 2]).root) ∧
    iterKeys (set_diff (buildAdds false 0 0 [1, 2]) (init false 0 0)).root =
      iterKeys (buildAdds false 0 0 [1, 2]).root :=
  ⟨by decide, c8_set_algebra.2 (buildAdds false 0 0 [1, 2]) (by decide)⟩

end BBST

/-! ### Heights under ascending insertion -/

namespace BBST

theorem insertFast_gt_chain :
    ∀ (ks : List Int) (k : Int), (∀ y ∈ ks, y < k) →
      insertFast (chainOf ks) k = some (chainOf (ks ++ [k])) := by
  intro ks
  induction ks with
  | nil => intro k _; rfl
  | cons x xs ih =>
    intro k h
    have hx : x < k := h x (by simp)
    have h2 : ∀ y ∈ xs, y < k := fun y hy => h y (by simp [hy])
    simp only [chainOf, insertFast, if_neg (by omega : ¬ k < x), if_pos hx, ih k h2,
      Option.map_some']
    simp [List.length_append]

theorem getHeight_chainOf : ∀ ks : List Int, (chainOf ks).getHeight = (ks.length : Int) - 1 := by
  intro ks
  induction ks with
  | nil => rfl
  | cons x xs ih =>
    simp only [chainOf, Tree.getHeight, ih]
    rw [max_eq_right (by omega : (-1 : Int) ≤ (xs.length : Int) - 1)]
    simp only [List.length_cons]
    push_cast
    omega

theorem buildFast_chain (tb bb : Nat) :
    ∀ (ks p : List Int) (sz : Int), List.Pairwise (· < ·) (p ++ ks) →
      ks.foldl (fun s k => (addFast s k).1) ⟨false, tb, bb, chainOf p, sz⟩ =
        ⟨false, tb, bb, chainOf (p ++ ks), sz + ks.length⟩ := by
  intro ks
  induction ks with
  | nil => intro p sz _; simp
  | cons k ks2 ih =>
    intro p sz h
    have hpk : ∀ y ∈ p, y < k := by
      intro y hy
      rcases List.pairwise_append.mp h with ⟨_, _, hcross⟩
      exact hcross y hy k (by simp)
    have step : (addFast ⟨false, tb, bb, chainOf p, sz⟩ k).1 =
        ⟨false, tb, bb, chainOf (p ++ [k]), sz + 1⟩ := by
      cases p with
      | nil => rfl
        | cons a as =>
        have hi := insertFast_gt_chain (a :: as) k hpk
        simp only [chainOf] at hi ⊢
        simp [addFast, hi]
    have hp2 : List.Pairwise (· < ·) ((p ++ [k]) ++ ks2) := by
      rw [List.append_assoc]
      simpa using h
    have happ : (p ++ [k]) ++ ks2 = p ++ k :: ks2 := by simp
    simp only [List.foldl_cons, step, ih (p ++ [k]) (sz + 1) hp2, happ, List.length_cons]
    simp only [BalancedBSTSet.mk.injEq, true_and, and_true]
    push_cast
    ring

theorem keySeg_pairwise (a b : Nat) : List.Pairwise (· < ·) (keySeg a b) := by
  rw [keySeg, List.pairwise_map]
  refine (List.pairwise_lt_range (b - a)).imp ?_
  intro i j hij
  dsimp only
  omega

theorem keySeg_length (a b : Nat) : (keySeg a b).length = b - a := by
  rw [keySeg, List.length_map, List.length_range]

set_option maxRecDepth 400000 in
theorem keySeg_split_1000 :
    keySeg 0 1000 = keySeg 0 250 ++ keySeg 250 500 ++ keySeg 500 750 ++ keySeg 750 1000 := by
  decide

set_option maxRecDepth 400000 in
theorem buildFast_chunk1 : buildFast true 0 0 (keySeg 0 250) = ⟨true, 2, 3, lit250, 250⟩ := by
  decide

set_option maxRecDepth 400000 in
theorem buildFast_chunk2 :
    (keySeg 250 500).foldl (fun s k => (addFast s k).1) ⟨true, 2, 3, lit250, 250⟩ =
      ⟨true, 2, 3, lit500, 500⟩ := by
  decide

set_option maxRecDepth 400000 in
theorem buildFast_chunk3 :
    (keySeg 500 750).foldl (fun s k => (addFast s k).1) ⟨true, 2, 3, lit500, 500⟩ =
      ⟨true, 2, 3, lit750, 750⟩ := by
  decide

set_option maxRecDepth 400000 in
theorem buildFast_chunk4 :
    (keySeg 750 1000).foldl (fun s k => (addFast s k).1) ⟨true, 2, 3, lit750, 750⟩ =
      ⟨true, 2, 3, lit1000, 1000⟩ := by
  decide

theorem buildFast_keySeg_1000 :
    buildFast true 0 0 (keySeg 0 1000) = ⟨true, 2, 3, lit1000, 1000⟩ := by
  rw [buildFast, keySeg_split_1000, List.foldl_append, List.foldl_append, List.foldl_append]
  rw [show (keySeg 0 250).foldl (fun s k => (addFast s k).1) (init true 0 0) =
      (⟨true, 2, 3, lit250, 250⟩ : BalancedBSTSet) from buildFast_chunk1]
  rw [buildFast_chunk2, buildFast_chunk3, buildFast_chunk4]

set_option maxRecDepth 40000 in
theorem getHeight_lit1000 : Tree.getHeight lit1000 = 12 := by decide

/-- C9: inserting the integers 1 through 1000 in strictly ascending order in
self balancing mode with the default ratio yields a tree of height 12, at
most twice the base two logarithm of 1000, while the plain mode tree built
from the same input has height 999. -/
theorem c9_heights :
    (buildAdds true 0 0 (keySeg 0 1000)).root.getHeight = 12 ∧
    (buildAdds true 0 0 (keySeg 0 1000)).root.getHeight ≤ 2 * (Nat.log2 1000 : Int) ∧
    (buildAdds false 0 0 (keySeg 0 1000)).root.getHeight = 999 := by
  have hsb : (buildAdds true 0 0 (keySeg 0 1000)).root = lit1000 := by
    rw [buildAdds_eq_buildFast, buildFast_keySeg_1000]
  have hpl : (buildAdds false 0 0 (keySeg 0 1000)).root = chainOf (keySeg 0 1000) := by
    rw [buildAdds_eq_buildFast]
    have h0 : init false 0 0 = ⟨false, 2, 3, chainOf [], 0⟩ := rfl
    rw [buildFast, h0, buildFast_chain 2 3 (keySeg 0 1000) [] 0 (by simpa using keySeg_pairwise 0 1000)]
    simp
  refine ⟨by rw [hsb, getHeight_lit1000], ?_, ?_⟩
  · rw [hsb, getHeight_lit1000]
    have : Nat.log2 1000 = 9 := by norm_num [Nat.log2]
    rw [this]
    omega
  · rw [hpl, getHeight_chainOf, keySeg_length]
    norm_num

end BBST
